import Mathlib

/-!
# RS_ASIO: `AsioSharedHost`

A shallow embedding of `RS_ASIO/AsioSharedHost.cpp` and the properties of its
format negotiation, buffer sizing and Start/Stop reference counting.

Conventions of the embedding.

* The code is Windows code (`LoadLibraryA`, `HMODULE`, `DWORD`): `long` is a
  32-bit signed integer, `unsigned` and `DWORD` are 32-bit unsigned, `WORD` is
  16-bit unsigned.  Values of type `long` are `Int`, unsigned values are `Nat`;
  every conversion and every unsigned operation that can wrap is written with
  an explicit modulus.
* The driver (`m_Driver`) is an external COM object.  Each operation of the
  host takes the replies of the driver calls it may issue as an argument and
  returns the list of driver calls it issued.
* Undefined behaviour (reading a vector out of bounds), a thrown exception and
  a loop that never exits are results of their own (`Run.fault`).
-/

namespace RS_ASIO

/-! ## Machine integers -/

/-- The modulus of `DWORD`, `unsigned` and `UINT32`. -/
def DWORD_MOD : Nat := 4294967296

/-- The modulus of `WORD`. -/
def WORD_MOD : Nat := 65536

/-- Conversion of a `long` to `DWORD` (`(DWORD)x`, and the usual arithmetic
conversion when a `long` meets a `DWORD`). -/
def toDWORD (x : Int) : Nat := (x % 4294967296).toNat

/-- Conversion of a `DWORD` to `LONG` (`(LONG)x`). -/
def toLONG (x : Nat) : Int :=
  if x % DWORD_MOD < 2147483648 then ((x % DWORD_MOD : Nat) : Int)
  else ((x % DWORD_MOD : Nat) : Int) - 4294967296

/-- A value that fits the type `long`. -/
def isLong (x : Int) : Prop := -2147483648 ≤ x ∧ x < 2147483648

/-! ## Results of running code -/

/-- What can keep a call from returning normally. -/
inductive Fault where
  /-- a vector element is read at an index that is not below its size -/
  | outOfBounds
  /-- a loop never exits -/
  | diverges
  /-- `std::vector::resize` is asked for a negative `long` converted to `size_t` -/
  | lengthError
  /-- a null function pointer is called -/
  | nullCall
  deriving DecidableEq, Repr

/-- The result of running a piece of code: it returns, or it faults. -/
inductive Run (α : Type) where
  | done (a : α)
  | fault (f : Fault)
  deriving DecidableEq, Repr

/-! ## ASIO SDK and Windows types -/

/-- The type `ASIOError` is a `long`. -/
abbrev ASIOError := Int

def ASE_OK : ASIOError := 0
def ASE_NotPresent : ASIOError := -1000
def ASE_HWMalfunction : ASIOError := -999
def ASE_InvalidParameter : ASIOError := -998

/-- The type `ASIOBool` is a `long`. -/
abbrev ASIOBool := Int

def ASIOFalse : ASIOBool := 0
def ASIOTrue : ASIOBool := 1

/-- The type `ASIOSampleType` is a `long`; the named values are those of `asio.h`. -/
abbrev ASIOSampleType := Int

def ASIOSTInt16MSB : ASIOSampleType := 0
def ASIOSTInt24MSB : ASIOSampleType := 1
def ASIOSTInt32MSB : ASIOSampleType := 2
def ASIOSTFloat32MSB : ASIOSampleType := 3
def ASIOSTFloat64MSB : ASIOSampleType := 4
def ASIOSTInt32MSB16 : ASIOSampleType := 8
def ASIOSTInt32MSB18 : ASIOSampleType := 9
def ASIOSTInt32MSB20 : ASIOSampleType := 10
def ASIOSTInt32MSB24 : ASIOSampleType := 11
def ASIOSTInt16LSB : ASIOSampleType := 16
def ASIOSTInt24LSB : ASIOSampleType := 17
def ASIOSTInt32LSB : ASIOSampleType := 18
def ASIOSTFloat32LSB : ASIOSampleType := 19
def ASIOSTFloat64LSB : ASIOSampleType := 20
def ASIOSTInt32LSB16 : ASIOSampleType := 24
def ASIOSTInt32LSB18 : ASIOSampleType := 25
def ASIOSTInt32LSB20 : ASIOSampleType := 26
def ASIOSTInt32LSB24 : ASIOSampleType := 27

/-- The `ASIOChannelInfo` record of `asio.h`. -/
structure ASIOChannelInfo where
  channel : Int
  isInput : ASIOBool
  isActive : ASIOBool
  channelGroup : Int
  type : ASIOSampleType
  name : String
  deriving DecidableEq, Repr

/-- The `ASIOBufferInfo` record of `asio.h`; a buffer pointer is an address,
`0` being `nullptr`. -/
structure ASIOBufferInfo where
  isInput : ASIOBool
  channelNum : Int
  buffers0 : Nat
  buffers1 : Nat
  deriving DecidableEq, Repr

/-- A Windows `GUID`. -/
structure GUID where
  Data1 : Nat
  Data2 : Nat
  Data3 : Nat
  Data4 : List Nat
  deriving DecidableEq, Repr

/-- The sub-format `00000001-0000-0010-8000-00aa00389b71` of `ksmedia.h`. -/
def KSDATAFORMAT_SUBTYPE_PCM : GUID :=
  { Data1 := 1, Data2 := 0, Data3 := 16, Data4 := [128, 0, 0, 170, 0, 56, 155, 113] }

/-- The sub-format `00000003-0000-0010-8000-00aa00389b71` of `ksmedia.h`. -/
def KSDATAFORMAT_SUBTYPE_IEEE_FLOAT : GUID :=
  { Data1 := 3, Data2 := 0, Data3 := 16, Data4 := [128, 0, 0, 170, 0, 56, 155, 113] }

def WAVE_FORMAT_PCM : Nat := 1
def WAVE_FORMAT_EXTENSIBLE : Nat := 65534

/-- The Windows `WAVEFORMATEX` record; `WORD` and `DWORD` fields are `Nat`. -/
structure WAVEFORMATEX where
  wFormatTag : Nat
  nChannels : Nat
  nSamplesPerSec : Nat
  nAvgBytesPerSec : Nat
  nBlockAlign : Nat
  wBitsPerSample : Nat
  cbSize : Nat
  deriving DecidableEq, Repr

/-- The Windows `WAVEFORMATEXTENSIBLE` record.  A `const WAVEFORMATEX&` argument
is modelled by this record: the code reads the fields after `Format` through
the cast `(const WAVEFORMATEXTENSIBLE&)format`. -/
structure WAVEFORMATEXTENSIBLE where
  Format : WAVEFORMATEX
  wValidBitsPerSample : Nat
  dwChannelMask : Nat
  SubFormat : GUID
  deriving DecidableEq, Repr

/-- The record after `memset(&m_CurrentWaveFormat, 0, sizeof(m_CurrentWaveFormat))`. -/
def WAVEFORMATEXTENSIBLE.zero : WAVEFORMATEXTENSIBLE :=
  { Format := { wFormatTag := 0, nChannels := 0, nSamplesPerSec := 0, nAvgBytesPerSec := 0,
                nBlockAlign := 0, wBitsPerSample := 0, cbSize := 0 }
    wValidBitsPerSample := 0
    dwChannelMask := 0
    SubFormat := { Data1 := 0, Data2 := 0, Data3 := 0, Data4 := [0, 0, 0, 0, 0, 0, 0, 0] } }

/-- Every field of a wave format fits its `WORD` or `DWORD` type. -/
def WAVEFORMATEX.inRange (f : WAVEFORMATEX) : Prop :=
  f.wFormatTag < WORD_MOD ∧ f.nChannels < WORD_MOD ∧ f.nSamplesPerSec < DWORD_MOD ∧
  f.nAvgBytesPerSec < DWORD_MOD ∧ f.nBlockAlign < WORD_MOD ∧ f.wBitsPerSample < WORD_MOD ∧
  f.cbSize < WORD_MOD

/-- The calls the host makes on the driver object. -/
inductive DriverCall where
  | init
  | getChannels
  | getChannelInfo (channel : Int) (isInput : ASIOBool)
  | getDriverName
  | getErrorMessage
  | canSampleRate (sampleRate : Nat)
  | getSampleRate
  | setSampleRate (sampleRate : Nat)
  | getBufferSize
  | createBuffers (numChannels : Nat) (bufferSize : Int)
  | disposeBuffers
  | start
  | stop
  | Release
  deriving DecidableEq, Repr

/-- Modelled from the spec: the enum `BufferSizeMode` is declared in
`AsioSharedHost.h`, which is not among the sources; the spec names two policies,
best fit within the constraints and the driver's preferred size, and the code
names the two enumerators. -/
inductive BufferSizeMode where
  | BufferSizeMode_Default
  | BufferSizeMode_AlwaysPreferred
  deriving DecidableEq, Repr

/-! ## The host -/

/-- Modelled from the spec: the class declaration (`AsioSharedHost.h`) is not
among the sources.  The members are those the methods of `AsioSharedHost.cpp`
use; `m_StartCount` is, as the spec's SessionRefCount, an integer that is at
least 0.  `m_Module` and `m_Driver` are pointers: `true` is non-null. -/
structure AsioSharedHost where
  m_Module : Bool
  m_Driver : Bool
  m_DriverName : String
  m_StartCount : Nat
  m_AsioInChannelInfo : List ASIOChannelInfo
  m_AsioOutChannelInfo : List ASIOChannelInfo
  m_AsioBuffers : List ASIOBufferInfo
  m_NumBufferFrames : Nat
  m_CurrentWaveFormat : WAVEFORMATEXTENSIBLE
  m_dbgNumBufferSwitches : Nat
  m_AsioBufferListeners : List Nat
  deriving DecidableEq, Repr

namespace AsioSharedHost

/-- Method `AsioSharedHost::IsValid`. -/
def IsValid (h : AsioSharedHost) : Bool := h.m_Driver

/-- Method `AsioSharedHost::GetBufferNumFrames`. -/
def GetBufferNumFrames (h : AsioSharedHost) : Nat := h.m_NumBufferFrames

/-- Method `AsioSharedHost::DisplayCurrentError`: the driver calls it issues. -/
def DisplayCurrentError (h : AsioSharedHost) : List DriverCall :=
  if !h.m_Driver then [] else [DriverCall.getErrorMessage]

/-- The local `channelInfo` of `CheckSampleTypeAcrossChannels` and
`IsWaveFormatSupported`: `output ? m_AsioOutChannelInfo : m_AsioInChannelInfo`. -/
def channelInfo (h : AsioSharedHost) (output : Bool) : List ASIOChannelInfo :=
  if output then h.m_AsioOutChannelInfo else h.m_AsioInChannelInfo

/-! ### CheckSampleTypeAcrossChannels -/

/-- The loop of `CheckSampleTypeAcrossChannels` (lines 512-524), entered at
index `i` with `remaining = numAsioChannels - i` iterations to go and the local
`type`.  `some t` is `return true` with `outType = t`; `none` is `return false`
(`outType` is not written).

The index `i + firstAsioChannel` is a `size_t`.  It is below `2 ^ 33`; where
`size_t` has 32 bits it wraps only after index `2 ^ 32 - 1` has been read,
which is out of bounds for every vector, so the first out-of-bounds read is the
one found here. -/
def CheckSampleTypeAcrossChannels_loop (channelInfo : List ASIOChannelInfo)
    (firstAsioChannel : Nat) : Nat → Nat → ASIOSampleType → Run (Option ASIOSampleType)
  | 0, _, type => Run.done (some type)
  | remaining + 1, i, type =>
    match channelInfo[i + firstAsioChannel]? with
    | none => Run.fault Fault.outOfBounds
    | some info =>
      if i = 0 then
        CheckSampleTypeAcrossChannels_loop channelInfo firstAsioChannel remaining (i + 1) info.type
      else if info.type ≠ type then Run.done none
      else CheckSampleTypeAcrossChannels_loop channelInfo firstAsioChannel remaining (i + 1) type

/-- Method `AsioSharedHost::CheckSampleTypeAcrossChannels` (lines 503-528).
`firstAsioChannel` and `numAsioChannels` are `unsigned`; their sum wraps.  The
local `type` starts uninitialised (here 0) and is written at `i = 0`. -/
def CheckSampleTypeAcrossChannels (h : AsioSharedHost) (output : Bool)
    (firstAsioChannel numAsioChannels : Nat) : Run (Option ASIOSampleType) :=
  let n := (h.channelInfo output).length
  if (firstAsioChannel + numAsioChannels) % DWORD_MOD > n ∨ numAsioChannels = 0 then
    Run.done none
  else
    CheckSampleTypeAcrossChannels_loop (h.channelInfo output) firstAsioChannel numAsioChannels 0 0

/-! ### IsWaveFormatSupported -/

/-- The driver replies one call of `IsWaveFormatSupported` consumes. -/
structure FormatReplies where
  getChannels : ASIOError
  numInputChannels : Int
  numOutputChannels : Int
  canSampleRate : ASIOError
  deriving DecidableEq, Repr

/-- A returned value with the driver calls issued on the way. -/
structure Ret (α : Type) where
  ret : α
  calls : List DriverCall
  deriving DecidableEq, Repr

/-- The `switch` statements of lines 387-437: the sample type belongs to the
family of the requested bits per sample. -/
def sampleTypeMatchesBits (wBitsPerSample : Nat) (sampleType : ASIOSampleType) : Bool :=
  if wBitsPerSample = 32 then
    sampleType = ASIOSTInt32MSB || sampleType = ASIOSTFloat32MSB ||
    sampleType = ASIOSTInt32MSB16 || sampleType = ASIOSTInt32MSB18 ||
    sampleType = ASIOSTInt32MSB20 || sampleType = ASIOSTInt32MSB24 ||
    sampleType = ASIOSTInt32LSB || sampleType = ASIOSTFloat32LSB ||
    sampleType = ASIOSTInt32LSB16 || sampleType = ASIOSTInt32LSB18 ||
    sampleType = ASIOSTInt32LSB20 || sampleType = ASIOSTInt32LSB24
  else if wBitsPerSample = 24 then
    sampleType = ASIOSTInt24MSB || sampleType = ASIOSTInt24LSB
  else if wBitsPerSample = 16 then
    sampleType = ASIOSTInt16MSB || sampleType = ASIOSTInt16LSB
  else false

/-- Lines 455-481 of `IsWaveFormatSupported`: the local `bitsPerSample` after the
block for the extensible format; `none` is `return false` inside that block. -/
def IsWaveFormatSupported_bitsPerSample (format : WAVEFORMATEXTENSIBLE) : Option Nat :=
  if format.Format.wFormatTag = WAVE_FORMAT_EXTENSIBLE ∧ format.Format.cbSize ≥ 22 then
    if format.SubFormat ≠ KSDATAFORMAT_SUBTYPE_PCM ∧
        format.SubFormat ≠ KSDATAFORMAT_SUBTYPE_IEEE_FLOAT then none
    else if format.SubFormat = KSDATAFORMAT_SUBTYPE_IEEE_FLOAT then none
    else if format.Format.wBitsPerSample < format.wValidBitsPerSample then none
    else some format.wValidBitsPerSample
  else some format.Format.wBitsPerSample

/-- Lines 439-500 of `IsWaveFormatSupported`: the checks made once the common
sample type is known and matches the bits per sample.  `expectedBlockAlign` is a
`WORD` and `expectedBytesPerSec` a `DWORD`: both products are truncated; the
product `4 * format.nChannels` is an `int` and is not. -/
def IsWaveFormatSupported_tail (format : WAVEFORMATEXTENSIBLE) (sampleType : ASIOSampleType) :
    Bool :=
  let expectedBlockAlign := ((format.Format.wBitsPerSample / 8) * format.Format.nChannels) % WORD_MOD
  if format.Format.nBlockAlign ≠ expectedBlockAlign then false
  else
    let expectedBytesPerSec := (format.Format.nBlockAlign * format.Format.nSamplesPerSec) % DWORD_MOD
    if format.Format.nAvgBytesPerSec ≠ expectedBytesPerSec then false
    else
      match IsWaveFormatSupported_bitsPerSample format with
      | none => false
      | some bitsPerSample =>
        if format.Format.nBlockAlign ≠ 4 * format.Format.nChannels then false
        else if bitsPerSample ≠ 24 then false
        else if sampleType ≠ ASIOSTInt32LSB then false
        else true

/-- Method `AsioSharedHost::IsWaveFormatSupported` (lines 336-501). -/
def IsWaveFormatSupported (h : AsioSharedHost) (format : WAVEFORMATEXTENSIBLE) (output : Bool)
    (firstAsioChannel numAsioChannels : Nat) (drv : FormatReplies) : Run (Ret Bool) :=
  if !h.IsValid then Run.done ⟨false, []⟩
  else if drv.getChannels ≠ ASE_OK then Run.done ⟨false, [DriverCall.getChannels]⟩
  else if format.Format.wFormatTag ≠ WAVE_FORMAT_PCM ∧
      format.Format.wFormatTag ≠ WAVE_FORMAT_EXTENSIBLE then
    Run.done ⟨false, [DriverCall.getChannels]⟩
  else
    let maxChannels := if output then drv.numOutputChannels else drv.numInputChannels
    if (format.Format.nChannels : Int) > maxChannels then
      Run.done ⟨false, [DriverCall.getChannels]⟩
    else
      let calls := [DriverCall.getChannels, DriverCall.canSampleRate format.Format.nSamplesPerSec]
      if drv.canSampleRate ≠ ASE_OK then Run.done ⟨false, calls⟩
      else if format.Format.wBitsPerSample % 8 ≠ 0 then Run.done ⟨false, calls⟩
      else
        match CheckSampleTypeAcrossChannels h output firstAsioChannel numAsioChannels with
        | Run.fault f => Run.fault f
        | Run.done none => Run.done ⟨false, calls⟩
        | Run.done (some sampleType) =>
          if !sampleTypeMatchesBits format.Format.wBitsPerSample sampleType then
            Run.done ⟨false, calls⟩
          else Run.done ⟨IsWaveFormatSupported_tail format sampleType, calls⟩

/-! ### Start -/

/-- The driver replies one call of `Start` consumes.  `asioSampleRate` is
`std::lround` of the rate the driver reports; `bufferPtrs i` is what
`createBuffers` leaves in the buffer info at index `i`. -/
structure StartReplies where
  inputFormat : FormatReplies
  outputFormat : FormatReplies
  getSampleRate : ASIOError
  asioSampleRate : Int
  setSampleRate : ASIOError
  getBufferSize : ASIOError
  minAsioBufferFrames : Int
  maxAsioBufferFrames : Int
  preferredAsioBufferFrames : Int
  asioBufferGranularity : Int
  createBuffers : ASIOError
  bufferPtrs : Nat → ASIOBufferInfo → ASIOBufferInfo
  start : ASIOError
  disposeBuffers : ASIOError

/-- The host after a call, the value returned and the driver calls issued. -/
structure Outcome where
  host : AsioSharedHost
  ret : ASIOError
  calls : List DriverCall
  deriving DecidableEq, Repr

/-- The loop of lines 200-204, `while (pow2size < bufferDurationFrames &&
pow2size < (DWORD)maxAsioBufferFrames) pow2size *= 2;`, run for at most `fuel`
tests of its condition; `none` when the fuel runs out. -/
def Start_pow2Loop : Nat → Nat → Nat → Nat → Option Nat
  | 0, _, _, _ => none
  | fuel + 1, pow2size, bufferDurationFrames, maxFrames =>
    if pow2size < bufferDurationFrames ∧ pow2size < maxFrames then
      Start_pow2Loop fuel ((pow2size * 2) % DWORD_MOD) bufferDurationFrames maxFrames
    else some pow2size

/-- Lines 185-188 of `Start`: the clamp of the best-fit mode. -/
def Start_clamp (bufferDurationFrames : Nat) (minAsioBufferFrames maxAsioBufferFrames : Int) :
    Nat :=
  if bufferDurationFrames < toDWORD minAsioBufferFrames then toDWORD minAsioBufferFrames
  else if bufferDurationFrames > toDWORD maxAsioBufferFrames then toDWORD minAsioBufferFrames
  else bufferDurationFrames

/-- Lines 190-206 of `Start`: the granularity step of the best-fit mode.  After
33 tests of its condition the power-of-two counter has wrapped to 0 and the
loop never exits (`Start_pow2Loop_none_forever`). -/
def Start_granularity (bufferDurationFrames : Nat)
    (maxAsioBufferFrames asioBufferGranularity : Int) : Run Nat :=
  if asioBufferGranularity > 1 then
    let mod := bufferDurationFrames % toDWORD asioBufferGranularity
    if mod ≠ 0 then
      Run.done ((bufferDurationFrames + toDWORD (asioBufferGranularity - (mod : Int))) % DWORD_MOD)
    else Run.done bufferDurationFrames
  else if asioBufferGranularity = -1 then
    match Start_pow2Loop 33 1 bufferDurationFrames (toDWORD maxAsioBufferFrames) with
    | some pow2size => Run.done pow2size
    | none => Run.fault Fault.diverges
  else Run.done bufferDurationFrames

/-- Lines 180-207 of `Start`: the decided `bufferDurationFrames`. -/
def Start_decideBufferSize (bufferSizeMode : BufferSizeMode) (suggestedBufferDurationFrames : Nat)
    (drv : StartReplies) : Run Nat :=
  let bufferDurationFrames :=
    if bufferSizeMode = BufferSizeMode.BufferSizeMode_AlwaysPreferred
    then toDWORD drv.preferredAsioBufferFrames else suggestedBufferDurationFrames
  if bufferSizeMode = BufferSizeMode.BufferSizeMode_Default then
    Start_granularity
      (Start_clamp bufferDurationFrames drv.minAsioBufferFrames drv.maxAsioBufferFrames)
      drv.maxAsioBufferFrames drv.asioBufferGranularity
  else Run.done bufferDurationFrames

/-- Lines 240-257 of `Start`: the buffer infos handed to `createBuffers`, the
outputs first and then the inputs, each with its channel number and null
pointers. -/
def Start_bufferInfos (h : AsioSharedHost) : List ASIOBufferInfo :=
  (List.range h.m_AsioOutChannelInfo.length).map
      (fun outC => { isInput := ASIOFalse, channelNum := (outC : Int), buffers0 := 0, buffers1 := 0 })
  ++ (List.range h.m_AsioInChannelInfo.length).map
      (fun inC => { isInput := ASIOTrue, channelNum := (inC : Int), buffers0 := 0, buffers1 := 0 })

/-- Lines 239-290 of `Start`: buffer creation, the record of frame count and
format, the driver start and the increment; `calls` are the driver calls
issued so far. -/
def Start_session (h : AsioSharedHost) (format : WAVEFORMATEXTENSIBLE)
    (bufferDurationFrames : Nat) (drv : StartReplies) (calls : List DriverCall) : Outcome :=
  let infos := Start_bufferInfos h
  let calls1 := calls ++ [DriverCall.createBuffers infos.length (toLONG bufferDurationFrames)]
  if drv.createBuffers ≠ ASE_OK then
    { host := { h with m_AsioBuffers := [] }
      ret := ASE_HWMalfunction
      calls := calls1 ++ h.DisplayCurrentError }
  else
    let h1 : AsioSharedHost :=
      { h with
        m_AsioBuffers := infos.mapIdx drv.bufferPtrs
        m_dbgNumBufferSwitches := 0
        m_NumBufferFrames := bufferDurationFrames
        m_CurrentWaveFormat :=
          if format.Format.wFormatTag = WAVE_FORMAT_EXTENSIBLE then format
          else { h.m_CurrentWaveFormat with Format := format.Format } }
    let calls2 := calls1 ++ [DriverCall.start]
    if drv.start ≠ ASE_OK then
      { host := { h1 with m_AsioBuffers := [] }
        ret := ASE_HWMalfunction
        calls := calls2 ++ h.DisplayCurrentError ++ [DriverCall.disposeBuffers] ++
          (if drv.disposeBuffers ≠ ASE_OK then h.DisplayCurrentError else []) }
    else
      { host := { h1 with m_StartCount := h1.m_StartCount + 1 }
        ret := ASE_OK
        calls := calls2 }

/-- Lines 179-237 of `Start`: the size decision and its checks, then
`Start_session`. -/
def Start_sizing (DurationToAudioFrames : Int → Nat → Int) (h : AsioSharedHost)
    (format : WAVEFORMATEXTENSIBLE) (suggestedBufferDuration : Int)
    (bufferSizeMode : BufferSizeMode) (allowSmallerBuffer : Bool) (drv : StartReplies)
    (calls : List DriverCall) : Run Outcome :=
  let suggestedBufferDurationFrames :=
    toDWORD (DurationToAudioFrames suggestedBufferDuration format.Format.nSamplesPerSec)
  match Start_decideBufferSize bufferSizeMode suggestedBufferDurationFrames drv with
  | Run.fault f => Run.fault f
  | Run.done bufferDurationFrames =>
    if bufferDurationFrames < suggestedBufferDurationFrames ∧ !allowSmallerBuffer then
      Run.done { host := h, ret := ASE_InvalidParameter, calls := calls }
    else if bufferDurationFrames < toDWORD drv.minAsioBufferFrames then
      Run.done { host := h, ret := ASE_InvalidParameter, calls := calls }
    else if bufferDurationFrames > toDWORD drv.maxAsioBufferFrames then
      Run.done { host := h, ret := ASE_InvalidParameter, calls := calls }
    else Run.done (Start_session h format bufferDurationFrames drv calls)

/-- Lines 149-175 of `Start`: the sample rate switch and the buffer size query,
then `Start_sizing`. -/
def Start_sampleRate (DurationToAudioFrames : Int → Nat → Int) (h : AsioSharedHost)
    (format : WAVEFORMATEXTENSIBLE) (suggestedBufferDuration : Int)
    (bufferSizeMode : BufferSizeMode) (allowSmallerBuffer : Bool) (drv : StartReplies)
    (calls : List DriverCall) : Run Outcome :=
  let calls1 := calls ++ [DriverCall.getSampleRate]
  if drv.getSampleRate ≠ ASE_OK then
    Run.done { host := h, ret := ASE_HWMalfunction, calls := calls1 ++ h.DisplayCurrentError }
  else
    let switch := toDWORD drv.asioSampleRate ≠ format.Format.nSamplesPerSec
    let calls2 :=
      if switch then calls1 ++ [DriverCall.setSampleRate format.Format.nSamplesPerSec] else calls1
    if switch ∧ drv.setSampleRate ≠ ASE_OK then
      Run.done { host := h, ret := ASE_HWMalfunction, calls := calls2 ++ h.DisplayCurrentError }
    else
      let calls3 := calls2 ++ [DriverCall.getBufferSize]
      if drv.getBufferSize ≠ ASE_OK then
        Run.done { host := h, ret := ASE_HWMalfunction, calls := calls3 ++ h.DisplayCurrentError }
      else
        Start_sizing DurationToAudioFrames h format suggestedBufferDuration bufferSizeMode
          allowSmallerBuffer drv calls3

/-- Lines 140-147 of `Start`: the format check on the outputs, then
`Start_sampleRate`.  The `size_t` size of the channel list is converted to the
`unsigned` parameter `numAsioChannels`. -/
def Start_outputs (DurationToAudioFrames : Int → Nat → Int) (h : AsioSharedHost)
    (format : WAVEFORMATEXTENSIBLE) (suggestedBufferDuration : Int)
    (bufferSizeMode : BufferSizeMode) (allowSmallerBuffer : Bool) (drv : StartReplies)
    (calls : List DriverCall) : Run Outcome :=
  if h.m_AsioOutChannelInfo.length ≠ 0 then
    match IsWaveFormatSupported h format true 0 (h.m_AsioOutChannelInfo.length % DWORD_MOD)
        drv.outputFormat with
    | Run.fault f => Run.fault f
    | Run.done r =>
      if !r.ret then
        Run.done { host := h, ret := ASE_HWMalfunction, calls := calls ++ r.calls }
      else
        Start_sampleRate DurationToAudioFrames h format suggestedBufferDuration bufferSizeMode
          allowSmallerBuffer drv (calls ++ r.calls)
  else
    Start_sampleRate DurationToAudioFrames h format suggestedBufferDuration bufferSizeMode
      allowSmallerBuffer drv calls

/-- Method `AsioSharedHost::Start` (lines 123-291).  `DurationToAudioFrames` is
a helper of the repository that is not among the sources; it is a parameter. -/
def Start (DurationToAudioFrames : Int → Nat → Int) (h : AsioSharedHost)
    (format : WAVEFORMATEXTENSIBLE) (suggestedBufferDuration : Int)
    (bufferSizeMode : BufferSizeMode) (allowSmallerBuffer : Bool) (drv : StartReplies) :
    Run Outcome :=
  if !h.IsValid then Run.done { host := h, ret := ASE_NotPresent, calls := [] }
  else if h.m_StartCount = 0 then
    if h.m_AsioInChannelInfo.length ≠ 0 then
      match IsWaveFormatSupported h format false 0 (h.m_AsioInChannelInfo.length % DWORD_MOD)
          drv.inputFormat with
      | Run.fault f => Run.fault f
      | Run.done r =>
        if !r.ret then Run.done { host := h, ret := ASE_HWMalfunction, calls := r.calls }
        else
          Start_outputs DurationToAudioFrames h format suggestedBufferDuration bufferSizeMode
            allowSmallerBuffer drv r.calls
    else
      Start_outputs DurationToAudioFrames h format suggestedBufferDuration bufferSizeMode
        allowSmallerBuffer drv []
  else
    Run.done { host := { h with m_StartCount := h.m_StartCount + 1 }, ret := ASE_OK, calls := [] }

/-! ### Stop -/

/-- The driver replies one call of `Stop` consumes. -/
structure StopReplies where
  stop : ASIOError
  disposeBuffers : ASIOError
  deriving DecidableEq, Repr

/-- The host after a call of `Stop` and the driver calls issued. -/
structure StopOutcome where
  host : AsioSharedHost
  calls : List DriverCall
  deriving DecidableEq, Repr

/-- Method `AsioSharedHost::Stop` (lines 293-320). -/
def Stop (h : AsioSharedHost) (drv : StopReplies) : StopOutcome :=
  if h.m_StartCount = 0 then { host := h, calls := [] }
  else
    let h1 : AsioSharedHost := { h with m_StartCount := h.m_StartCount - 1 }
    if h1.m_StartCount = 0 ∧ h1.m_Driver then
      { host :=
          { h1 with
            m_NumBufferFrames := 0
            m_AsioBuffers := []
            m_AsioInChannelInfo := []
            m_AsioOutChannelInfo := []
            m_CurrentWaveFormat := WAVEFORMATEXTENSIBLE.zero }
        calls :=
          [DriverCall.stop] ++ (if drv.stop ≠ ASE_OK then h1.DisplayCurrentError else []) ++
          [DriverCall.disposeBuffers] ++
          (if drv.disposeBuffers ≠ ASE_OK then h1.DisplayCurrentError else []) }
    else { host := h1, calls := [] }

/-! ### Construction -/

/-- The replies of the operating system and of the driver to the constructor.
`LoadLibraryA`, `GetProcAddress`: the pointer returned is non-null;
`DllGetClassObject`: `SUCCEEDED(hr) && pClassFactory`; `CreateInstance`:
`SUCCEEDED(hr)`, and `m_Driver` is non-null exactly then; `getChannelInfo q`:
the error code and the record the driver leaves for the query record `q`. -/
structure AttachReplies where
  LoadLibraryA : Bool
  GetProcAddress : Bool
  DllGetClassObject : Bool
  CreateInstance : Bool
  init : ASIOBool
  getChannels : ASIOError
  numInputChannels : Int
  numOutputChannels : Int
  getChannelInfo : ASIOChannelInfo → ASIOError × ASIOChannelInfo
  getDriverName : String

/-- The element `std::vector::resize` appends: a value-initialised record. -/
def ASIOChannelInfo_zero : ASIOChannelInfo :=
  { channel := 0, isInput := 0, isActive := 0, channelGroup := 0, type := 0, name := "" }

/-- The loops of lines 61-71 and 72-82, entered at index `i` with `err` false,
over the elements from index `i` on: the elements after the loop, the flag
`err`, and the driver calls issued. -/
def construct_queryLoop (drv : AttachReplies) (isInput : ASIOBool) :
    Nat → List ASIOChannelInfo → List ASIOChannelInfo × Bool × List DriverCall
  | _, [] => ([], false, [])
  | i, ci :: rest =>
    let reply := drv.getChannelInfo { ci with channel := (i : Int), isInput := isInput }
    if reply.1 ≠ ASE_OK then
      (reply.2 :: rest, true,
        [DriverCall.getChannelInfo (i : Int) isInput, DriverCall.getErrorMessage])
    else
      let after := construct_queryLoop drv isInput (i + 1) rest
      (reply.2 :: after.1, after.2.1, DriverCall.getChannelInfo (i : Int) isInput :: after.2.2)

/-- Lines 19-43 of the constructor: whether `m_Driver` is non-null after the
module load, the factory handshake and `init`, and the driver calls issued. -/
def construct_attach (drv : AttachReplies) : Run (Bool × List DriverCall) :=
  if drv.LoadLibraryA then
    if !drv.GetProcAddress then Run.fault Fault.nullCall
    else if drv.DllGetClassObject then
      if drv.CreateInstance then
        if drv.init = ASIOFalse then
          Run.done (false, [DriverCall.init, DriverCall.getErrorMessage, DriverCall.Release])
        else Run.done (true, [DriverCall.init])
      else Run.done (false, [])
    else Run.done (false, [])
  else Run.done (false, [])

/-- Modelled from the spec: the member initialisers are in `AsioSharedHost.h`,
which is not among the sources.  The host before line 19 has no module and no
driver, start count 0, no channel, no buffer slot and frame count 0, as the spec
has an idle host, and the format zeroed by line 17. -/
def construct_initial : AsioSharedHost :=
  { m_Module := false
    m_Driver := false
    m_DriverName := ""
    m_StartCount := 0
    m_AsioInChannelInfo := []
    m_AsioOutChannelInfo := []
    m_AsioBuffers := []
    m_NumBufferFrames := 0
    m_CurrentWaveFormat := WAVEFORMATEXTENSIBLE.zero
    m_dbgNumBufferSwitches := 0
    m_AsioBufferListeners := [] }

/-- The constructor `AsioSharedHost::AsioSharedHost` (lines 6-100): the host
constructed and the driver calls issued. -/
def construct (drv : AttachReplies) : Run (AsioSharedHost × List DriverCall) :=
  match construct_attach drv with
  | Run.fault f => Run.fault f
  | Run.done (driver, calls) =>
    let h0 : AsioSharedHost :=
      { construct_initial with m_Module := drv.LoadLibraryA, m_Driver := driver }
    if !driver then Run.done (h0, calls)
    else if drv.getChannels ≠ ASE_OK then
      Run.done ({ h0 with m_AsioInChannelInfo := [], m_AsioOutChannelInfo := [], m_Driver := false },
        calls ++ [DriverCall.getChannels] ++ h0.DisplayCurrentError ++ [DriverCall.Release])
    else if drv.numInputChannels < 0 ∨ drv.numOutputChannels < 0 then
      Run.fault Fault.lengthError
    else
      let ins := construct_queryLoop drv ASIOTrue 0
        (List.replicate drv.numInputChannels.toNat ASIOChannelInfo_zero)
      let outs :=
        if ins.2.1 then
          (List.replicate drv.numOutputChannels.toNat ASIOChannelInfo_zero, true, [])
        else
          construct_queryLoop drv ASIOFalse 0
            (List.replicate drv.numOutputChannels.toNat ASIOChannelInfo_zero)
      let calls1 :=
        calls ++ [DriverCall.getChannels] ++ ins.2.2 ++ outs.2.2 ++ [DriverCall.getDriverName]
      if outs.2.1 then
        Run.done
          ({ h0 with
              m_AsioInChannelInfo := []
              m_AsioOutChannelInfo := []
              m_DriverName := drv.getDriverName
              m_Driver := false },
            calls1 ++ h0.DisplayCurrentError ++ [DriverCall.Release])
      else
        Run.done
          ({ h0 with
              m_AsioInChannelInfo := ins.1
              m_AsioOutChannelInfo := outs.1
              m_DriverName := drv.getDriverName },
            calls1)

/-! ### Reachable hosts -/

/-- The hosts reachable from construction by calls of `Start` and `Stop`, with
any arguments and any driver replies. -/
inductive Reachable (DurationToAudioFrames : Int → Nat → Int) : AsioSharedHost → Prop
  | construct (drv : AttachReplies) (h : AsioSharedHost) (calls : List DriverCall) :
      AsioSharedHost.construct drv = Run.done (h, calls) → Reachable DurationToAudioFrames h
  | start (h : AsioSharedHost) (format : WAVEFORMATEXTENSIBLE) (suggestedBufferDuration : Int)
      (bufferSizeMode : BufferSizeMode) (allowSmallerBuffer : Bool) (drv : StartReplies)
      (r : Outcome) :
      Reachable DurationToAudioFrames h →
      Start DurationToAudioFrames h format suggestedBufferDuration bufferSizeMode
        allowSmallerBuffer drv = Run.done r →
      Reachable DurationToAudioFrames r.host
  | stop (h : AsioSharedHost) (drv : StopReplies) :
      Reachable DurationToAudioFrames h → Reachable DurationToAudioFrames (Stop h drv).host


/-! ### Buffer access -/

/-- Method `AsioSharedHost::GetOutputBuffer` (lines 551-560).  The pointer
returned is given by the index of the slot of `m_AsioBuffers` it points to;
`none` is `nullptr`.  Taking `&m_AsioBuffers[channel]` with the index not below
the size of the vector is out of bounds. -/
def GetOutputBuffer (h : AsioSharedHost) (channel : Nat) : Run (Option Nat) :=
  if h.m_StartCount = 0 then Run.done none
  else if channel ≥ h.m_AsioOutChannelInfo.length then Run.done none
  else if channel < h.m_AsioBuffers.length then Run.done (some channel)
  else Run.fault Fault.outOfBounds

/-- Method `AsioSharedHost::GetInputBuffer` (lines 562-571), as
`GetOutputBuffer`; the index is `m_AsioOutChannelInfo.size() + channel`. -/
def GetInputBuffer (h : AsioSharedHost) (channel : Nat) : Run (Option Nat) :=
  if h.m_StartCount = 0 then Run.done none
  else if channel ≥ h.m_AsioInChannelInfo.length then Run.done none
  else if h.m_AsioOutChannelInfo.length + channel < h.m_AsioBuffers.length then
    Run.done (some (h.m_AsioOutChannelInfo.length + channel))
  else Run.fault Fault.outOfBounds

/-! ### Listeners -/

/-- Method `AsioSharedHost::AddBufferSwitchListener` (lines 322-326): `emplace`
on the set of listeners.  The container is declared in `AsioSharedHost.h`; the
calls `emplace`, `find` and `erase` are those of a set, which the spec has too,
and a listener is given by the address it lives at. -/
def AddBufferSwitchListener (h : AsioSharedHost) (listener : Nat) : AsioSharedHost :=
  if listener ∈ h.m_AsioBufferListeners then h
  else { h with m_AsioBufferListeners := h.m_AsioBufferListeners ++ [listener] }

/-- Method `AsioSharedHost::RemoveBufferSwitchListener` (lines 328-334): `find`
and `erase` on the set of listeners. -/
def RemoveBufferSwitchListener (h : AsioSharedHost) (listener : Nat) : AsioSharedHost :=
  { h with m_AsioBufferListeners := h.m_AsioBufferListeners.erase listener }

/-! ### The buffer switch callback -/

/-- The memory the driver's buffers live in: the byte at each address. -/
abbrev Memory := Nat → Nat

/-- The call `memset(p, 0, n)`: the `n` bytes from address `p` on become 0. -/
def memset (mem : Memory) (p n : Nat) : Memory :=
  fun a => if p ≤ a ∧ a < p + n then 0 else mem a

/-- The pointer `asioBuffer->buffers[doubleBufferIndex]`; the array has two
elements. -/
def bufferPointer (b : ASIOBufferInfo) (doubleBufferIndex : Int) : Run Nat :=
  if doubleBufferIndex = 0 then Run.done b.buffers0
  else if doubleBufferIndex = 1 then Run.done b.buffers1
  else Run.fault Fault.outOfBounds

/-- The local `numBufferBytes` of the callback (line 601): an `unsigned`
product of a `UINT32` and a `WORD`. -/
def numBufferBytes (h : AsioSharedHost) : Nat :=
  (h.m_NumBufferFrames * h.m_CurrentWaveFormat.Format.nBlockAlign) % DWORD_MOD

/-- The loop of lines 603-610, entered at index `i` with `remaining = numOuts - i`
iterations to go: the memory after the outputs from `i` on were zeroed.  The
`size_t` index is converted to the `unsigned` parameter of `GetOutputBuffer`. -/
def AsioCalback_bufferSwitch_loop (h : AsioSharedHost) (doubleBufferIndex : Int) :
    Nat → Nat → Memory → Run Memory
  | 0, _, mem => Run.done mem
  | remaining + 1, i, mem =>
    match GetOutputBuffer h (i % DWORD_MOD) with
    | Run.fault f => Run.fault f
    | Run.done none =>
      AsioCalback_bufferSwitch_loop h doubleBufferIndex remaining (i + 1) mem
    | Run.done (some index) =>
      match h.m_AsioBuffers[index]? with
      | none => Run.fault Fault.outOfBounds
      | some asioBuffer =>
        match bufferPointer asioBuffer doubleBufferIndex with
        | Run.fault f => Run.fault f
        | Run.done p =>
          AsioCalback_bufferSwitch_loop h doubleBufferIndex remaining (i + 1)
            (memset mem p (numBufferBytes h))

/-- What one invocation of the callback leaves: the host (its debug counter
moved), the memory when the listeners are notified, and the notifications in
order, each a listener with the half index it is given. -/
structure BufferSwitchOutcome where
  host : AsioSharedHost
  mem : Memory
  notified : List (Nat × Nat)

/-- Method `AsioSharedHost::AsioCalback_bufferSwitch` (lines 584-617).  The
mutex and the log are not modelled; the listeners are notified after the loop
that zeroes the outputs, with `(unsigned)doubleBufferIndex`. -/
def AsioCalback_bufferSwitch (h : AsioSharedHost) (mem : Memory) (doubleBufferIndex : Int) :
    Run BufferSwitchOutcome :=
  let h1 : AsioSharedHost :=
    if h.m_dbgNumBufferSwitches < 2 then
      { h with m_dbgNumBufferSwitches := h.m_dbgNumBufferSwitches + 1 }
    else if h.m_dbgNumBufferSwitches = 2 then
      { h with m_dbgNumBufferSwitches := h.m_dbgNumBufferSwitches + 1 }
    else h
  match AsioCalback_bufferSwitch_loop h1 doubleBufferIndex h1.m_AsioOutChannelInfo.length 0 mem
    with
  | Run.fault f => Run.fault f
  | Run.done mem1 =>
    Run.done
      { host := h1
        mem := mem1
        notified := h1.m_AsioBufferListeners.map (fun listener => (listener, toDWORD doubleBufferIndex)) }

/-! ## Definitions that follow the words of the spec, and example inputs -/

/-- The effective valid-bit depth of a request, in the words of the spec:
`wValidBitsPerSample` for an extensible format with `cbSize >= 22`, otherwise
`wBitsPerSample`. -/
def effectiveValidBits (format : WAVEFORMATEXTENSIBLE) : Nat :=
  if format.Format.wFormatTag = WAVE_FORMAT_EXTENSIBLE ∧ format.Format.cbSize ≥ 22
  then format.wValidBitsPerSample else format.Format.wBitsPerSample

/-- A host with two output channels and two input channels of type
`ASIOSTInt32LSB`, attached and idle. -/
def exampleHost : AsioSharedHost :=
  { m_Module := true
    m_Driver := true
    m_DriverName := "driver"
    m_StartCount := 0
    m_AsioInChannelInfo :=
      [{ channel := 0, isInput := 1, isActive := 0, channelGroup := 0, type := 18, name := "in0" },
       { channel := 1, isInput := 1, isActive := 0, channelGroup := 0, type := 18, name := "in1" }]
    m_AsioOutChannelInfo :=
      [{ channel := 0, isInput := 0, isActive := 0, channelGroup := 0, type := 18, name := "out0" },
       { channel := 1, isInput := 0, isActive := 0, channelGroup := 0, type := 18, name := "out1" }]
    m_AsioBuffers := []
    m_NumBufferFrames := 0
    m_CurrentWaveFormat := WAVEFORMATEXTENSIBLE.zero
    m_dbgNumBufferSwitches := 0
    m_AsioBufferListeners := [] }

/-- The one operating point: two channels at 48 kHz, 24 valid bits in a 32-bit
container, extensible integer PCM. -/
def exampleFormat : WAVEFORMATEXTENSIBLE :=
  { Format := { wFormatTag := 65534, nChannels := 2, nSamplesPerSec := 48000,
                nAvgBytesPerSec := 384000, nBlockAlign := 8, wBitsPerSample := 32, cbSize := 22 }
    wValidBitsPerSample := 24
    dwChannelMask := 3
    SubFormat := KSDATAFORMAT_SUBTYPE_PCM }

/-- Replies of a driver that has two inputs and two outputs and accepts the
sample rate. -/
def exampleFormatReplies : FormatReplies :=
  { getChannels := 0, numInputChannels := 2, numOutputChannels := 2, canSampleRate := 0 }

/-- The driver calls that create, dispose, start or stop the buffers of a
session; every other call is a query or a sample-rate switch. -/
def touchesSession : DriverCall → Bool
  | DriverCall.createBuffers _ _ => true
  | DriverCall.disposeBuffers => true
  | DriverCall.start => true
  | DriverCall.stop => true
  | _ => false

/-- The requested frame count of a `Start` call: the suggested duration
converted to frames, as the `DWORD` `suggestedBufferDurationFrames`. -/
def requestedFrames (DurationToAudioFrames : Int → Nat → Int) (format : WAVEFORMATEXTENSIBLE)
    (suggestedBufferDuration : Int) : Nat :=
  toDWORD (DurationToAudioFrames suggestedBufferDuration format.Format.nSamplesPerSec)

/-- No call of the list creates, disposes, starts or stops buffers. -/
def quietCalls (calls : List DriverCall) : Bool :=
  calls.all (fun c => !touchesSession c)

/-- The three ways a `Start` call at start count 0 on a valid host can end:
an early `ASE_HWMalfunction` with the host untouched, an `ASE_InvalidParameter`
from the size checks with the host untouched, or the session stage run with the
decided frame count.  Up to the session stage no call creates, disposes, starts
or stops buffers. -/
def StartShape (D2F : Int → Nat → Int) (h : AsioSharedHost) (format : WAVEFORMATEXTENSIBLE)
    (dur : Int) (mode : BufferSizeMode) (allow : Bool) (drv : StartReplies) (r : Outcome) :
    Prop :=
  ∃ calls, quietCalls calls = true ∧
    (r = { host := h, ret := ASE_HWMalfunction, calls := calls } ∨
     ∃ frames, Start_decideBufferSize mode (requestedFrames D2F format dur) drv = Run.done frames ∧
      ((r = { host := h, ret := ASE_InvalidParameter, calls := calls } ∧
          ((frames < requestedFrames D2F format dur ∧ allow = false) ∨
            frames < toDWORD drv.minAsioBufferFrames ∨
            frames > toDWORD drv.maxAsioBufferFrames)) ∨
       (r = Start_session h format frames drv calls ∧
          ¬(frames < requestedFrames D2F format dur ∧ allow = false) ∧
          toDWORD drv.minAsioBufferFrames ≤ frames ∧
          frames ≤ toDWORD drv.maxAsioBufferFrames)))

/-- The arguments and the driver replies of one call of `Start`. -/
structure StartCall where
  format : WAVEFORMATEXTENSIBLE
  suggestedBufferDuration : Int
  bufferSizeMode : BufferSizeMode
  allowSmallerBuffer : Bool
  drv : StartReplies

/-- The host after the first `k` calls of a sequence of `Start` calls, when
each of them has returned `ASE_OK`; `none` when one of them has not. -/
def hostAfterStarts (D2F : Int → Nat → Int) (h : AsioSharedHost) (calls : Nat → StartCall) :
    Nat → Option AsioSharedHost
  | 0 => some h
  | k + 1 =>
    match hostAfterStarts D2F h calls k with
    | none => none
    | some hk =>
      match Start D2F hk (calls k).format (calls k).suggestedBufferDuration
          (calls k).bufferSizeMode (calls k).allowSmallerBuffer (calls k).drv with
      | Run.done r => if r.ret = ASE_OK then some r.host else none
      | Run.fault _ => none

/-- The host after the first `k` calls of a sequence of `Stop` calls. -/
def hostAfterStops (h : AsioSharedHost) (drv : Nat → StopReplies) : Nat → AsioSharedHost
  | 0 => h
  | k + 1 => (Stop (hostAfterStops h drv k) (drv k)).host

/-- The driver calls issued by the first `k` calls of a sequence of `Stop`
calls, in order. -/
def callsOfStops (h : AsioSharedHost) (drv : Nat → StopReplies) : Nat → List DriverCall
  | 0 => []
  | k + 1 => callsOfStops h drv k ++ (Stop (hostAfterStops h drv k) (drv k)).calls

/-- An instance of the helper `DurationToAudioFrames` for the examples: a
duration in units of 100 ns at the given rate, in whole frames. -/
def exampleDurationToAudioFrames (time : Int) (sampleRate : Nat) : Int :=
  time * (sampleRate : Int) / 10000000

/-- Replies of a driver at 48 kHz with between 64 and 4096 frames in steps of
64, preferring 512, on which every call succeeds. -/
def exampleStartReplies : StartReplies :=
  { inputFormat := exampleFormatReplies
    outputFormat := exampleFormatReplies
    getSampleRate := 0
    asioSampleRate := 48000
    setSampleRate := 0
    getBufferSize := 0
    minAsioBufferFrames := 64
    maxAsioBufferFrames := 4096
    preferredAsioBufferFrames := 512
    asioBufferGranularity := 64
    createBuffers := 0
    bufferPtrs := fun i b => { b with buffers0 := 65536 + 8192 * i, buffers1 := 69632 + 8192 * i }
    start := 0
    disposeBuffers := 0 }

/-- A `Start` call for 10 ms in the best-fit mode on `exampleStartReplies`. -/
def exampleStartCall : StartCall :=
  { format := exampleFormat
    suggestedBufferDuration := 100000
    bufferSizeMode := BufferSizeMode.BufferSizeMode_Default
    allowSmallerBuffer := false
    drv := exampleStartReplies }

/-- Replies of a driver on which `stop` and `disposeBuffers` succeed. -/
def exampleStopReplies : StopReplies := { stop := 0, disposeBuffers := 0 }

/-- The record `getChannelInfo` is called with for channel `i` of a direction
(lines 63-65 and 74-76): the value-initialised element with `channel` and
`isInput` set. -/
def channelQuery (isInput : ASIOBool) (i : Nat) : ASIOChannelInfo :=
  { ASIOChannelInfo_zero with channel := (i : Int), isInput := isInput }

/-- An attach on which the module loads, the factory handshake succeeds and
the driver initialises. -/
def attachSucceeds (drv : AttachReplies) : Prop :=
  drv.LoadLibraryA = true ∧ drv.GetProcAddress = true ∧ drv.DllGetClassObject = true ∧
  drv.CreateInstance = true ∧ drv.init ≠ ASIOFalse

/-- Replies of an attach that succeeds on a driver with two inputs and two
outputs, every channel of type `ASIOSTInt32LSB`. -/
def exampleAttachReplies : AttachReplies :=
  { LoadLibraryA := true
    GetProcAddress := true
    DllGetClassObject := true
    CreateInstance := true
    init := 1
    getChannels := 0
    numInputChannels := 2
    numOutputChannels := 2
    getChannelInfo := fun q => (0, { q with type := 18, name := "ch" })
    getDriverName := "driver" }

/-- Replies of the same attach, except that the query for the last channel
(output 1) fails. -/
def exampleAttachLastFails : AttachReplies :=
  { exampleAttachReplies with
    getChannelInfo := fun q =>
      (if q.isInput = 0 ∧ q.channel = 1 then -999 else 0, { q with type := 18, name := "ch" }) }

/-- Replies of a driver that asks for power-of-two sizes (granularity -1)
between 64 and 10000 frames. -/
def examplePow2Replies : StartReplies :=
  { exampleStartReplies with
    minAsioBufferFrames := 64, maxAsioBufferFrames := 10000, asioBufferGranularity := -1 }

/-- Replies of a driver that asks for power-of-two sizes and reports the
maximum -1, which is 4294967295 as a `DWORD`. -/
def exampleNegativeMaxReplies : StartReplies :=
  { exampleStartReplies with
    minAsioBufferFrames := 0, maxAsioBufferFrames := -1, asioBufferGranularity := -1 }

/-- Replies of a driver with granularity 64 that reports the minimum and the
maximum -1, which is 4294967295 as a `DWORD`. -/
def exampleNegativeMinReplies : StartReplies :=
  { exampleStartReplies with
    minAsioBufferFrames := -1, maxAsioBufferFrames := -1, asioBufferGranularity := 64 }

/-- Replies of the driver of `exampleStartReplies`, except that the driver's
`start` fails after the buffers were created. -/
def exampleStartFailsReplies : StartReplies :=
  { exampleStartReplies with start := -999 }

/-- The host the constructor builds from `exampleAttachReplies`. -/
def exampleAttachedHost : AsioSharedHost :=
  { m_Module := true
    m_Driver := true
    m_DriverName := "driver"
    m_StartCount := 0
    m_AsioInChannelInfo :=
      [{ channel := 0, isInput := 1, isActive := 0, channelGroup := 0, type := 18, name := "ch" },
       { channel := 1, isInput := 1, isActive := 0, channelGroup := 0, type := 18, name := "ch" }]
    m_AsioOutChannelInfo :=
      [{ channel := 0, isInput := 0, isActive := 0, channelGroup := 0, type := 18, name := "ch" },
       { channel := 1, isInput := 0, isActive := 0, channelGroup := 0, type := 18, name := "ch" }]
    m_AsioBuffers := []
    m_NumBufferFrames := 0
    m_CurrentWaveFormat := WAVEFORMATEXTENSIBLE.zero
    m_dbgNumBufferSwitches := 0
    m_AsioBufferListeners := [] }

/-- The driver calls the constructor issues on `exampleAttachReplies`. -/
def exampleAttachCalls : List DriverCall :=
  [DriverCall.init, DriverCall.getChannels, DriverCall.getChannelInfo 0 1,
   DriverCall.getChannelInfo 1 1, DriverCall.getChannelInfo 0 0, DriverCall.getChannelInfo 1 0,
   DriverCall.getDriverName]

/-- Replies of an attach that succeeds on a driver that reports no input and
no output channel. -/
def exampleNoChannelAttach : AttachReplies :=
  { exampleAttachReplies with numInputChannels := 0, numOutputChannels := 0 }

/-- Replies of a driver that reports the sample rate 0 and on which every call
succeeds. -/
def exampleRateZeroReplies : StartReplies :=
  { exampleStartReplies with asioSampleRate := 0, minAsioBufferFrames := 0 }

/-- A 16-bit request: two channels at 48 kHz, plain PCM. -/
def example16BitFormat : WAVEFORMATEXTENSIBLE :=
  { Format := { wFormatTag := 1, nChannels := 2, nSamplesPerSec := 48000,
                nAvgBytesPerSec := 192000, nBlockAlign := 4, wBitsPerSample := 16, cbSize := 0 }
    wValidBitsPerSample := 0
    dwChannelMask := 0
    SubFormat := KSDATAFORMAT_SUBTYPE_PCM }

/-- Replies of the driver of `exampleStartReplies`, except that it prefers 8192
frames, above its maximum of 4096. -/
def examplePreferredTooLargeReplies : StartReplies :=
  { exampleStartReplies with preferredAsioBufferFrames := 8192 }

/-- The steps of `Start` that come before the size decision all succeed: the
host is valid, the format is supported on the inputs and on the outputs (where
there are any), the sample rate is read and, where it differs, switched, and
the buffer size query succeeds. -/
def reachesSizing (h : AsioSharedHost) (format : WAVEFORMATEXTENSIBLE) (drv : StartReplies) :
    Prop :=
  h.IsValid = true ∧
  (h.m_AsioInChannelInfo.length = 0 ∨
    ∃ w, IsWaveFormatSupported h format false 0 (h.m_AsioInChannelInfo.length % DWORD_MOD)
      drv.inputFormat = Run.done w ∧ w.ret = true) ∧
  (h.m_AsioOutChannelInfo.length = 0 ∨
    ∃ w, IsWaveFormatSupported h format true 0 (h.m_AsioOutChannelInfo.length % DWORD_MOD)
      drv.outputFormat = Run.done w ∧ w.ret = true) ∧
  drv.getSampleRate = ASE_OK ∧
  (toDWORD drv.asioSampleRate = format.Format.nSamplesPerSec ∨ drv.setSampleRate = ASE_OK) ∧
  drv.getBufferSize = ASE_OK

/-- The buffer slot list is empty at start count 0 and has one slot per channel
of the host's channel lists, on a valid driver, at a start count above 0. -/
def slotInvariant (h : AsioSharedHost) : Prop :=
  (h.m_StartCount = 0 → h.m_AsioBuffers = []) ∧
  (h.m_StartCount ≠ 0 →
    h.m_Driver = true ∧
    h.m_AsioBuffers.length = h.m_AsioInChannelInfo.length + h.m_AsioOutChannelInfo.length)

/-- The tags of a buffer slot: its direction and its channel number. -/
def slotTags (b : ASIOBufferInfo) : ASIOBool × Int := (b.isInput, b.channelNum)

/-- The slots of the host carry the tags `Start` wrote (lines 243-256): the
driver did not alter them in `createBuffers`. -/
def slotTagsIntact (h : AsioSharedHost) : Prop :=
  h.m_AsioBuffers.map slotTags = (Start_bufferInfos h).map slotTags

/-- A reply to `createBuffers` that leaves the tags of every slot alone. -/
def keepsTags (bufferPtrs : Nat → ASIOBufferInfo → ASIOBufferInfo) : Prop :=
  ∀ i b, slotTags (bufferPtrs i b) = slotTags b

/-- The operating-point request at a sample rate of 536870912 Hz, where
`nBlockAlign * nSamplesPerSec` is `2 ^ 32`, with `nAvgBytesPerSec = 0`. -/
def exampleWrapFormat : WAVEFORMATEXTENSIBLE :=
  { exampleFormat with
    Format := { exampleFormat.Format with nSamplesPerSec := 536870912, nAvgBytesPerSec := 0 } }

/-- The operating-point request with the IEEE float sub-format. -/
def exampleFloatFormat : WAVEFORMATEXTENSIBLE :=
  { exampleFormat with SubFormat := KSDATAFORMAT_SUBTYPE_IEEE_FLOAT }

/-- The request of `exampleFloatFormat` with `cbSize = 0`. -/
def exampleFloatFormatShort : WAVEFORMATEXTENSIBLE :=
  { exampleFormat with
    Format := { exampleFormat.Format with cbSize := 0 }
    SubFormat := KSDATAFORMAT_SUBTYPE_IEEE_FLOAT }

/-- The host after the example `Start` on the example attached host. -/
def exampleStartedHost : AsioSharedHost :=
  (Start_session exampleAttachedHost exampleFormat 512 exampleStartReplies
    [DriverCall.getChannels, DriverCall.canSampleRate 48000, DriverCall.getChannels,
     DriverCall.canSampleRate 48000, DriverCall.getSampleRate, DriverCall.getBufferSize]).host

/-- The host after the example `Start` and one `Stop`: a complete cycle. -/
def exampleCycledHost : AsioSharedHost := (Stop exampleStartedHost exampleStopReplies).host

/-- A host with a session: the start count is above 0, the buffer slot list
holds a slot for every output channel (fewer than `2 ^ 32` of them), and the
listeners form a set. -/
def activeSession (h : AsioSharedHost) : Prop :=
  h.m_StartCount ≠ 0 ∧ h.m_AsioOutChannelInfo.length ≤ h.m_AsioBuffers.length ∧
  h.m_AsioOutChannelInfo.length < 4294967296 ∧ h.m_AsioBufferListeners.Nodup

/-- The address `a` lies in the range the callback zeroes for one of the output
channels from `i` on: the `numBufferBytes` bytes from the pointer of the half
`doubleBufferIndex` of its slot. -/
def inZeroedRange (h : AsioSharedHost) (doubleBufferIndex : Int) (i a : Nat) : Prop :=
  ∃ c slot p, i ≤ c ∧ c < h.m_AsioOutChannelInfo.length ∧ h.m_AsioBuffers[c]? = some slot ∧
    bufferPointer slot doubleBufferIndex = Run.done p ∧ p ≤ a ∧ a < p + numBufferBytes h

/-- The byte at address `a` when the callback notifies the listeners; `none`
when the callback faults. -/
def byteAfterBufferSwitch (h : AsioSharedHost) (mem : Memory) (doubleBufferIndex : Int)
    (a : Nat) : Option Nat :=
  match AsioCalback_bufferSwitch h mem doubleBufferIndex with
  | Run.done o => some (o.mem a)
  | Run.fault _ => none

/-- Replies of the driver of `exampleStartReplies` with the buffers laid out
back to back: each half holds 512 samples of 4 bytes, the second half of a slot
starts 2048 bytes after the first, the next slot 4096 bytes after the slot. -/
def exampleTightReplies : StartReplies :=
  { exampleStartReplies with
    bufferPtrs := fun i b =>
      { b with buffers0 := 65536 + 4096 * i, buffers1 := 65536 + 4096 * i + 2048 } }

/-- The host after the example `Start` on the driver of `exampleTightReplies`. -/
def exampleTightHost : AsioSharedHost :=
  (Start_session exampleAttachedHost exampleFormat 512 exampleTightReplies
    [DriverCall.getChannels, DriverCall.canSampleRate 48000, DriverCall.getChannels,
     DriverCall.canSampleRate 48000, DriverCall.getSampleRate, DriverCall.getBufferSize]).host

/-- A host with a session of 1048576 frames in a format of 4096 bytes per frame,
where the product is `2 ^ 32`. -/
def exampleHugeSessionHost : AsioSharedHost :=
  { exampleStartedHost with
    m_NumBufferFrames := 1048576
    m_CurrentWaveFormat :=
      { exampleFormat with
        Format := { exampleFormat.Format with nChannels := 1024, nBlockAlign := 4096,
                                              nAvgBytesPerSec := 196608000 } } }

/-- A memory in which every byte is 255. -/
def exampleMemory : Memory := fun _ => 255

/-- The host after the example `Start` with the listeners 7 and 9 registered. -/
def exampleListeningHost : AsioSharedHost :=
  AddBufferSwitchListener (AddBufferSwitchListener exampleStartedHost 7) 9

/-- The loop of lines 200-204 again, as `Start_pow2Loop`, recording the values
the counter `pow2size` takes, in order, from the value at entry to the value at
exit; `none` when the fuel runs out.  Each doubling adds one value. -/
def Start_pow2Loop_values : Nat → Nat → Nat → Nat → Option (List Nat)
  | 0, _, _, _ => none
  | fuel + 1, pow2size, bufferDurationFrames, maxFrames =>
    if pow2size < bufferDurationFrames ∧ pow2size < maxFrames then
      (Start_pow2Loop_values fuel ((pow2size * 2) % DWORD_MOD) bufferDurationFrames
        maxFrames).map (fun rest => pow2size :: rest)
    else some [pow2size]

/-- Replies of a driver that asks for power-of-two sizes and reports the
largest envelope a `long` allows: minimum 0, maximum 2147483647. -/
def exampleLargestEnvelopeReplies : StartReplies :=
  { exampleStartReplies with
    minAsioBufferFrames := 0, maxAsioBufferFrames := 2147483647, asioBufferGranularity := -1 }

/-! ## Format negotiation -/

theorem CheckSampleTypeAcrossChannels_loop_some (cs : List ASIOChannelInfo) (first : Nat) :
    ∀ (remaining i : Nat) (type t : ASIOSampleType),
      CheckSampleTypeAcrossChannels_loop cs first remaining i type = Run.done (some t) →
      (i ≠ 0 → t = type) ∧
      ∀ j, i ≤ j → j < i + remaining → ∃ info, cs[j + first]? = some info ∧ info.type = t := by
  intro remaining
  induction remaining with
  | zero =>
    intro i type t hr
    simp only [CheckSampleTypeAcrossChannels_loop, Run.done.injEq, Option.some.injEq] at hr
    exact ⟨fun _ => hr.symm, fun j h1 h2 => absurd h2 (by omega)⟩
  | succ n ih =>
    intro i type t hr
    rw [CheckSampleTypeAcrossChannels_loop] at hr
    cases hget : cs[i + first]? with
    | none => simp [hget] at hr
    | some info =>
      simp only [hget] at hr
      by_cases hi : i = 0
      · simp only [hi, if_true] at hr
        obtain ⟨h1, h2⟩ := ih _ _ _ hr
        have ht : t = info.type := h1 (by omega)
        refine ⟨fun h => absurd hi h, fun j hj1 hj2 => ?_⟩
        by_cases hj : j = i
        · subst hj; exact ⟨info, hget, ht.symm⟩
        · exact h2 j (by omega) (by omega)
      · simp only [hi, if_false] at hr
        by_cases hty : info.type ≠ type
        · simp [hty] at hr
        · simp only [hty, if_false] at hr
          obtain ⟨h1, h2⟩ := ih _ _ _ hr
          have ht : t = type := h1 (by omega)
          refine ⟨fun _ => ht, fun j hj1 hj2 => ?_⟩
          by_cases hj : j = i
          · subst hj; exact ⟨info, hget, by rw [ht]; exact not_not.mp hty⟩
          · exact h2 j (by omega) (by omega)

theorem CheckSampleTypeAcrossChannels_loop_inBounds (cs : List ASIOChannelInfo) (first : Nat) :
    ∀ (remaining i : Nat) (type : ASIOSampleType), i + remaining + first ≤ cs.length →
      ∃ o, CheckSampleTypeAcrossChannels_loop cs first remaining i type = Run.done o := by
  intro remaining
  induction remaining with
  | zero => intro i type _; exact ⟨some type, rfl⟩
  | succ n ih =>
    intro i type hb
    rw [CheckSampleTypeAcrossChannels_loop]
    have hlt : i + first < cs.length := by omega
    rw [List.getElem?_eq_getElem hlt]
    simp only
    by_cases hi : i = 0
    · simp only [hi, if_true]
      exact ih _ _ (by omega)
    · simp only [hi, if_false]
      by_cases hty : cs[i + first].type ≠ type
      · exact ⟨none, by simp [hty]⟩
      · simp only [hty, if_false]
        exact ih _ _ (by omega)

theorem CheckSampleTypeAcrossChannels_some (h : AsioSharedHost) (output : Bool)
    (first num : Nat) (t : ASIOSampleType)
    (hr : CheckSampleTypeAcrossChannels h output first num = Run.done (some t)) :
    0 < num ∧ first + num ≤ (channelInfo h output).length ∧
    ∀ i, i < num → ∃ info, (channelInfo h output)[first + i]? = some info ∧ info.type = t := by
  unfold CheckSampleTypeAcrossChannels at hr
  simp only at hr
  split at hr
  · simp at hr
  · rename_i hc
    have hnum : num ≠ 0 := fun h0 => hc (Or.inr h0)
    obtain ⟨_, h2⟩ := CheckSampleTypeAcrossChannels_loop_some _ _ _ _ _ _ hr
    have hall : ∀ i, i < num → ∃ info, (channelInfo h output)[first + i]? = some info ∧
        info.type = t := by
      intro i hi
      have := h2 i (Nat.zero_le _) (by omega)
      rw [Nat.add_comm] at this
      exact this
    refine ⟨Nat.pos_of_ne_zero hnum, ?_, hall⟩
    obtain ⟨info, hg, _⟩ := hall (num - 1) (by omega)
    have hlt : first + (num - 1) < (channelInfo h output).length := by
      by_contra hge
      rw [List.getElem?_eq_none (by omega)] at hg
      exact absurd hg (by simp)
    omega

theorem IsWaveFormatSupported_tail_true (format : WAVEFORMATEXTENSIBLE) (t : ASIOSampleType)
    (hr : IsWaveFormatSupported_tail format t = true) :
    format.Format.nBlockAlign = 4 * format.Format.nChannels ∧ effectiveValidBits format = 24 ∧
    t = ASIOSTInt32LSB := by
  unfold IsWaveFormatSupported_tail at hr
  simp only at hr
  split at hr
  · simp at hr
  · split at hr
    · simp at hr
    · split at hr
      · simp at hr
      · rename_i bits hbits
        split at hr
        · simp at hr
        · rename_i hba
          split at hr
          · simp at hr
          · rename_i h24
            split at hr
            · simp at hr
            · rename_i hst
              refine ⟨not_not.mp hba, ?_, not_not.mp hst⟩
              have hb : bits = 24 := not_not.mp h24
              unfold IsWaveFormatSupported_bitsPerSample at hbits
              unfold effectiveValidBits
              split at hbits
              · rename_i hext
                rw [if_pos hext]
                split at hbits
                · simp at hbits
                · split at hbits
                  · simp at hbits
                  · split at hbits
                    · simp at hbits
                    · simp only [Option.some.injEq] at hbits
                      omega
              · rename_i hext
                rw [if_neg hext]
                simp only [Option.some.injEq] at hbits
                omega

theorem IsWaveFormatSupported_done_true (h : AsioSharedHost) (format : WAVEFORMATEXTENSIBLE)
    (output : Bool) (first num : Nat) (drv : FormatReplies) (r : Ret Bool)
    (hr : IsWaveFormatSupported h format output first num drv = Run.done r)
    (htrue : r.ret = true) :
    ∃ t, CheckSampleTypeAcrossChannels h output first num = Run.done (some t) ∧
      sampleTypeMatchesBits format.Format.wBitsPerSample t = true ∧
      IsWaveFormatSupported_tail format t = true := by
  unfold IsWaveFormatSupported at hr
  simp only at hr
  cases hck : CheckSampleTypeAcrossChannels h output first num with
  | fault f =>
    rw [hck] at hr
    split_ifs at hr <;>
      (simp only [Run.done.injEq] at hr; subst hr; exact absurd htrue Bool.false_ne_true)
  | done o =>
    cases o with
    | none =>
      rw [hck] at hr
      split_ifs at hr <;> simp only [Run.done.injEq] at hr <;> subst hr <;>
        exact absurd htrue Bool.false_ne_true
    | some t =>
      rw [hck] at hr
      simp only at hr
      refine ⟨t, rfl, ?_⟩
      split_ifs at hr with h1 h2 h3 h4 h5 h6 h7 h8 h9 h10 <;>
        simp only [Run.done.injEq] at hr <;> subst hr <;>
        first
        | (exact absurd htrue Bool.false_ne_true)
        | (simp only at htrue
           refine ⟨?_, htrue⟩
           simp_all)

theorem CheckSampleTypeAcrossChannels_inBounds (h : AsioSharedHost) (output : Bool)
    (first num : Nat) (hb : first + num ≤ (h.channelInfo output).length) :
    ∃ o, CheckSampleTypeAcrossChannels h output first num = Run.done o := by
  unfold CheckSampleTypeAcrossChannels
  simp only
  split_ifs
  · exact ⟨none, rfl⟩
  · exact CheckSampleTypeAcrossChannels_loop_inBounds _ _ _ _ _ (by omega)

theorem IsWaveFormatSupported_done_of_check (h : AsioSharedHost) (format : WAVEFORMATEXTENSIBLE)
    (output : Bool) (first num : Nat) (drv : FormatReplies) (o : Option ASIOSampleType)
    (hck : CheckSampleTypeAcrossChannels h output first num = Run.done o) :
    ∃ r, IsWaveFormatSupported h format output first num drv = Run.done r := by
  unfold IsWaveFormatSupported
  simp only
  rw [hck]
  cases o <;> simp only <;> split_ifs <;> exact ⟨_, rfl⟩

/-- C1: whenever `IsWaveFormatSupported` returns true, the block alignment is
4 bytes per channel, the effective valid-bit depth is 24 and every channel of
the requested range (which is non-empty and inside the channel list) has sample
type `ASIOSTInt32LSB`; and a 16-bit request on a range of channels that all
advertise `ASIOSTInt32LSB` returns false. -/
theorem IsWaveFormatSupported_operating_point (h : AsioSharedHost)
    (format : WAVEFORMATEXTENSIBLE) (output : Bool) (first num : Nat) (drv : FormatReplies) :
    (∀ r, IsWaveFormatSupported h format output first num drv = Run.done r → r.ret = true →
      format.Format.nBlockAlign = 4 * format.Format.nChannels ∧
      effectiveValidBits format = 24 ∧
      0 < num ∧ first + num ≤ (h.channelInfo output).length ∧
      ∀ i, i < num → ∃ info, (h.channelInfo output)[first + i]? = some info ∧
        info.type = ASIOSTInt32LSB) ∧
    (format.Format.wBitsPerSample = 16 → first + num ≤ (h.channelInfo output).length →
      (∀ info ∈ h.channelInfo output, info.type = ASIOSTInt32LSB) →
      ∃ r, IsWaveFormatSupported h format output first num drv = Run.done r ∧ r.ret = false) := by
  constructor
  · intro r hr htrue
    obtain ⟨t, hck, _, htail⟩ := IsWaveFormatSupported_done_true h format output first num drv r hr htrue
    obtain ⟨hba, hbits, ht⟩ := IsWaveFormatSupported_tail_true format t htail
    obtain ⟨hpos, hin, hall⟩ := CheckSampleTypeAcrossChannels_some h output first num t hck
    exact ⟨hba, hbits, hpos, hin, fun i hi => ht ▸ hall i hi⟩
  · intro h16 hin hall
    obtain ⟨o, hck⟩ := CheckSampleTypeAcrossChannels_inBounds h output first num hin
    obtain ⟨r, hr⟩ := IsWaveFormatSupported_done_of_check h format output first num drv o hck
    refine ⟨r, hr, ?_⟩
    cases hret : r.ret with
    | false => rfl
    | true =>
      exfalso
      obtain ⟨t, hck2, hm, _⟩ :=
        IsWaveFormatSupported_done_true h format output first num drv r hr hret
      obtain ⟨hpos, _, hty⟩ := CheckSampleTypeAcrossChannels_some h output first num t hck2
      obtain ⟨info, hg, hinfo⟩ := hty 0 hpos
      have hmem : info ∈ h.channelInfo output := List.getElem?_mem hg
      have ht : t = ASIOSTInt32LSB := by rw [← hinfo]; exact hall info hmem
      rw [h16, ht] at hm
      exact absurd hm (by decide)

/-- Witness for C1: the operating-point request is accepted on the two output
channels of `exampleHost`, and there the conclusions hold; the 16-bit request
on the same channels returns false. -/
theorem IsWaveFormatSupported_operating_point_witness :
    IsWaveFormatSupported exampleHost exampleFormat true 0 2 exampleFormatReplies =
      Run.done ⟨true, [DriverCall.getChannels, DriverCall.canSampleRate 48000]⟩ ∧
    (exampleFormat.Format.nBlockAlign = 4 * exampleFormat.Format.nChannels ∧
      effectiveValidBits exampleFormat = 24 ∧
      0 < 2 ∧ 0 + 2 ≤ (exampleHost.channelInfo true).length ∧
      ∀ i, i < 2 → ∃ info, (exampleHost.channelInfo true)[0 + i]? = some info ∧
        info.type = ASIOSTInt32LSB) ∧
    example16BitFormat.Format.wBitsPerSample = 16 ∧
    (∀ info ∈ exampleHost.channelInfo true, info.type = ASIOSTInt32LSB) ∧
    ∃ r, IsWaveFormatSupported exampleHost example16BitFormat true 0 2 exampleFormatReplies
      = Run.done r ∧ r.ret = false :=
  ⟨by decide,
   (IsWaveFormatSupported_operating_point exampleHost exampleFormat true 0 2
      exampleFormatReplies).1
      ⟨true, [DriverCall.getChannels, DriverCall.canSampleRate 48000]⟩ (by decide) rfl,
   rfl, by decide,
   (IsWaveFormatSupported_operating_point exampleHost example16BitFormat true 0 2
      exampleFormatReplies).2 rfl (by decide) (by decide)⟩

theorem CheckSampleTypeAcrossChannels_loop_complete (cs : List ASIOChannelInfo) (first : Nat)
    (t : ASIOSampleType) :
    ∀ (remaining i : Nat) (type : ASIOSampleType),
      (i ≠ 0 → type = t) → (0 < remaining ∨ i ≠ 0) →
      (∀ j, i ≤ j → j < i + remaining → ∃ info, cs[j + first]? = some info ∧ info.type = t) →
      CheckSampleTypeAcrossChannels_loop cs first remaining i type = Run.done (some t) := by
  intro remaining
  induction remaining with
  | zero =>
    intro i type ht hpos _
    have hi : i ≠ 0 := by omega
    rw [CheckSampleTypeAcrossChannels_loop, ht hi]
  | succ n ih =>
    intro i type ht _ hall
    obtain ⟨info, hg, hty⟩ := hall i (le_refl i) (by omega)
    rw [CheckSampleTypeAcrossChannels_loop, hg]
    simp only
    have hrest : ∀ j, i + 1 ≤ j → j < i + 1 + n →
        ∃ info, cs[j + first]? = some info ∧ info.type = t :=
      fun j h1 h2 => hall j (by omega) (by omega)
    by_cases hi : i = 0
    · rw [if_pos hi]
      exact ih (i + 1) info.type (fun _ => hty) (Or.inr (by omega)) hrest
    · rw [if_neg hi, if_neg (by rw [hty, ht hi]; exact fun h => h rfl)]
      exact ih (i + 1) type (fun _ => ht hi) (Or.inr (by omega)) hrest

/-- What `CheckSampleTypeAcrossChannels` does on the ranges whose sum
`firstAsioChannel + numAsioChannels` does not wrap: false for an empty range and
for a range that is out of bounds, the common type when every channel of the
range has it, false when two channels of the range differ. -/
theorem CheckSampleTypeAcrossChannels_nowrap (h : AsioSharedHost) (output : Bool)
    (first num : Nat) (hnw : first + num < 4294967296) :
    ((num = 0 ∨ (h.channelInfo output).length < first + num) →
      CheckSampleTypeAcrossChannels h output first num = Run.done none) ∧
    (∀ t, 0 < num → first + num ≤ (h.channelInfo output).length →
      (∀ i, i < num → ∃ info, (h.channelInfo output)[first + i]? = some info ∧ info.type = t) →
      CheckSampleTypeAcrossChannels h output first num = Run.done (some t)) ∧
    (0 < num → first + num ≤ (h.channelInfo output).length →
      (∃ i j a b, i < num ∧ j < num ∧ (h.channelInfo output)[first + i]? = some a ∧
        (h.channelInfo output)[first + j]? = some b ∧ a.type ≠ b.type) →
      CheckSampleTypeAcrossChannels h output first num = Run.done none) := by
  have hmod : (first + num) % DWORD_MOD = first + num :=
    Nat.mod_eq_of_lt (by unfold DWORD_MOD; omega)
  refine ⟨?_, ?_, ?_⟩
  · intro hbad
    unfold CheckSampleTypeAcrossChannels
    simp only [hmod]
    rw [if_pos (by omega)]
  · intro t hpos hin hall
    unfold CheckSampleTypeAcrossChannels
    simp only [hmod]
    rw [if_neg (by omega)]
    apply CheckSampleTypeAcrossChannels_loop_complete _ _ t _ _ _ (fun h0 => absurd rfl h0)
      (Or.inl hpos)
    intro j _ hj
    have := hall j (by omega)
    rw [Nat.add_comm] at this
    exact this
  · intro _ hin ⟨i, j, a, b, hi, hj, ha, hb, hne⟩
    obtain ⟨o, ho⟩ := CheckSampleTypeAcrossChannels_inBounds h output first num hin
    cases o with
    | none => exact ho
    | some t =>
      obtain ⟨_, _, hall⟩ := CheckSampleTypeAcrossChannels_some h output first num t ho
      obtain ⟨a', ha', hat⟩ := hall i hi
      obtain ⟨b', hb', hbt⟩ := hall j hj
      rw [ha] at ha'
      rw [hb] at hb'
      simp only [Option.some.injEq] at ha' hb'
      subst ha' hb'
      exact absurd (hat.trans hbt.symm) hne

/-! ## The shape of a `Start` call -/

theorem quietCalls_append (a b : List DriverCall) :
    quietCalls (a ++ b) = (quietCalls a && quietCalls b) := by
  simp [quietCalls, List.all_append]

theorem quietCalls_cons (c : DriverCall) (l : List DriverCall) :
    quietCalls (c :: l) = (!touchesSession c && quietCalls l) := by
  simp [quietCalls]

theorem quietCalls_nil : quietCalls [] = true := rfl

theorem DisplayCurrentError_quiet (h : AsioSharedHost) :
    quietCalls h.DisplayCurrentError = true := by
  unfold DisplayCurrentError
  split_ifs <;> rfl

theorem IsWaveFormatSupported_quiet (h : AsioSharedHost) (format : WAVEFORMATEXTENSIBLE)
    (output : Bool) (first num : Nat) (drv : FormatReplies) (r : Ret Bool)
    (hr : IsWaveFormatSupported h format output first num drv = Run.done r) :
    quietCalls r.calls = true := by
  unfold IsWaveFormatSupported at hr
  simp only at hr
  cases hck : CheckSampleTypeAcrossChannels h output first num with
  | fault f =>
    rw [hck] at hr
    split_ifs at hr <;> simp only [Run.done.injEq] at hr <;> subst hr <;> rfl
  | done o =>
    rw [hck] at hr
    cases o <;> simp only at hr <;> split_ifs at hr <;> simp only [Run.done.injEq] at hr <;>
      subst hr <;> rfl

/-- What the sizing stage of `Start` does: with the decided frame count it
either returns `ASE_InvalidParameter` at once, host and calls untouched, or
goes on to create the buffers. -/
theorem Start_sizing_cases (D2F : Int → Nat → Int) (h : AsioSharedHost)
    (format : WAVEFORMATEXTENSIBLE) (dur : Int) (mode : BufferSizeMode) (allow : Bool)
    (drv : StartReplies) (calls : List DriverCall) (r : Outcome)
    (hr : Start_sizing D2F h format dur mode allow drv calls = Run.done r) :
    ∃ frames, Start_decideBufferSize mode (requestedFrames D2F format dur) drv
        = Run.done frames ∧
      ((r = { host := h, ret := ASE_InvalidParameter, calls := calls } ∧
          ((frames < requestedFrames D2F format dur ∧ allow = false) ∨
            frames < toDWORD drv.minAsioBufferFrames ∨
            frames > toDWORD drv.maxAsioBufferFrames)) ∨
       (r = Start_session h format frames drv calls ∧
          ¬(frames < requestedFrames D2F format dur ∧ allow = false) ∧
          toDWORD drv.minAsioBufferFrames ≤ frames ∧
          frames ≤ toDWORD drv.maxAsioBufferFrames)) := by
  unfold Start_sizing at hr
  unfold requestedFrames
  simp only at hr
  cases hd : Start_decideBufferSize mode (toDWORD (D2F dur format.Format.nSamplesPerSec)) drv with
  | fault f => rw [hd] at hr; exact absurd hr (by simp)
  | done frames =>
    rw [hd] at hr
    simp only at hr
    refine ⟨frames, rfl, ?_⟩
    split_ifs at hr with h1 h2 h3 <;> simp only [Run.done.injEq] at hr <;> subst hr
    · left; exact ⟨rfl, Or.inl (by simpa using h1)⟩
    · left; exact ⟨rfl, Or.inr (Or.inl h2)⟩
    · left; exact ⟨rfl, Or.inr (Or.inr h3)⟩
    · right; exact ⟨rfl, by simpa using h1, by omega, by omega⟩

theorem Start_sampleRate_shape (D2F : Int → Nat → Int) (h : AsioSharedHost)
    (format : WAVEFORMATEXTENSIBLE) (dur : Int) (mode : BufferSizeMode) (allow : Bool)
    (drv : StartReplies) (calls : List DriverCall) (r : Outcome)
    (hq : quietCalls calls = true)
    (hr : Start_sampleRate D2F h format dur mode allow drv calls = Run.done r) :
    StartShape D2F h format dur mode allow drv r := by
  have hd := DisplayCurrentError_quiet h
  unfold Start_sampleRate at hr
  simp only at hr
  split_ifs at hr with h1 h2 h3 h4 h5 h6
  all_goals first
    | (simp only [Run.done.injEq] at hr
       subst hr
       refine ⟨_, ?_, Or.inl rfl⟩
       simp [quietCalls_append, quietCalls_cons, quietCalls_nil, hq, hd, touchesSession])
    | (obtain ⟨frames, hdec, hcases⟩ := Start_sizing_cases D2F h format dur mode allow drv _ r hr
       refine ⟨_, ?_, Or.inr ⟨frames, hdec, hcases⟩⟩
       simp [quietCalls_append, quietCalls_cons, quietCalls_nil, hq, hd, touchesSession])

theorem Start_outputs_shape (D2F : Int → Nat → Int) (h : AsioSharedHost)
    (format : WAVEFORMATEXTENSIBLE) (dur : Int) (mode : BufferSizeMode) (allow : Bool)
    (drv : StartReplies) (calls : List DriverCall) (r : Outcome)
    (hq : quietCalls calls = true)
    (hr : Start_outputs D2F h format dur mode allow drv calls = Run.done r) :
    StartShape D2F h format dur mode allow drv r := by
  unfold Start_outputs at hr
  split_ifs at hr with h1
  · cases hw : IsWaveFormatSupported h format true 0 (h.m_AsioOutChannelInfo.length % DWORD_MOD)
        drv.outputFormat with
    | fault f => rw [hw] at hr; exact absurd hr (by simp)
    | done w =>
      rw [hw] at hr
      simp only at hr
      have hwq := IsWaveFormatSupported_quiet _ _ _ _ _ _ _ hw
      split_ifs at hr with h2
      · simp only [Run.done.injEq] at hr
        subst hr
        exact ⟨_, by simp [quietCalls_append, quietCalls_cons, quietCalls_nil, hq, hwq], Or.inl rfl⟩
      · exact Start_sampleRate_shape D2F h format dur mode allow drv _ r
          (by simp [quietCalls_append, quietCalls_cons, quietCalls_nil, hq, hwq]) hr
  · exact Start_sampleRate_shape D2F h format dur mode allow drv _ r hq hr

/-- Every result of `Start` on a valid host at start count 0 has one of the
three shapes of `StartShape`. -/
theorem Start_idle_shape (D2F : Int → Nat → Int) (h : AsioSharedHost)
    (format : WAVEFORMATEXTENSIBLE) (dur : Int) (mode : BufferSizeMode) (allow : Bool)
    (drv : StartReplies) (r : Outcome) (hv : h.IsValid = true) (h0 : h.m_StartCount = 0)
    (hr : Start D2F h format dur mode allow drv = Run.done r) :
    StartShape D2F h format dur mode allow drv r := by
  unfold Start at hr
  rw [if_neg (by simp [hv]), if_pos h0] at hr
  split_ifs at hr with h1
  · cases hw : IsWaveFormatSupported h format false 0 (h.m_AsioInChannelInfo.length % DWORD_MOD)
        drv.inputFormat with
    | fault f => rw [hw] at hr; exact absurd hr (by simp)
    | done w =>
      rw [hw] at hr
      simp only at hr
      have hwq := IsWaveFormatSupported_quiet _ _ _ _ _ _ _ hw
      split_ifs at hr with h3
      · simp only [Run.done.injEq] at hr
        subst hr
        exact ⟨_, hwq, Or.inl rfl⟩
      · exact Start_outputs_shape D2F h format dur mode allow drv _ r hwq hr
  · exact Start_outputs_shape D2F h format dur mode allow drv _ r quietCalls_nil hr

theorem Start_sampleRate_reaches (D2F : Int → Nat → Int) (h : AsioSharedHost)
    (format : WAVEFORMATEXTENSIBLE) (dur : Int) (mode : BufferSizeMode) (allow : Bool)
    (drv : StartReplies) (calls : List DriverCall)
    (h1 : drv.getSampleRate = ASE_OK)
    (h2 : toDWORD drv.asioSampleRate = format.Format.nSamplesPerSec ∨ drv.setSampleRate = ASE_OK)
    (h3 : drv.getBufferSize = ASE_OK) :
    ∃ calls', Start_sampleRate D2F h format dur mode allow drv calls =
      Start_sizing D2F h format dur mode allow drv calls' := by
  unfold Start_sampleRate
  simp only
  rw [if_neg (by simp [h1]), if_neg (by rcases h2 with h2 | h2 <;> simp [h2]),
    if_neg (by simp [h3])]
  exact ⟨_, rfl⟩

theorem Start_outputs_reaches (D2F : Int → Nat → Int) (h : AsioSharedHost)
    (format : WAVEFORMATEXTENSIBLE) (dur : Int) (mode : BufferSizeMode) (allow : Bool)
    (drv : StartReplies) (calls : List DriverCall)
    (hout : h.m_AsioOutChannelInfo.length = 0 ∨
      ∃ w, IsWaveFormatSupported h format true 0 (h.m_AsioOutChannelInfo.length % DWORD_MOD)
        drv.outputFormat = Run.done w ∧ w.ret = true)
    (h1 : drv.getSampleRate = ASE_OK)
    (h2 : toDWORD drv.asioSampleRate = format.Format.nSamplesPerSec ∨ drv.setSampleRate = ASE_OK)
    (h3 : drv.getBufferSize = ASE_OK) :
    ∃ calls', Start_outputs D2F h format dur mode allow drv calls =
      Start_sizing D2F h format dur mode allow drv calls' := by
  unfold Start_outputs
  by_cases hlen : h.m_AsioOutChannelInfo.length ≠ 0
  · rw [if_pos hlen]
    rcases hout with hz | ⟨w, hw, hret⟩
    · exact absurd hz hlen
    · rw [hw]
      simp only [hret, Bool.not_true, Bool.false_eq_true, if_false]
      exact Start_sampleRate_reaches D2F h format dur mode allow drv _ h1 h2 h3
  · rw [if_neg hlen]
    exact Start_sampleRate_reaches D2F h format dur mode allow drv _ h1 h2 h3

/-- When the steps before the size decision succeed, a `Start` call at start
count 0 is the code from the size decision on, run with the driver calls issued
so far. -/
theorem Start_reaches_sizing (D2F : Int → Nat → Int) (h : AsioSharedHost)
    (format : WAVEFORMATEXTENSIBLE) (dur : Int) (mode : BufferSizeMode) (allow : Bool)
    (drv : StartReplies) (h0 : h.m_StartCount = 0) (hreach : reachesSizing h format drv) :
    ∃ calls, Start D2F h format dur mode allow drv =
      Start_sizing D2F h format dur mode allow drv calls := by
  obtain ⟨hv, hin, hout, h1, h2, h3⟩ := hreach
  unfold Start
  rw [if_neg (by simp [hv]), if_pos h0]
  by_cases hlen : h.m_AsioInChannelInfo.length ≠ 0
  · rw [if_pos hlen]
    rcases hin with hz | ⟨w, hw, hret⟩
    · exact absurd hz hlen
    · rw [hw]
      simp only [hret, Bool.not_true, Bool.false_eq_true, if_false]
      exact Start_outputs_reaches D2F h format dur mode allow drv _ hout h1 h2 h3
  · rw [if_neg hlen]
    exact Start_outputs_reaches D2F h format dur mode allow drv _ hout h1 h2 h3

/-- The two ways a `Start` call ends on a host that is not a valid idle one. -/
theorem Start_not_idle (D2F : Int → Nat → Int) (h : AsioSharedHost)
    (format : WAVEFORMATEXTENSIBLE) (dur : Int) (mode : BufferSizeMode) (allow : Bool)
    (drv : StartReplies) :
    (h.IsValid = false →
      Start D2F h format dur mode allow drv =
        Run.done { host := h, ret := ASE_NotPresent, calls := [] }) ∧
    (h.IsValid = true → h.m_StartCount ≠ 0 →
      Start D2F h format dur mode allow drv =
        Run.done { host := { h with m_StartCount := h.m_StartCount + 1 }, ret := ASE_OK,
                   calls := [] }) := by
  constructor
  · intro hv
    unfold Start
    rw [if_pos (by simp [hv])]
  · intro hv h0
    unfold Start
    rw [if_neg (by simp [hv]), if_neg h0]

/-! ## Start/Stop reference counting -/

theorem Start_session_driver (h : AsioSharedHost) (format : WAVEFORMATEXTENSIBLE)
    (frames : Nat) (drv : StartReplies) (calls : List DriverCall) :
    (Start_session h format frames drv calls).host.m_Driver = h.m_Driver := by
  unfold Start_session
  simp only
  split_ifs <;> rfl

theorem Start_session_ret (h : AsioSharedHost) (format : WAVEFORMATEXTENSIBLE)
    (frames : Nat) (drv : StartReplies) (calls : List DriverCall) :
    ((Start_session h format frames drv calls).ret = ASE_OK ∧
      (Start_session h format frames drv calls).host.m_StartCount = h.m_StartCount + 1) ∨
    ((Start_session h format frames drv calls).ret = ASE_HWMalfunction ∧
      (Start_session h format frames drv calls).host.m_StartCount = h.m_StartCount ∧
      (Start_session h format frames drv calls).host.m_AsioBuffers = []) := by
  unfold Start_session
  simp only
  split_ifs <;> first | (left; exact ⟨rfl, rfl⟩) | (right; exact ⟨rfl, rfl, rfl⟩)

theorem HWMalfunction_ne_OK : ASE_HWMalfunction ≠ ASE_OK := by decide

theorem InvalidParameter_ne_OK : ASE_InvalidParameter ≠ ASE_OK := by decide

theorem NotPresent_ne_OK : ASE_NotPresent ≠ ASE_OK := by decide

/-- A `Start` call that returns `ASE_OK` was made on a valid host, keeps the
driver and adds one to the start count. -/
theorem Start_ok_count (D2F : Int → Nat → Int) (h : AsioSharedHost)
    (format : WAVEFORMATEXTENSIBLE) (dur : Int) (mode : BufferSizeMode) (allow : Bool)
    (drv : StartReplies) (r : Outcome)
    (hr : Start D2F h format dur mode allow drv = Run.done r) (hok : r.ret = ASE_OK) :
    h.m_Driver = true ∧ r.host.m_Driver = true ∧ r.host.m_StartCount = h.m_StartCount + 1 := by
  by_cases hv : h.IsValid = true
  · have hd : h.m_Driver = true := hv
    by_cases h0 : h.m_StartCount = 0
    · obtain ⟨calls, _, hshape⟩ := Start_idle_shape D2F h format dur mode allow drv r hv h0 hr
      rcases hshape with hE | ⟨frames, _, ⟨hE, _⟩ | ⟨hE, _⟩⟩
      · rw [hE] at hok; exact absurd hok HWMalfunction_ne_OK
      · rw [hE] at hok; exact absurd hok InvalidParameter_ne_OK
      · rw [hE] at hok ⊢
        refine ⟨hd, by rw [Start_session_driver]; exact hd, ?_⟩
        rcases Start_session_ret h format frames drv calls with ⟨_, hc⟩ | ⟨hm, _⟩
        · exact hc
        · rw [hm] at hok; exact absurd hok HWMalfunction_ne_OK
    · unfold Start at hr
      rw [if_neg (by simp [hv]), if_neg h0] at hr
      simp only [Run.done.injEq] at hr
      subst hr
      exact ⟨hd, hd, rfl⟩
  · unfold Start at hr
    rw [if_pos (by simpa using hv)] at hr
    simp only [Run.done.injEq] at hr
    subst hr
    exact absurd hok NotPresent_ne_OK

theorem hostAfterStarts_count (D2F : Int → Nat → Int) (h : AsioSharedHost)
    (calls : Nat → StartCall) :
    ∀ (N : Nat) (hN : AsioSharedHost), hostAfterStarts D2F h calls N = some hN →
      hN.m_StartCount = h.m_StartCount + N ∧ (0 < N → hN.m_Driver = true) := by
  intro N
  induction N with
  | zero =>
    intro hN hs
    simp only [hostAfterStarts, Option.some.injEq] at hs
    subst hs
    exact ⟨rfl, fun hpos => absurd hpos (by omega)⟩
  | succ k ih =>
    intro hN hs
    rw [hostAfterStarts] at hs
    cases hk : hostAfterStarts D2F h calls k with
    | none => rw [hk] at hs; exact absurd hs (by simp)
    | some hk' =>
      rw [hk] at hs
      simp only at hs
      cases hst : Start D2F hk' (calls k).format (calls k).suggestedBufferDuration
          (calls k).bufferSizeMode (calls k).allowSmallerBuffer (calls k).drv with
      | fault f => rw [hst] at hs; exact absurd hs (by simp)
      | done r =>
        rw [hst] at hs
        simp only at hs
        split_ifs at hs with hok
        simp only [Option.some.injEq] at hs
        subst hs
        obtain ⟨_, hd, hc⟩ := Start_ok_count D2F hk' _ _ _ _ _ r hst hok
        obtain ⟨hc', _⟩ := ih hk' hk
        exact ⟨by omega, fun _ => hd⟩

theorem Stop_idle_frame (h : AsioSharedHost) (drv : StopReplies) (h0 : h.m_StartCount = 0) :
    (Stop h drv).host = h := by
  unfold Stop
  rw [if_pos h0]

/-- The `Stop` calls that only decrement: while more than one `Start` is
outstanding, `Stop` lowers the count by one, changes nothing else and issues no
driver call. -/
theorem Stop_decrement (h : AsioSharedHost) (drv : StopReplies) (hc : 1 < h.m_StartCount) :
    Stop h drv = { host := { h with m_StartCount := h.m_StartCount - 1 }, calls := [] } := by
  unfold Stop
  rw [if_neg (by omega)]
  simp only
  rw [if_neg]
  intro hcon
  have := hcon.1
  omega

/-- The `Stop` call that tears down: at start count 1 on a valid host. -/
theorem Stop_teardown (h : AsioSharedHost) (drv : StopReplies) (hc : h.m_StartCount = 1)
    (hd : h.m_Driver = true) :
    (Stop h drv).host =
      { h with
        m_StartCount := 0
        m_NumBufferFrames := 0
        m_AsioBuffers := []
        m_AsioInChannelInfo := []
        m_AsioOutChannelInfo := []
        m_CurrentWaveFormat := WAVEFORMATEXTENSIBLE.zero } ∧
    (Stop h drv).calls.count DriverCall.stop = 1 ∧
    (Stop h drv).calls.count DriverCall.disposeBuffers = 1 := by
  unfold Stop
  rw [if_neg (by omega)]
  simp only
  rw [if_pos ⟨by omega, hd⟩]
  simp only [hc, hd, DisplayCurrentError]
  refine ⟨by simp, ?_, ?_⟩ <;> split_ifs <;> rfl

theorem hostAfterStops_decrement (h : AsioSharedHost) (drv : Nat → StopReplies) :
    ∀ k, k < h.m_StartCount →
      hostAfterStops h drv k = { h with m_StartCount := h.m_StartCount - k } ∧
      callsOfStops h drv k = [] := by
  intro k
  induction k with
  | zero => intro _; exact ⟨rfl, rfl⟩
  | succ k ih =>
    intro hk
    obtain ⟨ih1, ih2⟩ := ih (by omega)
    rw [hostAfterStops, callsOfStops, ih1, ih2]
    rw [Stop_decrement _ _ (by simp only; omega)]
    simp only [List.append_nil, and_true]
    congr 1

/-- C2: after N successful `Start` calls on a valid idle host, N at least 1,
each of the first N-1 `Stop` calls leaves the start count positive and the
buffer slots, the frame count and the negotiated format as they were, and
issues no driver call; the Nth `Stop` leaves start count 0, no buffer slot,
frame count 0 and the zeroed format; over the N calls the driver's `stop` and
`disposeBuffers` are issued exactly once each. -/
theorem Start_Stop_refcount (D2F : Int → Nat → Int) (h : AsioSharedHost)
    (starts : Nat → StartCall) (stops : Nat → StopReplies) (N : Nat) (hN : AsioSharedHost)
    (hpos : 1 ≤ N) (_hv : h.IsValid = true) (hidle : h.m_StartCount = 0)
    (hs : hostAfterStarts D2F h starts N = some hN) :
    (∀ k, k + 1 < N →
      0 < (hostAfterStops hN stops (k + 1)).m_StartCount ∧
      (hostAfterStops hN stops (k + 1)).m_AsioBuffers = hN.m_AsioBuffers ∧
      (hostAfterStops hN stops (k + 1)).m_NumBufferFrames = hN.m_NumBufferFrames ∧
      (hostAfterStops hN stops (k + 1)).m_CurrentWaveFormat = hN.m_CurrentWaveFormat ∧
      (Stop (hostAfterStops hN stops k) (stops k)).calls = []) ∧
    (hostAfterStops hN stops N).m_StartCount = 0 ∧
    (hostAfterStops hN stops N).m_AsioBuffers = [] ∧
    (hostAfterStops hN stops N).m_NumBufferFrames = 0 ∧
    (hostAfterStops hN stops N).m_CurrentWaveFormat = WAVEFORMATEXTENSIBLE.zero ∧
    (callsOfStops hN stops N).count DriverCall.stop = 1 ∧
    (callsOfStops hN stops N).count DriverCall.disposeBuffers = 1 := by
  obtain ⟨hcount, hdrv⟩ := hostAfterStarts_count D2F h starts N hN hs
  rw [hidle, Nat.zero_add] at hcount
  have hd : hN.m_Driver = true := hdrv (by omega)
  constructor
  · intro k hk
    obtain ⟨h1, _⟩ := hostAfterStops_decrement hN stops (k + 1) (by omega)
    obtain ⟨h2, _⟩ := hostAfterStops_decrement hN stops k (by omega)
    rw [h1]
    refine ⟨by simp only; omega, rfl, rfl, rfl, ?_⟩
    rw [h2, Stop_decrement _ _ (by simp only; omega)]
  · obtain ⟨M, rfl⟩ : ∃ M, N = M + 1 := ⟨N - 1, by omega⟩
    obtain ⟨h1, h2⟩ := hostAfterStops_decrement hN stops M (by omega)
    obtain ⟨t1, t2, t3⟩ := Stop_teardown (hostAfterStops hN stops M) (stops M)
      (by rw [h1]; simp only; omega) (by rw [h1]; exact hd)
    rw [hostAfterStops, callsOfStops, h2, List.nil_append, t1]
    exact ⟨rfl, rfl, rfl, rfl, t2, t3⟩

/-- Witness for C2: two `Start` calls on `exampleHost` succeed; the first `Stop`
leaves the count at 1 with no driver call, the second tears down. -/
theorem Start_Stop_refcount_witness :
    (∃ hN, hostAfterStarts exampleDurationToAudioFrames exampleHost (fun _ => exampleStartCall) 2
        = some hN ∧
      0 < (hostAfterStops hN (fun _ => exampleStopReplies) 1).m_StartCount ∧
      (hostAfterStops hN (fun _ => exampleStopReplies) 2).m_StartCount = 0 ∧
      (callsOfStops hN (fun _ => exampleStopReplies) 2).count DriverCall.stop = 1) := by
  have hs : (hostAfterStarts exampleDurationToAudioFrames exampleHost (fun _ => exampleStartCall) 2).isSome
      = true := by decide
  obtain ⟨hN, hN'⟩ := Option.isSome_iff_exists.mp hs
  have key := Start_Stop_refcount exampleDurationToAudioFrames exampleHost
    (fun _ => exampleStartCall) (fun _ => exampleStopReplies) 2 hN (by decide) rfl rfl hN'
  exact ⟨hN, hN', (key.1 0 (by decide)).1, key.2.1, key.2.2.2.2.2.1⟩

/-- C9: at start count 0, `Stop` returns the host unchanged (start count, buffer
slots, frame count, negotiated format, channel lists and all) and issues no
driver call. -/
theorem Stop_idle_noop (h : AsioSharedHost) (drv : StopReplies) (h0 : h.m_StartCount = 0) :
    (Stop h drv).host = h ∧ (Stop h drv).calls = [] := by
  unfold Stop
  rw [if_pos h0]
  exact ⟨rfl, rfl⟩

/-- Witness for C9: `Stop` on the idle `exampleHost`. -/
theorem Stop_idle_noop_witness :
    exampleHost.m_StartCount = 0 ∧
    (Stop exampleHost exampleStopReplies).host = exampleHost ∧
    (Stop exampleHost exampleStopReplies).calls = [] :=
  ⟨rfl, Stop_idle_noop exampleHost exampleStopReplies rfl⟩

/-- C16: on a valid host with a start count above 0, `Start` with any arguments
and any driver replies returns `ASE_OK`, adds exactly 1 to the start count,
issues no driver call and leaves every other member, among them the buffer
slots, the frame count, the negotiated format and the channel lists, as it
was. -/
theorem Start_nested_increment (D2F : Int → Nat → Int) (h : AsioSharedHost)
    (format : WAVEFORMATEXTENSIBLE) (dur : Int) (mode : BufferSizeMode) (allow : Bool)
    (drv : StartReplies) (hv : h.IsValid = true) (hc : 0 < h.m_StartCount) :
    Start D2F h format dur mode allow drv =
      Run.done { host := { h with m_StartCount := h.m_StartCount + 1 }, ret := ASE_OK,
                 calls := [] } := by
  unfold Start
  rw [if_neg (by simp [hv]), if_neg (by omega)]

/-- Witness for C16: a second `Start`, with a 16-bit format the first would
reject, on the host at start count 1. -/
theorem Start_nested_increment_witness :
    ({ exampleAttachedHost with m_StartCount := 1 } : AsioSharedHost).IsValid = true ∧
    0 < ({ exampleAttachedHost with m_StartCount := 1 } : AsioSharedHost).m_StartCount ∧
    Start exampleDurationToAudioFrames { exampleAttachedHost with m_StartCount := 1 }
      example16BitFormat 0 BufferSizeMode.BufferSizeMode_AlwaysPreferred false
      exampleStartFailsReplies =
      Run.done { host := { exampleAttachedHost with m_StartCount := 2 }, ret := ASE_OK,
                 calls := [] } :=
  ⟨rfl, by decide,
   Start_nested_increment exampleDurationToAudioFrames
     { exampleAttachedHost with m_StartCount := 1 } example16BitFormat 0
     BufferSizeMode.BufferSizeMode_AlwaysPreferred false exampleStartFailsReplies rfl
     (by decide)⟩

/-! ## Attach -/

theorem construct_queryLoop_err (drv : AttachReplies) (isInput : ASIOBool) :
    ∀ (n i : Nat),
      (∃ k, k < n ∧ (drv.getChannelInfo (channelQuery isInput (i + k))).1 ≠ ASE_OK) →
      (construct_queryLoop drv isInput i (List.replicate n ASIOChannelInfo_zero)).2.1 = true := by
  intro n
  induction n with
  | zero => intro i ⟨k, hk, _⟩; omega
  | succ n ih =>
    intro i ⟨k, hk, hfail⟩
    rw [List.replicate_succ, construct_queryLoop]
    simp only
    by_cases h0 : (drv.getChannelInfo
        { ASIOChannelInfo_zero with channel := (i : Int), isInput := isInput }).1 ≠ ASE_OK
    · rw [if_pos h0]
    · rw [if_neg h0]
      simp only
      apply ih (i + 1)
      cases k with
      | zero => exact absurd hfail h0
      | succ k => exact ⟨k, by omega, by rw [show i + 1 + k = i + (k + 1) by omega]; exact hfail⟩

theorem construct_queryLoop_noRelease (drv : AttachReplies) (isInput : ASIOBool) :
    ∀ (l : List ASIOChannelInfo) (i : Nat),
      (construct_queryLoop drv isInput i l).2.2.count DriverCall.Release = 0 := by
  intro l
  induction l with
  | nil => intro i; rfl
  | cons ci rest ih =>
    intro i
    rw [construct_queryLoop]
    simp only
    split_ifs
    · rfl
    · simp only
      rw [List.count_cons_of_ne (by simp)]
      exact ih (i + 1)

/-- C8: when the module load, the factory handshake and `init` succeed but
`getChannels` fails, or `getChannels` succeeds (with channel counts that are not
negative) and the `getChannelInfo` query of some input or output channel fails,
the constructor returns a host with empty input and output channel lists, with
the driver released exactly once, and `IsValid()` is false. -/
theorem construct_rollback (drv : AttachReplies) (hattach : attachSucceeds drv)
    (hfail : drv.getChannels ≠ ASE_OK ∨
      (0 ≤ drv.numInputChannels ∧ 0 ≤ drv.numOutputChannels ∧
        ((∃ i : Nat, (i : Int) < drv.numInputChannels ∧
            (drv.getChannelInfo (channelQuery ASIOTrue i)).1 ≠ ASE_OK) ∨
         (∃ i : Nat, (i : Int) < drv.numOutputChannels ∧
            (drv.getChannelInfo (channelQuery ASIOFalse i)).1 ≠ ASE_OK)))) :
    ∃ h calls, construct drv = Run.done (h, calls) ∧
      h.m_AsioInChannelInfo = [] ∧ h.m_AsioOutChannelInfo = [] ∧
      h.m_Driver = false ∧ h.IsValid = false ∧
      calls.count DriverCall.Release = 1 := by
  obtain ⟨hl, hg, hc, hi, hinit⟩ := hattach
  have hatt : construct_attach drv = Run.done (true, [DriverCall.init]) := by
    unfold construct_attach
    simp [hl, hg, hc, hi, hinit]
  unfold construct
  rw [hatt]
  simp only [Bool.not_true, Bool.false_eq_true, if_false]
  rcases hfail with hch | ⟨hin, hout, hq⟩
  · rw [if_pos hch]
    refine ⟨_, _, rfl, rfl, rfl, rfl, rfl, ?_⟩
    simp [DisplayCurrentError]
  · by_cases hch : drv.getChannels ≠ ASE_OK
    · rw [if_pos hch]
      refine ⟨_, _, rfl, rfl, rfl, rfl, rfl, ?_⟩
      simp [DisplayCurrentError]
    · rw [if_neg hch, if_neg (by omega)]
      have herr : (if (construct_queryLoop drv ASIOTrue 0
            (List.replicate drv.numInputChannels.toNat ASIOChannelInfo_zero)).2.1 = true then
            (List.replicate drv.numOutputChannels.toNat ASIOChannelInfo_zero, true,
              ([] : List DriverCall))
          else construct_queryLoop drv ASIOFalse 0
            (List.replicate drv.numOutputChannels.toNat ASIOChannelInfo_zero)).2.1 = true := by
        by_cases hins : (construct_queryLoop drv ASIOTrue 0
            (List.replicate drv.numInputChannels.toNat ASIOChannelInfo_zero)).2.1 = true
        · rw [if_pos hins]
        · rw [if_neg hins]
          rcases hq with ⟨i, hi1, hi2⟩ | ⟨i, hi1, hi2⟩
          · exact absurd (construct_queryLoop_err drv ASIOTrue _ 0
              ⟨i, by omega, by rw [Nat.zero_add]; exact hi2⟩) hins
          · exact construct_queryLoop_err drv ASIOFalse _ 0
              ⟨i, by omega, by rw [Nat.zero_add]; exact hi2⟩
      rw [if_pos herr]
      refine ⟨_, _, rfl, rfl, rfl, rfl, rfl, ?_⟩
      have h1 := construct_queryLoop_noRelease drv ASIOTrue
        (List.replicate drv.numInputChannels.toNat ASIOChannelInfo_zero) 0
      have h2 := construct_queryLoop_noRelease drv ASIOFalse
        (List.replicate drv.numOutputChannels.toNat ASIOChannelInfo_zero) 0
      simp only [List.count_append, DisplayCurrentError]
      split_ifs <;> simp [h1, h2]

/-- Witness for C8: the attach of `exampleAttachLastFails`, on which only the
query for the last channel fails. -/
theorem construct_rollback_witness :
    attachSucceeds exampleAttachLastFails ∧
    (exampleAttachLastFails.getChannelInfo (channelQuery ASIOFalse 1)).1 ≠ ASE_OK ∧
    ∃ h calls, construct exampleAttachLastFails = Run.done (h, calls) ∧
      h.m_AsioInChannelInfo = [] ∧ h.m_AsioOutChannelInfo = [] ∧
      h.m_Driver = false ∧ h.IsValid = false ∧
      calls.count DriverCall.Release = 1 :=
  ⟨⟨rfl, rfl, rfl, rfl, by decide⟩, by decide,
   construct_rollback exampleAttachLastFails ⟨rfl, rfl, rfl, rfl, by decide⟩
     (Or.inr ⟨by decide, by decide, Or.inr ⟨1, by decide, by decide⟩⟩)⟩

/-! ## Buffer size decision -/

theorem toDWORD_ofNat (n : Nat) (hn : n < 4294967296) : toDWORD (n : Int) = n := by
  unfold toDWORD
  omega

theorem toDWORD_nonneg (x : Int) (h0 : 0 ≤ x) (h1 : x < 2147483648) :
    (toDWORD x : Int) = x ∧ toDWORD x < 2147483648 := by
  unfold toDWORD
  omega

theorem toDWORD_lt (x : Int) : toDWORD x < 4294967296 := by
  unfold toDWORD
  omega

theorem two_pow_le_of_le_31 (k : Nat) (hk : k ≤ 31) : 2 ^ k ≤ 2147483648 := by
  calc 2 ^ k ≤ 2 ^ 31 := Nat.pow_le_pow_right (by decide) hk
    _ = 2147483648 := by norm_num

/-- The power-of-two loop entered with the counter at `2 ^ k`, when the frame
count or the maximum is at most `2 ^ 31`: it exits, with the first power of two
from `2 ^ k` on that is not below both. -/
theorem Start_pow2Loop_spec (b m : Nat) (hbm : b ≤ 2147483648 ∨ m ≤ 2147483648) :
    ∀ (fuel k : Nat), k ≤ 31 → 32 - k < fuel →
      (∀ i, i < k → 2 ^ i < b ∧ 2 ^ i < m) →
      ∃ j, k ≤ j ∧ j ≤ 31 ∧ Start_pow2Loop fuel (2 ^ k) b m = some (2 ^ j) ∧
        ¬(2 ^ j < b ∧ 2 ^ j < m) ∧ ∀ i, i < j → 2 ^ i < b ∧ 2 ^ i < m := by
  intro fuel
  induction fuel with
  | zero => intro k _ hf; omega
  | succ fuel ih =>
    intro k hk hf hlow
    rw [Start_pow2Loop]
    by_cases hc : 2 ^ k < b ∧ 2 ^ k < m
    · rw [if_pos hc]
      have hk31 : k < 31 := by
        by_contra hge
        have hk' : k = 31 := by omega
        subst hk'
        have : (2 : Nat) ^ 31 = 2147483648 := by norm_num
        omega
      have hle := two_pow_le_of_le_31 (k + 1) (by omega)
      have hstep : (2 ^ k * 2) % DWORD_MOD = 2 ^ (k + 1) := by
        rw [← Nat.pow_succ]
        exact Nat.mod_eq_of_lt (by unfold DWORD_MOD; omega)
      rw [hstep]
      obtain ⟨j, hj1, hj2, hj3, hj4, hj5⟩ := ih (k + 1) (by omega) (by omega) (by
        intro i hi
        by_cases hik : i = k
        · subst hik; exact hc
        · exact hlow i (by omega))
      exact ⟨j, by omega, hj2, hj3, hj4, hj5⟩
    · rw [if_neg hc]
      exact ⟨k, le_refl k, hk, rfl, hc, hlow⟩

theorem Start_pow2Loop_zero (b m : Nat) (hb : 0 < b) (hm : 0 < m) :
    ∀ fuel, Start_pow2Loop fuel 0 b m = none := by
  intro fuel
  induction fuel with
  | zero => rfl
  | succ fuel ih =>
    rw [Start_pow2Loop, if_pos ⟨hb, hm⟩]
    exact ih

theorem Start_pow2Loop_diverges (b m : Nat) (hb : 2147483648 < b) (hm : 2147483648 < m) :
    ∀ (d k : Nat), k + d = 31 → ∀ fuel, Start_pow2Loop fuel (2 ^ k) b m = none := by
  intro d
  induction d with
  | zero =>
    intro k hk fuel
    have hk' : k = 31 := by omega
    subst hk'
    cases fuel with
    | zero => rfl
    | succ fuel =>
      rw [Start_pow2Loop, if_pos ⟨by norm_num; omega, by norm_num; omega⟩]
      have : (2 ^ 31 * 2) % DWORD_MOD = 0 := by unfold DWORD_MOD; norm_num
      rw [this]
      exact Start_pow2Loop_zero b m (by omega) (by omega) fuel
  | succ d ih =>
    intro k hk fuel
    cases fuel with
    | zero => rfl
    | succ fuel =>
      have hle := two_pow_le_of_le_31 (k + 1) (by omega)
      have hle' := two_pow_le_of_le_31 k (by omega)
      rw [Start_pow2Loop, if_pos ⟨by omega, by omega⟩]
      have hstep : (2 ^ k * 2) % DWORD_MOD = 2 ^ (k + 1) := by
        rw [← Nat.pow_succ]
        exact Nat.mod_eq_of_lt (by unfold DWORD_MOD; omega)
      rw [hstep]
      exact ih (k + 1) (by omega) fuel

/-- The 33 tests of the condition that `Start_granularity` allows the loop are
enough: when they do not bring the loop to its exit, no number of tests does. -/
theorem Start_pow2Loop_none_forever (b m : Nat)
    (hnone : Start_pow2Loop 33 1 b m = none) : ∀ fuel, Start_pow2Loop fuel 1 b m = none := by
  by_cases hbm : b ≤ 2147483648 ∨ m ≤ 2147483648
  · obtain ⟨j, _, _, hj, _⟩ := Start_pow2Loop_spec b m hbm 33 0 (by omega) (by omega)
      (fun i hi => absurd hi (by omega))
    rw [pow_zero, hnone] at hj
    exact absurd hj (by simp)
  · have := Start_pow2Loop_diverges b m (by omega) (by omega) 31 0 (by omega)
    simpa using this

theorem Start_decideBufferSize_default (suggested : Nat) (drv : StartReplies) :
    Start_decideBufferSize BufferSizeMode.BufferSizeMode_Default suggested drv =
      Start_granularity (Start_clamp suggested drv.minAsioBufferFrames drv.maxAsioBufferFrames)
        drv.maxAsioBufferFrames drv.asioBufferGranularity := by
  simp [Start_decideBufferSize]

theorem Start_decideBufferSize_preferred (suggested : Nat) (drv : StartReplies) :
    Start_decideBufferSize BufferSizeMode.BufferSizeMode_AlwaysPreferred suggested drv =
      Run.done (toDWORD drv.preferredAsioBufferFrames) := by
  simp [Start_decideBufferSize]

/-- C6, as amended: in the best-fit mode with granularity -1, when the clamped
frame count or the maximum (as a `DWORD`) is at most `2 ^ 31`, which is so
whenever the driver reports a maximum that is not negative, the decided size is
the smallest power of two that is at least the clamped count or at least the
maximum; when the clamped count does not exceed the maximum it is the smallest
power of two that is at least the clamped count. -/
theorem Start_decideBufferSize_pow2 (suggested : Nat) (drv : StartReplies)
    (hg : drv.asioBufferGranularity = -1)
    (hfit : Start_clamp suggested drv.minAsioBufferFrames drv.maxAsioBufferFrames ≤ 2147483648 ∨
      toDWORD drv.maxAsioBufferFrames ≤ 2147483648) :
    ∃ j, Start_decideBufferSize BufferSizeMode.BufferSizeMode_Default suggested drv
        = Run.done (2 ^ j) ∧
      (Start_clamp suggested drv.minAsioBufferFrames drv.maxAsioBufferFrames ≤ 2 ^ j ∨
        toDWORD drv.maxAsioBufferFrames ≤ 2 ^ j) ∧
      (∀ i, i < j →
        2 ^ i < Start_clamp suggested drv.minAsioBufferFrames drv.maxAsioBufferFrames ∧
        2 ^ i < toDWORD drv.maxAsioBufferFrames) ∧
      (Start_clamp suggested drv.minAsioBufferFrames drv.maxAsioBufferFrames
          ≤ toDWORD drv.maxAsioBufferFrames →
        Start_clamp suggested drv.minAsioBufferFrames drv.maxAsioBufferFrames ≤ 2 ^ j) := by
  obtain ⟨j, _, _, hj, hstop, hlow⟩ := Start_pow2Loop_spec _ _ hfit 33 0 (by omega) (by omega)
    (fun i hi => absurd hi (by omega))
  rw [pow_zero] at hj
  refine ⟨j, ?_, by omega, hlow, fun hle => by omega⟩
  rw [Start_decideBufferSize_default]
  unfold Start_granularity
  rw [hg, if_neg (by decide), if_pos rfl, hj]

/-- Witness for C6: requested frames 100 with minimum 64 and maximum 10000 give
128. -/
theorem Start_decideBufferSize_pow2_witness :
    Start_decideBufferSize BufferSizeMode.BufferSizeMode_Default 100 examplePow2Replies
      = Run.done 128 ∧
    ∃ j, Start_decideBufferSize BufferSizeMode.BufferSizeMode_Default 100 examplePow2Replies
        = Run.done (2 ^ j) ∧
      (Start_clamp 100 examplePow2Replies.minAsioBufferFrames
          examplePow2Replies.maxAsioBufferFrames ≤ 2 ^ j ∨
        toDWORD examplePow2Replies.maxAsioBufferFrames ≤ 2 ^ j) ∧
      (∀ i, i < j →
        2 ^ i < Start_clamp 100 examplePow2Replies.minAsioBufferFrames
          examplePow2Replies.maxAsioBufferFrames ∧
        2 ^ i < toDWORD examplePow2Replies.maxAsioBufferFrames) ∧
      (Start_clamp 100 examplePow2Replies.minAsioBufferFrames
          examplePow2Replies.maxAsioBufferFrames ≤ toDWORD examplePow2Replies.maxAsioBufferFrames →
        Start_clamp 100 examplePow2Replies.minAsioBufferFrames
          examplePow2Replies.maxAsioBufferFrames ≤ 2 ^ j) :=
  ⟨by decide, Start_decideBufferSize_pow2 100 examplePow2Replies rfl (Or.inl (by decide))⟩

/-- C6 as stated fails: with the driver-reported maximum -1 and a request of
3000000000 frames the clamped count and the maximum exceed `2 ^ 31`, the counter
wraps to 0 and the loop never exits, so there is no decided size. -/
theorem Start_decideBufferSize_pow2_counterexample :
    exampleNegativeMaxReplies.asioBufferGranularity = -1 ∧
    Start_clamp 3000000000 exampleNegativeMaxReplies.minAsioBufferFrames
      exampleNegativeMaxReplies.maxAsioBufferFrames = 3000000000 ∧
    Start_pow2Loop 33 1 3000000000 (toDWORD exampleNegativeMaxReplies.maxAsioBufferFrames) = none ∧
    ¬ ∃ p, Start_decideBufferSize BufferSizeMode.BufferSizeMode_Default 3000000000
      exampleNegativeMaxReplies = Run.done p := by
  refine ⟨rfl, by decide, by decide, ?_⟩
  have h : Start_decideBufferSize BufferSizeMode.BufferSizeMode_Default 3000000000
      exampleNegativeMaxReplies = Run.fault Fault.diverges := by decide
  rw [h]
  simp

/-- With a minimum and a maximum that are not negative the clamped frame count
is below `2 ^ 31`, whatever the request. -/
theorem Start_clamp_lt (suggested : Nat) (minF maxF : Int)
    (hmin : 0 ≤ minF ∧ minF < 2147483648) (hmax : 0 ≤ maxF ∧ maxF < 2147483648) :
    Start_clamp suggested minF maxF < 2147483648 := by
  obtain ⟨_, h1⟩ := toDWORD_nonneg _ hmin.1 hmin.2
  obtain ⟨_, h2⟩ := toDWORD_nonneg _ hmax.1 hmax.2
  unfold Start_clamp
  split_ifs <;> omega

/-- With a minimum and a maximum that are not negative, a multiple of the
granularity that is at least the clamped frame count fits in 32 bits. -/
theorem Start_clamp_multiple_fits (suggested : Nat) (minF maxF : Int) (G : Nat)
    (hmin : 0 ≤ minF ∧ minF < 2147483648) (hmax : 0 ≤ maxF ∧ maxF < 2147483648)
    (h1 : 1 < G) (h2 : G < 2147483648) :
    ∃ m, G ∣ m ∧ Start_clamp suggested minF maxF ≤ m ∧ m < 4294967296 := by
  have hc := Start_clamp_lt suggested minF maxF hmin hmax
  generalize Start_clamp suggested minF maxF = c at hc
  have hdm : G * (c / G) + c % G = c := Nat.div_add_mod c G
  have hlt : c % G < G := Nat.mod_lt c (by omega)
  refine ⟨G * (c / G + 1), ⟨_, rfl⟩, ?_, ?_⟩ <;> rw [Nat.mul_add, Nat.mul_one] <;> omega

/-- C7, as amended: in the best-fit mode with granularity `G` above 1, when
some multiple of `G` that is at least the clamped frame count fits in 32 bits,
which is so whenever the driver reports a minimum and a maximum that are not
negative, the decided size is the least multiple of `G` that is at least the
clamped count, and it is the clamped count when that is a multiple of `G`. -/
theorem Start_decideBufferSize_granularity (suggested : Nat) (drv : StartReplies) (G : Nat)
    (hG : drv.asioBufferGranularity = (G : Int)) (h1 : 1 < G) (h2 : G < 2147483648)
    (hfit : ∃ m, G ∣ m ∧
      Start_clamp suggested drv.minAsioBufferFrames drv.maxAsioBufferFrames ≤ m ∧
      m < 4294967296) :
    ∃ r, Start_decideBufferSize BufferSizeMode.BufferSizeMode_Default suggested drv
        = Run.done r ∧
      G ∣ r ∧
      Start_clamp suggested drv.minAsioBufferFrames drv.maxAsioBufferFrames ≤ r ∧
      (∀ m, G ∣ m →
        Start_clamp suggested drv.minAsioBufferFrames drv.maxAsioBufferFrames ≤ m → r ≤ m) ∧
      (G ∣ Start_clamp suggested drv.minAsioBufferFrames drv.maxAsioBufferFrames →
        r = Start_clamp suggested drv.minAsioBufferFrames drv.maxAsioBufferFrames) := by
  rw [Start_decideBufferSize_default]
  generalize Start_clamp suggested drv.minAsioBufferFrames drv.maxAsioBufferFrames = c at *
  unfold Start_granularity
  rw [hG, if_pos (by omega), toDWORD_ofNat G (by omega)]
  simp only
  have hdm : G * (c / G) + c % G = c := Nat.div_add_mod c G
  have hlt : c % G < G := Nat.mod_lt c (by omega)
  by_cases hmod : c % G ≠ 0
  · rw [if_pos hmod]
    have hcast : toDWORD ((G : Int) - ((c % G : Nat) : Int)) = G - c % G := by
      unfold toDWORD
      omega
    rw [hcast]
    have hleast : ∀ m, G ∣ m → c ≤ m → c + (G - c % G) ≤ m := by
      intro m ⟨q, hq⟩ hcm
      subst hq
      have hq0 : c / G < q := by
        by_contra hge
        have hle : G * q ≤ G * (c / G) := Nat.mul_le_mul_left G (by omega)
        have hceq : c = G * q := by omega
        rw [hceq, Nat.mul_mod_right] at hmod
        exact hmod rfl
      have hle : G * (c / G + 1) ≤ G * q := Nat.mul_le_mul_left G (by omega)
      rw [Nat.mul_add, Nat.mul_one] at hle
      omega
    obtain ⟨m, hm1, hm2, hm3⟩ := hfit
    have hbound := hleast m hm1 hm2
    rw [Nat.mod_eq_of_lt (by unfold DWORD_MOD; omega)]
    refine ⟨_, rfl, ?_, by omega, hleast, ?_⟩
    · refine ⟨c / G + 1, ?_⟩
      rw [Nat.mul_add, Nat.mul_one]
      omega
    · intro hdvd
      exact absurd (Nat.mod_eq_zero_of_dvd hdvd) hmod
  · rw [if_neg hmod]
    have h0 : c % G = 0 := by omega
    exact ⟨c, rfl, Nat.dvd_of_mod_eq_zero h0, le_refl c, fun m _ hm => hm, fun _ => rfl⟩

/-- Witness for C7: requested frames 100 with granularity 64, minimum 64 and
maximum 4096 give 128. -/
theorem Start_decideBufferSize_granularity_witness :
    Start_decideBufferSize BufferSizeMode.BufferSizeMode_Default 100 exampleStartReplies
      = Run.done 128 ∧
    ∃ r, Start_decideBufferSize BufferSizeMode.BufferSizeMode_Default 100 exampleStartReplies
        = Run.done r ∧
      64 ∣ r ∧
      Start_clamp 100 exampleStartReplies.minAsioBufferFrames
        exampleStartReplies.maxAsioBufferFrames ≤ r ∧
      (∀ m, 64 ∣ m →
        Start_clamp 100 exampleStartReplies.minAsioBufferFrames
          exampleStartReplies.maxAsioBufferFrames ≤ m → r ≤ m) ∧
      (64 ∣ Start_clamp 100 exampleStartReplies.minAsioBufferFrames
          exampleStartReplies.maxAsioBufferFrames →
        r = Start_clamp 100 exampleStartReplies.minAsioBufferFrames
          exampleStartReplies.maxAsioBufferFrames) :=
  ⟨by decide,
   Start_decideBufferSize_granularity 100 exampleStartReplies 64 rfl (by decide) (by decide)
     ⟨128, by decide, by decide, by decide⟩⟩

/-- C7 as stated fails: with the driver-reported minimum -1 the clamped count is
4294967295, the sum `bufferDurationFrames += asioBufferGranularity - mod` wraps
and the decided size is 0, which is below the clamped count. -/
theorem Start_decideBufferSize_granularity_counterexample :
    exampleNegativeMinReplies.asioBufferGranularity = 64 ∧
    Start_clamp 100 exampleNegativeMinReplies.minAsioBufferFrames
      exampleNegativeMinReplies.maxAsioBufferFrames = 4294967295 ∧
    Start_decideBufferSize BufferSizeMode.BufferSizeMode_Default 100 exampleNegativeMinReplies
      = Run.done 0 ∧
    ¬ (Start_clamp 100 exampleNegativeMinReplies.minAsioBufferFrames
      exampleNegativeMinReplies.maxAsioBufferFrames ≤ 0) := by
  decide

theorem Start_session_ok_frames (h : AsioSharedHost) (format : WAVEFORMATEXTENSIBLE)
    (frames : Nat) (drv : StartReplies) (calls : List DriverCall)
    (hok : (Start_session h format frames drv calls).ret = ASE_OK) :
    (Start_session h format frames drv calls).host.m_NumBufferFrames = frames := by
  unfold Start_session at hok ⊢
  simp only at hok ⊢
  split_ifs at hok ⊢ <;> first | rfl | exact absurd hok HWMalfunction_ne_OK

/-- C5: for a `Start` call at start count 0, in either mode and for either value
of `allowSmallerBuffer`, when the driver reports a minimum and a maximum that
are not negative: if `Start` returns `ASE_OK`, the recorded frame count lies
between them; and if the decided size lies outside them, `Start` does not return
`ASE_OK`, leaves the host unchanged and issues no `createBuffers`, and when the
steps before the size decision succeed it returns `ASE_InvalidParameter`. -/
theorem Start_frames_within_bounds (D2F : Int → Nat → Int) (h : AsioSharedHost)
    (format : WAVEFORMATEXTENSIBLE) (dur : Int) (mode : BufferSizeMode) (allow : Bool)
    (drv : StartReplies) (h0 : h.m_StartCount = 0)
    (hmin : 0 ≤ drv.minAsioBufferFrames ∧ drv.minAsioBufferFrames < 2147483648)
    (hmax : 0 ≤ drv.maxAsioBufferFrames ∧ drv.maxAsioBufferFrames < 2147483648) :
    (∀ r, Start D2F h format dur mode allow drv = Run.done r → r.ret = ASE_OK →
      drv.minAsioBufferFrames ≤ (r.host.GetBufferNumFrames : Int) ∧
      (r.host.GetBufferNumFrames : Int) ≤ drv.maxAsioBufferFrames) ∧
    (∀ frames,
      Start_decideBufferSize mode (requestedFrames D2F format dur) drv = Run.done frames →
      ((frames : Int) < drv.minAsioBufferFrames ∨ drv.maxAsioBufferFrames < (frames : Int)) →
      (∀ r, Start D2F h format dur mode allow drv = Run.done r →
        r.ret ≠ ASE_OK ∧ r.host = h ∧ quietCalls r.calls = true) ∧
      (reachesSizing h format drv →
        ∃ calls, Start D2F h format dur mode allow drv =
          Run.done { host := h, ret := ASE_InvalidParameter, calls := calls })) := by
  obtain ⟨hmin1, _⟩ := toDWORD_nonneg _ hmin.1 hmin.2
  obtain ⟨hmax1, _⟩ := toDWORD_nonneg _ hmax.1 hmax.2
  constructor
  · intro r hr hok
    by_cases hv : h.IsValid = true
    · obtain ⟨calls, _, hshape⟩ := Start_idle_shape D2F h format dur mode allow drv r hv h0 hr
      rcases hshape with hE | ⟨frames, _, ⟨hE, _⟩ | ⟨hE, _, hlo, hhi⟩⟩
      · rw [hE] at hok; exact absurd hok HWMalfunction_ne_OK
      · rw [hE] at hok; exact absurd hok InvalidParameter_ne_OK
      · rw [hE] at hok ⊢
        unfold GetBufferNumFrames
        rw [Start_session_ok_frames h format frames drv calls hok]
        omega
    · unfold Start at hr
      rw [if_pos (by simpa using hv)] at hr
      simp only [Run.done.injEq] at hr
      subst hr
      exact absurd hok NotPresent_ne_OK
  · intro frames hdec hout
    constructor
    · intro r hr
      by_cases hv : h.IsValid = true
      · obtain ⟨calls, hq, hshape⟩ := Start_idle_shape D2F h format dur mode allow drv r hv h0 hr
        rcases hshape with hE | ⟨frames', hdec', ⟨hE, _⟩ | ⟨hE, _, hlo, hhi⟩⟩
        · rw [hE]; exact ⟨HWMalfunction_ne_OK, rfl, hq⟩
        · rw [hE]; exact ⟨InvalidParameter_ne_OK, rfl, hq⟩
        · rw [hdec] at hdec'
          simp only [Run.done.injEq] at hdec'
          subst hdec'
          omega
      · unfold Start at hr
        rw [if_pos (by simpa using hv)] at hr
        simp only [Run.done.injEq] at hr
        subst hr
        exact ⟨NotPresent_ne_OK, rfl, rfl⟩
    · intro hreach
      obtain ⟨calls, hcalls⟩ := Start_reaches_sizing D2F h format dur mode allow drv h0 hreach
      refine ⟨calls, ?_⟩
      rw [hcalls]
      unfold Start_sizing
      unfold requestedFrames at hdec
      simp only [hdec]
      split_ifs with c1 c2 c3
      · rfl
      · rfl
      · rfl
      · omega

/-- Witness for C5: the example `Start` call on the example attached host
returns `ASE_OK` with 512 frames, between the driver's 64 and 4096; and in the
preferred-size mode with a preferred size of 8192 the decided size is above the
maximum and the call returns `ASE_InvalidParameter` with the host unchanged. -/
theorem Start_frames_within_bounds_witness :
    exampleAttachedHost.m_StartCount = 0 ∧
    (0 ≤ exampleStartReplies.minAsioBufferFrames ∧
      exampleStartReplies.minAsioBufferFrames < 2147483648) ∧
    (0 ≤ exampleStartReplies.maxAsioBufferFrames ∧
      exampleStartReplies.maxAsioBufferFrames < 2147483648) ∧
    (∃ r, Start exampleDurationToAudioFrames exampleAttachedHost exampleFormat 100000
        BufferSizeMode.BufferSizeMode_Default false exampleStartReplies = Run.done r ∧
      r.ret = ASE_OK ∧ r.host.GetBufferNumFrames = 512 ∧
      exampleStartReplies.minAsioBufferFrames ≤ (r.host.GetBufferNumFrames : Int) ∧
      (r.host.GetBufferNumFrames : Int) ≤ exampleStartReplies.maxAsioBufferFrames) ∧
    Start_decideBufferSize BufferSizeMode.BufferSizeMode_AlwaysPreferred
      (requestedFrames exampleDurationToAudioFrames exampleFormat 100000)
      examplePreferredTooLargeReplies = Run.done 8192 ∧
    reachesSizing exampleAttachedHost exampleFormat examplePreferredTooLargeReplies ∧
    (∃ calls, Start exampleDurationToAudioFrames exampleAttachedHost exampleFormat 100000
      BufferSizeMode.BufferSizeMode_AlwaysPreferred true examplePreferredTooLargeReplies
      = Run.done { host := exampleAttachedHost, ret := ASE_InvalidParameter, calls := calls }) := by
  have hstart : Start exampleDurationToAudioFrames exampleAttachedHost exampleFormat 100000
      BufferSizeMode.BufferSizeMode_Default false exampleStartReplies
      = Run.done (Start_session exampleAttachedHost exampleFormat 512 exampleStartReplies
          [DriverCall.getChannels, DriverCall.canSampleRate 48000, DriverCall.getChannels,
           DriverCall.canSampleRate 48000, DriverCall.getSampleRate, DriverCall.getBufferSize]) := by
    decide
  have hreach : reachesSizing exampleAttachedHost exampleFormat examplePreferredTooLargeReplies :=
    ⟨rfl, Or.inr ⟨⟨true, [DriverCall.getChannels, DriverCall.canSampleRate 48000]⟩,
        by decide, rfl⟩,
      Or.inr ⟨⟨true, [DriverCall.getChannels, DriverCall.canSampleRate 48000]⟩, by decide, rfl⟩,
      rfl, Or.inl (by decide), rfl⟩
  exact ⟨rfl, by decide, by decide,
    ⟨_, hstart, by decide, by decide,
      (Start_frames_within_bounds exampleDurationToAudioFrames exampleAttachedHost exampleFormat
        100000 BufferSizeMode.BufferSizeMode_Default false exampleStartReplies rfl
        (by decide) (by decide)).1 _ hstart (by decide)⟩,
    by decide, hreach,
    ((Start_frames_within_bounds exampleDurationToAudioFrames exampleAttachedHost exampleFormat
        100000 BufferSizeMode.BufferSizeMode_AlwaysPreferred true examplePreferredTooLargeReplies
        rfl (by decide) (by decide)).2 8192 (by decide) (Or.inr (by decide))).2 hreach⟩

/-- C13: for a `Start` call at start count 0 with `allowSmallerBuffer = false`,
in either mode: a call that returns `ASE_OK` records a frame count that is at
least the requested one; and if the decided frame count is below the requested
one, `Start` does not return `ASE_OK`, leaves the host (start count and buffer
slots) unchanged and issues no `createBuffers`, and when the steps before the
size decision succeed it returns `ASE_InvalidParameter`. -/
theorem Start_no_smaller_buffer (D2F : Int → Nat → Int) (h : AsioSharedHost)
    (format : WAVEFORMATEXTENSIBLE) (dur : Int) (mode : BufferSizeMode)
    (drv : StartReplies) (h0 : h.m_StartCount = 0) :
    (∀ r, Start D2F h format dur mode false drv = Run.done r → r.ret = ASE_OK →
      requestedFrames D2F format dur ≤ r.host.GetBufferNumFrames) ∧
    (∀ frames,
      Start_decideBufferSize mode (requestedFrames D2F format dur) drv = Run.done frames →
      frames < requestedFrames D2F format dur →
      (∀ r, Start D2F h format dur mode false drv = Run.done r →
        r.ret ≠ ASE_OK ∧ r.host = h ∧ quietCalls r.calls = true) ∧
      (reachesSizing h format drv →
        ∃ calls, Start D2F h format dur mode false drv =
          Run.done { host := h, ret := ASE_InvalidParameter, calls := calls })) := by
  obtain ⟨hinvalid, _⟩ := Start_not_idle D2F h format dur mode false drv
  constructor
  · intro r hr hok
    have hv : h.IsValid = true := (Start_ok_count D2F h format dur mode false drv r hr hok).1
    obtain ⟨calls, _, hshape⟩ := Start_idle_shape D2F h format dur mode false drv r hv h0 hr
    rcases hshape with hE | ⟨frames, _, ⟨hE, _⟩ | ⟨hE, hsm, _⟩⟩
    · rw [hE] at hok; exact absurd hok HWMalfunction_ne_OK
    · rw [hE] at hok; exact absurd hok InvalidParameter_ne_OK
    · rw [hE] at hok ⊢
      unfold GetBufferNumFrames
      rw [Start_session_ok_frames h format frames drv calls hok]
      by_contra hlt
      exact hsm ⟨by omega, rfl⟩
  · intro frames hdec hsmall
    constructor
    · intro r hr
      by_cases hv : h.IsValid = true
      · obtain ⟨calls, hq, hshape⟩ := Start_idle_shape D2F h format dur mode false drv r hv h0 hr
        rcases hshape with hE | ⟨frames', hdec', ⟨hE, _⟩ | ⟨hE, hsm, _⟩⟩
        · rw [hE]; exact ⟨HWMalfunction_ne_OK, rfl, hq⟩
        · rw [hE]; exact ⟨InvalidParameter_ne_OK, rfl, hq⟩
        · rw [hdec] at hdec'
          simp only [Run.done.injEq] at hdec'
          subst hdec'
          exact absurd ⟨hsmall, rfl⟩ hsm
      · rw [hinvalid (by simpa using hv)] at hr
        simp only [Run.done.injEq] at hr
        subst hr
        exact ⟨NotPresent_ne_OK, rfl, rfl⟩
    · intro hreach
      obtain ⟨calls, hcalls⟩ := Start_reaches_sizing D2F h format dur mode false drv h0 hreach
      refine ⟨calls, ?_⟩
      rw [hcalls]
      unfold Start_sizing
      unfold requestedFrames at hdec hsmall
      simp only [hdec]
      rw [if_pos ⟨hsmall, rfl⟩]

/-- Witness for C13: the example `Start` call returns `ASE_OK` with 512 frames
for a request of 480; in the preferred-size mode a request of 1 s (48000
frames) against the preferred 512 returns `ASE_InvalidParameter`. -/
theorem Start_no_smaller_buffer_witness :
    exampleAttachedHost.m_StartCount = 0 ∧
    (∃ r, Start exampleDurationToAudioFrames exampleAttachedHost exampleFormat 100000
        BufferSizeMode.BufferSizeMode_Default false exampleStartReplies = Run.done r ∧
      r.ret = ASE_OK ∧
      requestedFrames exampleDurationToAudioFrames exampleFormat 100000 = 480 ∧
      requestedFrames exampleDurationToAudioFrames exampleFormat 100000
        ≤ r.host.GetBufferNumFrames) ∧
    Start_decideBufferSize BufferSizeMode.BufferSizeMode_AlwaysPreferred
      (requestedFrames exampleDurationToAudioFrames exampleFormat 10000000)
      exampleStartReplies = Run.done 512 ∧
    512 < requestedFrames exampleDurationToAudioFrames exampleFormat 10000000 ∧
    reachesSizing exampleAttachedHost exampleFormat exampleStartReplies ∧
    (∃ calls, Start exampleDurationToAudioFrames exampleAttachedHost exampleFormat 10000000
      BufferSizeMode.BufferSizeMode_AlwaysPreferred false exampleStartReplies
      = Run.done { host := exampleAttachedHost, ret := ASE_InvalidParameter, calls := calls }) := by
  have hstart : Start exampleDurationToAudioFrames exampleAttachedHost exampleFormat 100000
      BufferSizeMode.BufferSizeMode_Default false exampleStartReplies
      = Run.done (Start_session exampleAttachedHost exampleFormat 512 exampleStartReplies
          [DriverCall.getChannels, DriverCall.canSampleRate 48000, DriverCall.getChannels,
           DriverCall.canSampleRate 48000, DriverCall.getSampleRate, DriverCall.getBufferSize]) := by
    decide
  have hreach : reachesSizing exampleAttachedHost exampleFormat exampleStartReplies :=
    ⟨rfl, Or.inr ⟨⟨true, [DriverCall.getChannels, DriverCall.canSampleRate 48000]⟩,
        by decide, rfl⟩,
      Or.inr ⟨⟨true, [DriverCall.getChannels, DriverCall.canSampleRate 48000]⟩, by decide, rfl⟩,
      rfl, Or.inl (by decide), rfl⟩
  exact ⟨rfl,
    ⟨_, hstart, by decide, by decide,
      (Start_no_smaller_buffer exampleDurationToAudioFrames exampleAttachedHost exampleFormat
        100000 BufferSizeMode.BufferSizeMode_Default exampleStartReplies rfl).1 _ hstart
        (by decide)⟩,
    by decide, by decide, hreach,
    ((Start_no_smaller_buffer exampleDurationToAudioFrames exampleAttachedHost exampleFormat
        10000000 BufferSizeMode.BufferSizeMode_AlwaysPreferred exampleStartReplies rfl).2 512
        (by decide) (by decide)).2 hreach⟩

/-! ## Where the code departs from the spec -/

/-- C3: the code at the failing input.  On a list of two channels the range
that starts at channel 4294967295 with one channel is out of bounds, but the
sum `firstAsioChannel + numAsioChannels` wraps to 0, the bounds test passes,
and the loop reads `channelInfo[4294967295]`, outside the vector, where the
claim has the function return false without such a read.  The same happens
through the public `IsWaveFormatSupported`. -/
theorem CheckSampleTypeAcrossChannels_wraps :
    (exampleHost.channelInfo true).length = 2 ∧
    (4294967295 + 1) % DWORD_MOD = 0 ∧
    CheckSampleTypeAcrossChannels exampleHost true 4294967295 1 = Run.fault Fault.outOfBounds ∧
    IsWaveFormatSupported exampleHost exampleFormat true 4294967295 1 exampleFormatReplies
      = Run.fault Fault.outOfBounds := by
  decide

/-- C4: the code at the failing input.  On the host the example attach
constructs, a `Start` call whose driver `start` fails after `createBuffers`
succeeded returns `ASE_HWMalfunction` and leaves start count 0, but the frame
count stays at the decided 512: `GetBufferNumFrames()` is not 0 on an idle,
reachable host. -/
theorem GetBufferNumFrames_idle_nonzero :
    construct exampleAttachReplies = Run.done (exampleAttachedHost, exampleAttachCalls) ∧
    ∃ r,
      Start exampleDurationToAudioFrames exampleAttachedHost exampleFormat 100000
        BufferSizeMode.BufferSizeMode_Default false exampleStartFailsReplies = Run.done r ∧
      Reachable exampleDurationToAudioFrames r.host ∧
      r.ret = ASE_HWMalfunction ∧
      r.host.m_StartCount = 0 ∧
      r.host.m_AsioBuffers = [] ∧
      r.host.GetBufferNumFrames = 512 := by
  have hcons : construct exampleAttachReplies
      = Run.done (exampleAttachedHost, exampleAttachCalls) := by decide
  have hstart : Start exampleDurationToAudioFrames exampleAttachedHost exampleFormat 100000
      BufferSizeMode.BufferSizeMode_Default false exampleStartFailsReplies
      = Run.done (Start_session exampleAttachedHost exampleFormat 512 exampleStartFailsReplies
          [DriverCall.getChannels, DriverCall.canSampleRate 48000, DriverCall.getChannels,
           DriverCall.canSampleRate 48000, DriverCall.getSampleRate, DriverCall.getBufferSize]) := by
    decide
  refine ⟨hcons, _, hstart, ?_, by decide, by decide, by decide, by decide⟩
  exact Reachable.start _ _ _ _ _ _ _ (Reachable.construct _ _ _ hcons) hstart

/-- C10: the code at the failing input.  On the host the example attach
constructs, a `Start` call whose driver `start` fails after `createBuffers`
succeeded returns `ASE_HWMalfunction` and leaves start count 0, but the
negotiated format stays the requested one: it is not zeroed on an idle,
reachable host. -/
theorem CurrentWaveFormat_idle_nonzero :
    construct exampleAttachReplies = Run.done (exampleAttachedHost, exampleAttachCalls) ∧
    ∃ r,
      Start exampleDurationToAudioFrames exampleAttachedHost exampleFormat 100000
        BufferSizeMode.BufferSizeMode_Default false exampleStartFailsReplies = Run.done r ∧
      Reachable exampleDurationToAudioFrames r.host ∧
      r.ret = ASE_HWMalfunction ∧
      r.host.m_StartCount = 0 ∧
      r.host.m_CurrentWaveFormat = exampleFormat ∧
      r.host.m_CurrentWaveFormat ≠ WAVEFORMATEXTENSIBLE.zero := by
  have hcons : construct exampleAttachReplies
      = Run.done (exampleAttachedHost, exampleAttachCalls) := by decide
  have hstart : Start exampleDurationToAudioFrames exampleAttachedHost exampleFormat 100000
      BufferSizeMode.BufferSizeMode_Default false exampleStartFailsReplies
      = Run.done (Start_session exampleAttachedHost exampleFormat 512 exampleStartFailsReplies
          [DriverCall.getChannels, DriverCall.canSampleRate 48000, DriverCall.getChannels,
           DriverCall.canSampleRate 48000, DriverCall.getSampleRate, DriverCall.getBufferSize]) := by
    decide
  refine ⟨hcons, _, hstart, ?_, by decide, by decide, by decide, by decide⟩
  exact Reachable.start _ _ _ _ _ _ _ (Reachable.construct _ _ _ hcons) hstart

/-- On a host without any channel `Start` validates no format: a zeroed request
is recorded and the start count becomes 1. -/
theorem Start_without_channels_records_zero :
    ∃ h0 calls r,
      construct exampleNoChannelAttach = Run.done (h0, calls) ∧
      Start exampleDurationToAudioFrames h0 WAVEFORMATEXTENSIBLE.zero 0
        BufferSizeMode.BufferSizeMode_AlwaysPreferred true exampleRateZeroReplies = Run.done r ∧
      r.ret = ASE_OK ∧ r.host.m_StartCount = 1 ∧
      r.host.m_CurrentWaveFormat = WAVEFORMATEXTENSIBLE.zero := by
  have hcons : construct exampleNoChannelAttach
      = Run.done ({ exampleAttachedHost with m_AsioInChannelInfo := [], m_AsioOutChannelInfo := [] },
          [DriverCall.init, DriverCall.getChannels, DriverCall.getDriverName]) := by decide
  have hstart : Start exampleDurationToAudioFrames
      { exampleAttachedHost with m_AsioInChannelInfo := [], m_AsioOutChannelInfo := [] }
      WAVEFORMATEXTENSIBLE.zero 0
      BufferSizeMode.BufferSizeMode_AlwaysPreferred true exampleRateZeroReplies
      = Run.done (Start_session
          { exampleAttachedHost with m_AsioInChannelInfo := [], m_AsioOutChannelInfo := [] }
          WAVEFORMATEXTENSIBLE.zero 512 exampleRateZeroReplies
          [DriverCall.getSampleRate, DriverCall.getBufferSize]) := by
    decide
  exact ⟨_, _, _, hcons, hstart, by decide, by decide, by decide⟩

/-- C14: the code at the failing input.  After the example `Start` and the
`Stop` that brings the start count back to 0 the driver handle is still valid,
but both channel lists are empty (lines 315-316 clear them).  The 16-bit request
that `Start` rejects on the attached host is then accepted, nothing being left
to validate it against, and the session has no buffer slot. -/
theorem Stop_clears_channel_lists :
    Start exampleDurationToAudioFrames exampleAttachedHost exampleFormat 100000
      BufferSizeMode.BufferSizeMode_Default false exampleStartReplies
      = Run.done
        { host := exampleStartedHost, ret := ASE_OK,
          calls := [DriverCall.getChannels, DriverCall.canSampleRate 48000,
            DriverCall.getChannels, DriverCall.canSampleRate 48000, DriverCall.getSampleRate,
            DriverCall.getBufferSize, DriverCall.createBuffers 4 512, DriverCall.start] } ∧
    exampleStartedHost.m_AsioInChannelInfo = exampleAttachedHost.m_AsioInChannelInfo ∧
    exampleStartedHost.m_AsioOutChannelInfo = exampleAttachedHost.m_AsioOutChannelInfo ∧
    exampleCycledHost.IsValid = true ∧
    exampleCycledHost.m_StartCount = 0 ∧
    exampleCycledHost.m_AsioInChannelInfo = [] ∧
    exampleCycledHost.m_AsioOutChannelInfo = [] ∧
    Start exampleDurationToAudioFrames exampleAttachedHost example16BitFormat 100000
      BufferSizeMode.BufferSizeMode_Default false exampleStartReplies
      = Run.done
        { host := exampleAttachedHost, ret := ASE_HWMalfunction,
          calls := [DriverCall.getChannels, DriverCall.canSampleRate 48000] } ∧
    (∃ r, Start exampleDurationToAudioFrames exampleCycledHost example16BitFormat 100000
        BufferSizeMode.BufferSizeMode_Default false exampleStartReplies = Run.done r ∧
      r.ret = ASE_OK ∧ r.host.m_StartCount = 1 ∧ r.host.m_AsioBuffers = [] ∧
      r.calls = [DriverCall.getSampleRate, DriverCall.getBufferSize,
        DriverCall.createBuffers 0 512, DriverCall.start]) := by
  have hstart : Start exampleDurationToAudioFrames exampleCycledHost example16BitFormat 100000
      BufferSizeMode.BufferSizeMode_Default false exampleStartReplies
      = Run.done (Start_session exampleCycledHost example16BitFormat 512 exampleStartReplies
          [DriverCall.getSampleRate, DriverCall.getBufferSize]) := by
    decide
  exact ⟨by decide, by decide, by decide, by decide, by decide, by decide, by decide, by decide,
    _, hstart, by decide, by decide, by decide, by decide⟩

/-! ## Buffer slots -/

theorem Start_bufferInfos_length (h : AsioSharedHost) :
    (Start_bufferInfos h).length =
      h.m_AsioOutChannelInfo.length + h.m_AsioInChannelInfo.length := by
  simp [Start_bufferInfos]

/-- The session stage of `Start` when `createBuffers` and `start` succeed. -/
theorem Start_session_ok (h : AsioSharedHost) (format : WAVEFORMATEXTENSIBLE)
    (frames : Nat) (drv : StartReplies) (calls : List DriverCall)
    (hok : (Start_session h format frames drv calls).ret = ASE_OK) :
    (Start_session h format frames drv calls).host =
      { h with
        m_AsioBuffers := (Start_bufferInfos h).mapIdx drv.bufferPtrs
        m_dbgNumBufferSwitches := 0
        m_NumBufferFrames := frames
        m_CurrentWaveFormat :=
          if format.Format.wFormatTag = WAVE_FORMAT_EXTENSIBLE then format
          else { h.m_CurrentWaveFormat with Format := format.Format }
        m_StartCount := h.m_StartCount + 1 } := by
  unfold Start_session at hok ⊢
  simp only at hok ⊢
  by_cases hc : drv.createBuffers ≠ ASE_OK
  · rw [if_pos hc] at hok; exact absurd hok HWMalfunction_ne_OK
  · rw [if_neg hc] at hok ⊢
    by_cases hs : drv.start ≠ ASE_OK
    · rw [if_pos hs] at hok; exact absurd hok HWMalfunction_ne_OK
    · rw [if_neg hs]

/-- The session stage of `Start` never touches the driver handle, the channel
lists or the listeners. -/
theorem Start_session_frame (h : AsioSharedHost) (format : WAVEFORMATEXTENSIBLE)
    (frames : Nat) (drv : StartReplies) (calls : List DriverCall) :
    (Start_session h format frames drv calls).host.m_Driver = h.m_Driver ∧
    (Start_session h format frames drv calls).host.m_AsioInChannelInfo = h.m_AsioInChannelInfo ∧
    (Start_session h format frames drv calls).host.m_AsioOutChannelInfo
      = h.m_AsioOutChannelInfo ∧
    (Start_session h format frames drv calls).host.m_AsioBufferListeners
      = h.m_AsioBufferListeners := by
  unfold Start_session
  simp only
  by_cases hc : drv.createBuffers ≠ ASE_OK
  · rw [if_pos hc]; exact ⟨rfl, rfl, rfl, rfl⟩
  · rw [if_neg hc]
    by_cases hs : drv.start ≠ ASE_OK
    · rw [if_pos hs]; exact ⟨rfl, rfl, rfl, rfl⟩
    · rw [if_neg hs]; exact ⟨rfl, rfl, rfl, rfl⟩

/-- No `Start` call touches the driver handle, the channel lists or the
listeners. -/
theorem Start_frame (D2F : Int → Nat → Int) (h : AsioSharedHost)
    (format : WAVEFORMATEXTENSIBLE) (dur : Int) (mode : BufferSizeMode) (allow : Bool)
    (drv : StartReplies) (r : Outcome)
    (hr : Start D2F h format dur mode allow drv = Run.done r) :
    r.host.m_Driver = h.m_Driver ∧
    r.host.m_AsioInChannelInfo = h.m_AsioInChannelInfo ∧
    r.host.m_AsioOutChannelInfo = h.m_AsioOutChannelInfo ∧
    r.host.m_AsioBufferListeners = h.m_AsioBufferListeners := by
  obtain ⟨hinv, hact⟩ := Start_not_idle D2F h format dur mode allow drv
  by_cases hv : h.IsValid = true
  · by_cases h0 : h.m_StartCount = 0
    · obtain ⟨calls, _, hshape⟩ := Start_idle_shape D2F h format dur mode allow drv r hv h0 hr
      rcases hshape with hE | ⟨frames, _, ⟨hE, _⟩ | ⟨hE, _⟩⟩
      · rw [hE]; exact ⟨rfl, rfl, rfl, rfl⟩
      · rw [hE]; exact ⟨rfl, rfl, rfl, rfl⟩
      · rw [hE]; exact Start_session_frame h format frames drv calls
    · rw [hact hv h0] at hr
      simp only [Run.done.injEq] at hr
      subst hr
      exact ⟨rfl, rfl, rfl, rfl⟩
  · rw [hinv (by simpa using hv)] at hr
    simp only [Run.done.injEq] at hr
    subst hr
    exact ⟨rfl, rfl, rfl, rfl⟩

theorem construct_idle (drv : AttachReplies) (h : AsioSharedHost) (calls : List DriverCall)
    (hc : construct drv = Run.done (h, calls)) :
    h.m_StartCount = 0 ∧ h.m_AsioBuffers = [] ∧ h.m_NumBufferFrames = 0 ∧
    h.m_CurrentWaveFormat = WAVEFORMATEXTENSIBLE.zero := by
  unfold construct at hc
  cases ha : construct_attach drv with
  | fault f => rw [ha] at hc; exact absurd hc (by simp)
  | done p =>
    obtain ⟨driver, calls0⟩ := p
    rw [ha] at hc
    simp only at hc
    split_ifs at hc <;> simp only [Run.done.injEq, Prod.mk.injEq] at hc <;>
      obtain ⟨hh, _⟩ := hc <;> subst hh <;> exact ⟨rfl, rfl, rfl, rfl⟩

theorem Start_slotInvariant (D2F : Int → Nat → Int) (h : AsioSharedHost)
    (format : WAVEFORMATEXTENSIBLE) (dur : Int) (mode : BufferSizeMode) (allow : Bool)
    (drv : StartReplies) (r : Outcome) (hinv : slotInvariant h)
    (hr : Start D2F h format dur mode allow drv = Run.done r) :
    slotInvariant r.host ∧
    (r.ret ≠ ASE_OK → r.host.m_StartCount = h.m_StartCount ∧ r.host.m_AsioBuffers = []) := by
  obtain ⟨hinvalid, hact⟩ := Start_not_idle D2F h format dur mode allow drv
  obtain ⟨hz, hnz⟩ := hinv
  by_cases h0 : h.m_StartCount = 0
  · by_cases hv : h.IsValid = true
    · obtain ⟨calls, _, hshape⟩ := Start_idle_shape D2F h format dur mode allow drv r hv h0 hr
      rcases hshape with hE | ⟨frames, _, ⟨hE, _⟩ | ⟨hE, _⟩⟩
      · rw [hE]; exact ⟨⟨hz, hnz⟩, fun _ => ⟨rfl, hz h0⟩⟩
      · rw [hE]; exact ⟨⟨hz, hnz⟩, fun _ => ⟨rfl, hz h0⟩⟩
      · rw [hE]
        rcases Start_session_ret h format frames drv calls with ⟨hok, _⟩ | ⟨hbad, hcnt, hbuf⟩
        · rw [Start_session_ok h format frames drv calls hok]
          refine ⟨⟨fun hc => absurd hc (by simp), fun _ => ⟨hv, ?_⟩⟩,
            fun hne => absurd hok hne⟩
          simp only [List.length_mapIdx, Start_bufferInfos_length]
          omega
        · refine ⟨⟨fun _ => hbuf, fun hne => absurd (hcnt.trans h0) hne⟩,
            fun _ => ⟨hcnt, hbuf⟩⟩
    · rw [hinvalid (by simpa using hv)] at hr
      simp only [Run.done.injEq] at hr
      subst hr
      exact ⟨⟨hz, hnz⟩, fun _ => ⟨rfl, hz h0⟩⟩
  · obtain ⟨hd, hlen⟩ := hnz h0
    rw [hact hd h0] at hr
    simp only [Run.done.injEq] at hr
    subst hr
    exact ⟨⟨fun hc => absurd hc (by simp), fun _ => ⟨hd, hlen⟩⟩,
      fun hne => absurd rfl hne⟩

theorem Stop_slotInvariant (h : AsioSharedHost) (drv : StopReplies) (hinv : slotInvariant h) :
    slotInvariant (Stop h drv).host := by
  obtain ⟨hz, hnz⟩ := hinv
  by_cases h0 : h.m_StartCount = 0
  · rw [(Stop_idle_frame h drv h0)]
    exact ⟨hz, hnz⟩
  · obtain ⟨hd, hlen⟩ := hnz h0
    by_cases h1 : h.m_StartCount = 1
    · rw [(Stop_teardown h drv h1 hd).1]
      exact ⟨fun _ => rfl, fun hne => absurd rfl hne⟩
    · rw [Stop_decrement h drv (by omega)]
      exact ⟨fun hc => absurd hc (by simp only; omega), fun _ => ⟨hd, hlen⟩⟩

theorem Reachable_slotInvariant (D2F : Int → Nat → Int) (h : AsioSharedHost)
    (hr : Reachable D2F h) : slotInvariant h := by
  induction hr with
  | construct drv h calls hc =>
    obtain ⟨h0, hb, _⟩ := construct_idle drv h calls hc
    exact ⟨fun _ => hb, fun hne => absurd h0 hne⟩
  | start h format dur mode allow drv r _ hs ih =>
    exact (Start_slotInvariant D2F h format dur mode allow drv r ih hs).1
  | stop h drv _ ih => exact Stop_slotInvariant h drv ih

/-- C11: in every host reachable from construction by `Start` and `Stop` calls
with any driver replies, the buffer slot list has as many entries as the host's
input and output channel lists together when the start count is above 0 and is
empty when it is 0; and a `Start` call that fails leaves the start count
unchanged and the buffer slot list empty. -/
theorem Reachable_slot_count (D2F : Int → Nat → Int) (h : AsioSharedHost)
    (hreach : Reachable D2F h) :
    (h.m_StartCount ≠ 0 →
      h.m_AsioBuffers.length = h.m_AsioInChannelInfo.length + h.m_AsioOutChannelInfo.length) ∧
    (h.m_StartCount = 0 → h.m_AsioBuffers = []) ∧
    (∀ format dur mode allow drv r,
      Start D2F h format dur mode allow drv = Run.done r → r.ret ≠ ASE_OK →
      r.host.m_StartCount = h.m_StartCount ∧ r.host.m_AsioBuffers = []) := by
  have hinv := Reachable_slotInvariant D2F h hreach
  refine ⟨fun hne => (hinv.2 hne).2, hinv.1, ?_⟩
  intro format dur mode allow drv r hr hne
  exact (Start_slotInvariant D2F h format dur mode allow drv r hinv hr).2 hne

/-- Witness for C11: the host after the example `Start` on the example attached
host is reachable, has start count 1 and four buffer slots for its two inputs
and two outputs. -/
theorem Reachable_slot_count_witness :
    ∃ r, Start exampleDurationToAudioFrames exampleAttachedHost exampleFormat 100000
        BufferSizeMode.BufferSizeMode_Default false exampleStartReplies = Run.done r ∧
      Reachable exampleDurationToAudioFrames r.host ∧
      r.host.m_StartCount = 1 ∧
      r.host.m_AsioBuffers.length = 4 ∧
      r.host.m_AsioBuffers.length
        = r.host.m_AsioInChannelInfo.length + r.host.m_AsioOutChannelInfo.length := by
  have hcons : construct exampleAttachReplies
      = Run.done (exampleAttachedHost, exampleAttachCalls) := by decide
  have hstart : Start exampleDurationToAudioFrames exampleAttachedHost exampleFormat 100000
      BufferSizeMode.BufferSizeMode_Default false exampleStartReplies
      = Run.done (Start_session exampleAttachedHost exampleFormat 512 exampleStartReplies
          [DriverCall.getChannels, DriverCall.canSampleRate 48000, DriverCall.getChannels,
           DriverCall.canSampleRate 48000, DriverCall.getSampleRate, DriverCall.getBufferSize]) := by
    decide
  have hreach : Reachable exampleDurationToAudioFrames
      (Start_session exampleAttachedHost exampleFormat 512 exampleStartReplies
          [DriverCall.getChannels, DriverCall.canSampleRate 48000, DriverCall.getChannels,
           DriverCall.canSampleRate 48000, DriverCall.getSampleRate,
           DriverCall.getBufferSize]).host :=
    Reachable.start _ _ _ _ _ _ _ (Reachable.construct _ _ _ hcons) hstart
  exact ⟨_, hstart, hreach, by decide, by decide,
    (Reachable_slot_count exampleDurationToAudioFrames _ hreach).1 (by decide)⟩

theorem getElem?_append_map_range (n m : Nat) (f g : Nat → ASIOBool × Int) (i : Nat) :
    (((List.range n).map f ++ (List.range m).map g)[i]?) =
      if i < n then some (f i) else if i < n + m then some (g (i - n)) else none := by
  by_cases h1 : i < n
  · rw [if_pos h1, List.getElem?_append_left (by simpa using h1)]
    simp [h1]
  · rw [if_neg h1, List.getElem?_append_right (by simpa using h1)]
    simp only [List.length_map, List.length_range]
    by_cases h2 : i < n + m
    · rw [if_pos h2]
      have h3 : i - n < m := by omega
      simp [h3]
    · rw [if_neg h2]
      have h3 : m ≤ i - n := by omega
      simp [h3]

theorem slotTagsIntact_lookup (h : AsioSharedHost) (hi : slotTagsIntact h) (i : Nat) :
    (h.m_AsioBuffers[i]?).map slotTags =
      if i < h.m_AsioOutChannelInfo.length then some (ASIOFalse, (i : Int))
      else if i < h.m_AsioOutChannelInfo.length + h.m_AsioInChannelInfo.length then
        some (ASIOTrue, ((i - h.m_AsioOutChannelInfo.length : Nat) : Int))
      else none := by
  have hmap : (h.m_AsioBuffers.map slotTags)[i]? = ((Start_bufferInfos h).map slotTags)[i]? := by
    rw [hi]
  rw [List.getElem?_map] at hmap
  rw [hmap]
  unfold Start_bufferInfos
  rw [List.map_append, List.map_map, List.map_map]
  exact getElem?_append_map_range _ _ _ _ i

theorem slotTagsIntact_length (h : AsioSharedHost) (hi : slotTagsIntact h) :
    h.m_AsioBuffers.length = h.m_AsioOutChannelInfo.length + h.m_AsioInChannelInfo.length := by
  have := congrArg List.length hi
  simpa [Start_bufferInfos] using this

theorem map_slotTags_mapIdx (f : Nat → ASIOBufferInfo → ASIOBufferInfo) (hf : keepsTags f)
    (l : List ASIOBufferInfo) : (l.mapIdx f).map slotTags = l.map slotTags := by
  apply List.ext_getElem?
  intro i
  rw [List.getElem?_map, List.getElem?_map, List.getElem?_mapIdx]
  cases l[i]? with
  | none => rfl
  | some b => simp only [Option.map_some']; rw [hf i b]

/-- A `Start` call at start count 0 that returns `ASE_OK` on a driver that keeps
the tags leaves slots that carry the tags `Start` wrote. -/
theorem Start_slotTagsIntact (D2F : Int → Nat → Int) (h : AsioSharedHost)
    (format : WAVEFORMATEXTENSIBLE) (dur : Int) (mode : BufferSizeMode) (allow : Bool)
    (drv : StartReplies) (r : Outcome) (h0 : h.m_StartCount = 0)
    (hr : Start D2F h format dur mode allow drv = Run.done r) (hok : r.ret = ASE_OK)
    (hkeep : keepsTags drv.bufferPtrs) :
    r.host.m_StartCount = 1 ∧ slotTagsIntact r.host := by
  have hv : h.IsValid = true := (Start_ok_count D2F h format dur mode allow drv r hr hok).1
  obtain ⟨calls, _, hshape⟩ := Start_idle_shape D2F h format dur mode allow drv r hv h0 hr
  rcases hshape with hE | ⟨frames, _, ⟨hE, _⟩ | ⟨hE, _⟩⟩
  · rw [hE] at hok; exact absurd hok HWMalfunction_ne_OK
  · rw [hE] at hok; exact absurd hok InvalidParameter_ne_OK
  · rw [hE] at hok ⊢
    rw [Start_session_ok h format frames drv calls hok]
    refine ⟨by simp only; omega, ?_⟩
    unfold slotTagsIntact
    simp only
    rw [map_slotTags_mapIdx _ hkeep]
    rfl

/-- C12: `GetOutputBuffer(c)` and `GetInputBuffer(c)` return null when the start
count is 0 or `c` is not below the output (input) channel count; at a start
count above 0 with slots that carry the tags `Start` wrote, `GetOutputBuffer(c)`
returns the slot at index `c`, tagged as output with `channelNum = c`, and
`GetInputBuffer(c)` returns the slot at index output-channel count + `c`, which
is inside the slot list and tagged as input with `channelNum = c`. -/
theorem GetBuffer_slots (h : AsioSharedHost) (c : Nat) :
    ((h.m_StartCount = 0 ∨ h.m_AsioOutChannelInfo.length ≤ c) →
      GetOutputBuffer h c = Run.done none) ∧
    ((h.m_StartCount = 0 ∨ h.m_AsioInChannelInfo.length ≤ c) →
      GetInputBuffer h c = Run.done none) ∧
    (h.m_StartCount ≠ 0 → slotTagsIntact h →
      (c < h.m_AsioOutChannelInfo.length →
        GetOutputBuffer h c = Run.done (some c) ∧
        ∃ slot, h.m_AsioBuffers[c]? = some slot ∧
          slot.isInput = ASIOFalse ∧ slot.channelNum = (c : Int)) ∧
      (c < h.m_AsioInChannelInfo.length →
        GetInputBuffer h c = Run.done (some (h.m_AsioOutChannelInfo.length + c)) ∧
        h.m_AsioOutChannelInfo.length + c < h.m_AsioBuffers.length ∧
        ∃ slot, h.m_AsioBuffers[h.m_AsioOutChannelInfo.length + c]? = some slot ∧
          slot.isInput = ASIOTrue ∧ slot.channelNum = (c : Int))) := by
  refine ⟨?_, ?_, ?_⟩
  · intro hnull
    unfold GetOutputBuffer
    by_cases h0 : h.m_StartCount = 0
    · rw [if_pos h0]
    · rw [if_neg h0, if_pos (by rcases hnull with hz | hc; exact absurd hz h0; exact hc)]
  · intro hnull
    unfold GetInputBuffer
    by_cases h0 : h.m_StartCount = 0
    · rw [if_pos h0]
    · rw [if_neg h0, if_pos (by rcases hnull with hz | hc; exact absurd hz h0; exact hc)]
  · intro h0 htags
    have hlen := slotTagsIntact_length h htags
    constructor
    · intro hc
      have hlook := slotTagsIntact_lookup h htags c
      rw [if_pos hc] at hlook
      refine ⟨?_, ?_⟩
      · unfold GetOutputBuffer
        rw [if_neg h0, if_neg (by omega), if_pos (by omega)]
      · cases hs : h.m_AsioBuffers[c]? with
        | none => rw [hs] at hlook; exact absurd hlook (by simp)
        | some slot =>
          rw [hs] at hlook
          simp only [Option.map_some', Option.some.injEq, slotTags, Prod.mk.injEq] at hlook
          exact ⟨slot, rfl, hlook.1, hlook.2⟩
    · intro hc
      have hlook := slotTagsIntact_lookup h htags (h.m_AsioOutChannelInfo.length + c)
      rw [if_neg (by omega), if_pos (by omega)] at hlook
      refine ⟨?_, by omega, ?_⟩
      · unfold GetInputBuffer
        rw [if_neg h0, if_neg (by omega), if_pos (by omega)]
      · cases hs : h.m_AsioBuffers[h.m_AsioOutChannelInfo.length + c]? with
        | none => rw [hs] at hlook; exact absurd hlook (by simp)
        | some slot =>
          rw [hs] at hlook
          simp only [Option.map_some', Option.some.injEq, slotTags, Prod.mk.injEq] at hlook
          refine ⟨slot, rfl, hlook.1, ?_⟩
          rw [hlook.2]
          congr 1
          omega

/-- Witness for C12: on the host after the example `Start`, whose driver keeps
the tags, output channel 1 is the slot at index 1 and input channel 1 the slot
at index 3; on the idle attached host both accessors return null. -/
theorem GetBuffer_slots_witness :
    ∃ r, Start exampleDurationToAudioFrames exampleAttachedHost exampleFormat 100000
        BufferSizeMode.BufferSizeMode_Default false exampleStartReplies = Run.done r ∧
      r.host.m_StartCount ≠ 0 ∧ slotTagsIntact r.host ∧
      GetOutputBuffer r.host 1 = Run.done (some 1) ∧
      GetInputBuffer r.host 1 = Run.done (some 3) ∧
      (∃ slot, r.host.m_AsioBuffers[1]? = some slot ∧
        slot.isInput = ASIOFalse ∧ slot.channelNum = 1) ∧
      GetOutputBuffer exampleAttachedHost 1 = Run.done none ∧
      GetInputBuffer r.host 2 = Run.done none := by
  have hstart : Start exampleDurationToAudioFrames exampleAttachedHost exampleFormat 100000
      BufferSizeMode.BufferSizeMode_Default false exampleStartReplies
      = Run.done (Start_session exampleAttachedHost exampleFormat 512 exampleStartReplies
          [DriverCall.getChannels, DriverCall.canSampleRate 48000, DriverCall.getChannels,
           DriverCall.canSampleRate 48000, DriverCall.getSampleRate, DriverCall.getBufferSize]) := by
    decide
  have htags := (Start_slotTagsIntact exampleDurationToAudioFrames exampleAttachedHost
    exampleFormat 100000 BufferSizeMode.BufferSizeMode_Default false exampleStartReplies _ rfl
    hstart (by decide) (fun _ _ => rfl)).2
  have key := GetBuffer_slots (Start_session exampleAttachedHost exampleFormat 512
    exampleStartReplies
    [DriverCall.getChannels, DriverCall.canSampleRate 48000, DriverCall.getChannels,
     DriverCall.canSampleRate 48000, DriverCall.getSampleRate, DriverCall.getBufferSize]).host 1
  exact ⟨_, hstart, by decide, htags, ((key.2.2 (by decide) htags).1 (by decide)).1,
    ((key.2.2 (by decide) htags).2 (by decide)).1,
    ((key.2.2 (by decide) htags).1 (by decide)).2,
    (GetBuffer_slots exampleAttachedHost 1).1 (Or.inl rfl),
    (GetBuffer_slots _ 2).2.1 (Or.inr (by decide))⟩

/-! ## The accepted formats -/

theorem sampleTypeMatchesBits_Int32LSB (bits : Nat)
    (hm : sampleTypeMatchesBits bits ASIOSTInt32LSB = true) : bits = 32 := by
  unfold sampleTypeMatchesBits at hm
  by_contra hne
  rw [if_neg hne] at hm
  split_ifs at hm <;> exact absurd hm (by decide)

theorem IsWaveFormatSupported_tail_checks (format : WAVEFORMATEXTENSIBLE) (t : ASIOSampleType)
    (hr : IsWaveFormatSupported_tail format t = true) :
    format.Format.nBlockAlign =
      ((format.Format.wBitsPerSample / 8) * format.Format.nChannels) % WORD_MOD ∧
    format.Format.nAvgBytesPerSec =
      (format.Format.nBlockAlign * format.Format.nSamplesPerSec) % DWORD_MOD ∧
    IsWaveFormatSupported_bitsPerSample format = some 24 := by
  unfold IsWaveFormatSupported_tail at hr
  simp only at hr
  by_cases h1 : format.Format.nBlockAlign ≠
      ((format.Format.wBitsPerSample / 8) * format.Format.nChannels) % WORD_MOD
  · rw [if_pos h1] at hr; exact absurd hr (by decide)
  · rw [if_neg h1] at hr
    by_cases h2 : format.Format.nAvgBytesPerSec ≠
        (format.Format.nBlockAlign * format.Format.nSamplesPerSec) % DWORD_MOD
    · rw [if_pos h2] at hr; exact absurd hr (by decide)
    · rw [if_neg h2] at hr
      refine ⟨not_not.mp h1, not_not.mp h2, ?_⟩
      cases hb : IsWaveFormatSupported_bitsPerSample format with
      | none => rw [hb] at hr; exact absurd hr Bool.false_ne_true
      | some bits =>
        rw [hb] at hr
        simp only at hr
        by_cases c1 : format.Format.nBlockAlign ≠ 4 * format.Format.nChannels
        · rw [if_pos c1] at hr; exact absurd hr Bool.false_ne_true
        · rw [if_neg c1] at hr
          by_cases c2 : bits ≠ 24
          · rw [if_pos c2] at hr; exact absurd hr Bool.false_ne_true
          · rw [not_not.mp c2]

/-- The shape of every accepted request: the extensible tag with `cbSize` at
least 22, a 32-bit container with 24 valid bits, the integer PCM sub-format,
4 bytes per channel and frame, and the byte rate the code computes. -/
theorem IsWaveFormatSupported_accepted_shape (h : AsioSharedHost)
    (format : WAVEFORMATEXTENSIBLE) (output : Bool) (first num : Nat) (drv : FormatReplies)
    (r : Ret Bool) (hr : IsWaveFormatSupported h format output first num drv = Run.done r)
    (htrue : r.ret = true) :
    format.Format.wFormatTag = WAVE_FORMAT_EXTENSIBLE ∧ 22 ≤ format.Format.cbSize ∧
    format.Format.wBitsPerSample = 32 ∧ format.wValidBitsPerSample = 24 ∧
    format.SubFormat = KSDATAFORMAT_SUBTYPE_PCM ∧
    format.Format.nBlockAlign = 4 * format.Format.nChannels ∧
    format.Format.nAvgBytesPerSec =
      (format.Format.nBlockAlign * format.Format.nSamplesPerSec) % DWORD_MOD := by
  obtain ⟨t, _, hm, htail⟩ :=
    IsWaveFormatSupported_done_true h format output first num drv r hr htrue
  obtain ⟨hba, _, ht⟩ := IsWaveFormatSupported_tail_true format t htail
  obtain ⟨_, havg, hbits⟩ := IsWaveFormatSupported_tail_checks format t htail
  rw [ht] at hm
  have h32 := sampleTypeMatchesBits_Int32LSB _ hm
  unfold IsWaveFormatSupported_bitsPerSample at hbits
  by_cases hext : format.Format.wFormatTag = WAVE_FORMAT_EXTENSIBLE ∧ format.Format.cbSize ≥ 22
  · rw [if_pos hext] at hbits
    split_ifs at hbits with c1 c2 c3
    · simp only [Option.some.injEq] at hbits
      have hpcm : format.SubFormat = KSDATAFORMAT_SUBTYPE_PCM := by
        by_contra hne
        exact c1 ⟨hne, c2⟩
      exact ⟨hext.1, hext.2, h32, hbits, hpcm, hba, havg⟩
  · rw [if_neg hext] at hbits
    simp only [Option.some.injEq] at hbits
    omega

/-- C17: in the best-fit mode the decided size is the granularity step applied
to the clamped count, and the clamp, which compares the request with the
minimum and the maximum as `DWORD` values (the reported values when these are
not negative), maps a request below the minimum to the minimum, a request
above the maximum to the minimum as well, not to the maximum, and a request
between them to itself. -/
theorem Start_clamp_asymmetric (r : Nat) (drv : StartReplies) :
    Start_decideBufferSize BufferSizeMode.BufferSizeMode_Default r drv =
      Start_granularity (Start_clamp r drv.minAsioBufferFrames drv.maxAsioBufferFrames)
        drv.maxAsioBufferFrames drv.asioBufferGranularity ∧
    (r < toDWORD drv.minAsioBufferFrames →
      Start_clamp r drv.minAsioBufferFrames drv.maxAsioBufferFrames
        = toDWORD drv.minAsioBufferFrames) ∧
    (toDWORD drv.maxAsioBufferFrames < r →
      Start_clamp r drv.minAsioBufferFrames drv.maxAsioBufferFrames
        = toDWORD drv.minAsioBufferFrames) ∧
    (toDWORD drv.minAsioBufferFrames ≤ r → r ≤ toDWORD drv.maxAsioBufferFrames →
      Start_clamp r drv.minAsioBufferFrames drv.maxAsioBufferFrames = r) ∧
    (0 ≤ drv.minAsioBufferFrames → drv.minAsioBufferFrames < 2147483648 →
      (toDWORD drv.minAsioBufferFrames : Int) = drv.minAsioBufferFrames) ∧
    (0 ≤ drv.maxAsioBufferFrames → drv.maxAsioBufferFrames < 2147483648 →
      (toDWORD drv.maxAsioBufferFrames : Int) = drv.maxAsioBufferFrames) := by
  refine ⟨Start_decideBufferSize_default r drv, ?_, ?_, ?_,
    fun h0 h1 => (toDWORD_nonneg _ h0 h1).1, fun h0 h1 => (toDWORD_nonneg _ h0 h1).1⟩
  · intro hlt
    unfold Start_clamp
    rw [if_pos hlt]
  · intro hgt
    unfold Start_clamp
    split_ifs <;> rfl
  · intro hlo hhi
    unfold Start_clamp
    rw [if_neg (by omega), if_neg (by omega)]

/-- Witness for C17: with minimum 64 and maximum 4096 the requests 10 and 5000
both go to 64 and the request 100 stays 100. -/
theorem Start_clamp_asymmetric_witness :
    (10 < toDWORD exampleStartReplies.minAsioBufferFrames ∧
      Start_clamp 10 exampleStartReplies.minAsioBufferFrames
        exampleStartReplies.maxAsioBufferFrames = 64) ∧
    (toDWORD exampleStartReplies.maxAsioBufferFrames < 5000 ∧
      Start_clamp 5000 exampleStartReplies.minAsioBufferFrames
        exampleStartReplies.maxAsioBufferFrames = 64) ∧
    (toDWORD exampleStartReplies.minAsioBufferFrames ≤ 100 ∧
      100 ≤ toDWORD exampleStartReplies.maxAsioBufferFrames ∧
      Start_clamp 100 exampleStartReplies.minAsioBufferFrames
        exampleStartReplies.maxAsioBufferFrames = 100) :=
  ⟨⟨by decide, ((Start_clamp_asymmetric 10 exampleStartReplies).2.1 (by decide)).trans
      (by decide)⟩,
   ⟨by decide, ((Start_clamp_asymmetric 5000 exampleStartReplies).2.2.1 (by decide)).trans
      (by decide)⟩,
   ⟨by decide, by decide,
    (Start_clamp_asymmetric 100 exampleStartReplies).2.2.2.1 (by decide) (by decide)⟩⟩

/-- C18, as amended: every accepted format has
`nBlockAlign = (wBitsPerSample / 8) * nChannels` as exact integers, and
`nAvgBytesPerSec` equal to `nBlockAlign * nSamplesPerSec` reduced modulo
`2 ^ 32`, which is the exact product whenever that is below `2 ^ 32`. -/
theorem IsWaveFormatSupported_consistency (h : AsioSharedHost)
    (format : WAVEFORMATEXTENSIBLE) (output : Bool) (first num : Nat) (drv : FormatReplies)
    (r : Ret Bool) (hr : IsWaveFormatSupported h format output first num drv = Run.done r)
    (htrue : r.ret = true) :
    format.Format.nBlockAlign = (format.Format.wBitsPerSample / 8) * format.Format.nChannels ∧
    format.Format.nAvgBytesPerSec =
      (format.Format.nBlockAlign * format.Format.nSamplesPerSec) % 4294967296 ∧
    (format.Format.nBlockAlign * format.Format.nSamplesPerSec < 4294967296 →
      format.Format.nAvgBytesPerSec = format.Format.nBlockAlign * format.Format.nSamplesPerSec) := by
  obtain ⟨_, _, h32, _, _, hba, havg⟩ :=
    IsWaveFormatSupported_accepted_shape h format output first num drv r hr htrue
  refine ⟨by rw [h32, hba], havg, fun hlt => ?_⟩
  rw [havg]
  exact Nat.mod_eq_of_lt hlt

/-- Witness for C18: the operating-point request at 48 kHz is accepted and has
`nBlockAlign = 8 = (32 / 8) * 2` and `nAvgBytesPerSec = 384000 = 8 * 48000`. -/
theorem IsWaveFormatSupported_consistency_witness :
    IsWaveFormatSupported exampleHost exampleFormat true 0 2 exampleFormatReplies =
      Run.done ⟨true, [DriverCall.getChannels, DriverCall.canSampleRate 48000]⟩ ∧
    exampleFormat.Format.nBlockAlign * exampleFormat.Format.nSamplesPerSec < 4294967296 ∧
    exampleFormat.Format.nBlockAlign
      = (exampleFormat.Format.wBitsPerSample / 8) * exampleFormat.Format.nChannels ∧
    exampleFormat.Format.nAvgBytesPerSec
      = exampleFormat.Format.nBlockAlign * exampleFormat.Format.nSamplesPerSec :=
  ⟨by decide, by decide,
   (IsWaveFormatSupported_consistency exampleHost exampleFormat true 0 2 exampleFormatReplies
      ⟨true, [DriverCall.getChannels, DriverCall.canSampleRate 48000]⟩ (by decide) rfl).1,
   (IsWaveFormatSupported_consistency exampleHost exampleFormat true 0 2 exampleFormatReplies
      ⟨true, [DriverCall.getChannels, DriverCall.canSampleRate 48000]⟩ (by decide) rfl).2.2
      (by decide)⟩

/-- C18 as stated fails: at a sample rate of 536870912 Hz with 8 bytes per
frame the `DWORD` product of line 448 wraps to 0, and the request with
`nAvgBytesPerSec = 0` is accepted although `nBlockAlign * nSamplesPerSec` is
4294967296. -/
theorem IsWaveFormatSupported_consistency_counterexample :
    IsWaveFormatSupported exampleHost exampleWrapFormat true 0 2 exampleFormatReplies =
      Run.done ⟨true, [DriverCall.getChannels, DriverCall.canSampleRate 536870912]⟩ ∧
    exampleWrapFormat.Format.nAvgBytesPerSec = 0 ∧
    exampleWrapFormat.Format.nBlockAlign * exampleWrapFormat.Format.nSamplesPerSec
      = 4294967296 ∧
    exampleWrapFormat.Format.nAvgBytesPerSec ≠
      exampleWrapFormat.Format.nBlockAlign * exampleWrapFormat.Format.nSamplesPerSec := by
  decide

/-- C19: a request with the extensible tag, whatever its `cbSize`, whose
sub-format is not integer PCM (IEEE float among them) or whose valid bits exceed
its bits per sample is never accepted, and `IsWaveFormatSupported` returns
false for it on every channel range inside the channel list. -/
theorem IsWaveFormatSupported_extensible_rejects (h : AsioSharedHost)
    (format : WAVEFORMATEXTENSIBLE) (output : Bool) (first num : Nat) (drv : FormatReplies)
    (_htag : format.Format.wFormatTag = WAVE_FORMAT_EXTENSIBLE)
    (hbad : format.SubFormat ≠ KSDATAFORMAT_SUBTYPE_PCM ∨
      format.Format.wBitsPerSample < format.wValidBitsPerSample) :
    (∀ r, IsWaveFormatSupported h format output first num drv = Run.done r → r.ret = false) ∧
    (first + num ≤ (h.channelInfo output).length →
      ∃ r, IsWaveFormatSupported h format output first num drv = Run.done r ∧ r.ret = false) := by
  have hfalse : ∀ r, IsWaveFormatSupported h format output first num drv = Run.done r →
      r.ret = false := by
    intro r hr
    cases hret : r.ret with
    | false => rfl
    | true =>
      exfalso
      obtain ⟨_, _, h32, h24, hpcm, _⟩ :=
        IsWaveFormatSupported_accepted_shape h format output first num drv r hr hret
      rcases hbad with hsub | hvalid
      · exact hsub hpcm
      · omega
  refine ⟨hfalse, fun hin => ?_⟩
  obtain ⟨o, hck⟩ := CheckSampleTypeAcrossChannels_inBounds h output first num hin
  obtain ⟨r, hr⟩ := IsWaveFormatSupported_done_of_check h format output first num drv o hck
  exact ⟨r, hr, hfalse r hr⟩

/-- Witness for C19: the operating-point request with the IEEE float sub-format
returns false, with `cbSize = 22` and with `cbSize = 0`. -/
theorem IsWaveFormatSupported_extensible_rejects_witness :
    exampleFloatFormat.Format.wFormatTag = WAVE_FORMAT_EXTENSIBLE ∧
    exampleFloatFormat.SubFormat ≠ KSDATAFORMAT_SUBTYPE_PCM ∧
    (∃ r, IsWaveFormatSupported exampleHost exampleFloatFormat true 0 2 exampleFormatReplies
      = Run.done r ∧ r.ret = false) ∧
    exampleFloatFormatShort.Format.cbSize = 0 ∧
    (∃ r, IsWaveFormatSupported exampleHost exampleFloatFormatShort true 0 2
      exampleFormatReplies = Run.done r ∧ r.ret = false) :=
  ⟨rfl, by decide,
   (IsWaveFormatSupported_extensible_rejects exampleHost exampleFloatFormat true 0 2
      exampleFormatReplies rfl (Or.inl (by decide))).2 (by decide),
   rfl,
   (IsWaveFormatSupported_extensible_rejects exampleHost exampleFloatFormatShort true 0 2
      exampleFormatReplies rfl (Or.inl (by decide))).2 (by decide)⟩

/-- C20: every accepted request has the extensible tag with `cbSize` at least
22, 32 bits per sample, 24 valid bits and the integer PCM sub-format; a request
with the plain PCM tag is never accepted, and `IsWaveFormatSupported` returns
false for it on every channel range inside the channel list. -/
theorem IsWaveFormatSupported_accepts_only_extensible (h : AsioSharedHost)
    (format : WAVEFORMATEXTENSIBLE) (output : Bool) (first num : Nat) (drv : FormatReplies) :
    (∀ r, IsWaveFormatSupported h format output first num drv = Run.done r → r.ret = true →
      format.Format.wFormatTag = WAVE_FORMAT_EXTENSIBLE ∧ 22 ≤ format.Format.cbSize ∧
      format.Format.wBitsPerSample = 32 ∧ format.wValidBitsPerSample = 24 ∧
      format.SubFormat = KSDATAFORMAT_SUBTYPE_PCM) ∧
    (format.Format.wFormatTag = WAVE_FORMAT_PCM →
      (∀ r, IsWaveFormatSupported h format output first num drv = Run.done r → r.ret = false) ∧
      (first + num ≤ (h.channelInfo output).length →
        ∃ r, IsWaveFormatSupported h format output first num drv = Run.done r ∧
          r.ret = false)) := by
  constructor
  · intro r hr htrue
    obtain ⟨h1, h2, h3, h4, h5, _⟩ :=
      IsWaveFormatSupported_accepted_shape h format output first num drv r hr htrue
    exact ⟨h1, h2, h3, h4, h5⟩
  · intro hpcm
    have hfalse : ∀ r, IsWaveFormatSupported h format output first num drv = Run.done r →
        r.ret = false := by
      intro r hr
      cases hret : r.ret with
      | false => rfl
      | true =>
        exfalso
        obtain ⟨h1, _⟩ :=
          IsWaveFormatSupported_accepted_shape h format output first num drv r hr hret
        rw [hpcm] at h1
        exact absurd h1 (by decide)
    refine ⟨hfalse, fun hin => ?_⟩
    obtain ⟨o, hck⟩ := CheckSampleTypeAcrossChannels_inBounds h output first num hin
    obtain ⟨r, hr⟩ := IsWaveFormatSupported_done_of_check h format output first num drv o hck
    exact ⟨r, hr, hfalse r hr⟩

/-- Witness for C20: the operating-point request is accepted and has the shape;
the 16-bit request with the plain PCM tag returns false. -/
theorem IsWaveFormatSupported_accepts_only_extensible_witness :
    IsWaveFormatSupported exampleHost exampleFormat true 0 2 exampleFormatReplies =
      Run.done ⟨true, [DriverCall.getChannels, DriverCall.canSampleRate 48000]⟩ ∧
    (exampleFormat.Format.wFormatTag = WAVE_FORMAT_EXTENSIBLE ∧
      22 ≤ exampleFormat.Format.cbSize ∧ exampleFormat.Format.wBitsPerSample = 32 ∧
      exampleFormat.wValidBitsPerSample = 24 ∧
      exampleFormat.SubFormat = KSDATAFORMAT_SUBTYPE_PCM) ∧
    example16BitFormat.Format.wFormatTag = WAVE_FORMAT_PCM ∧
    (∃ r, IsWaveFormatSupported exampleHost example16BitFormat true 0 2 exampleFormatReplies
      = Run.done r ∧ r.ret = false) :=
  ⟨by decide,
   (IsWaveFormatSupported_accepts_only_extensible exampleHost exampleFormat true 0 2
      exampleFormatReplies).1
      ⟨true, [DriverCall.getChannels, DriverCall.canSampleRate 48000]⟩ (by decide) rfl,
   rfl,
   ((IsWaveFormatSupported_accepts_only_extensible exampleHost example16BitFormat true 0 2
      exampleFormatReplies).2 rfl).2 (by decide)⟩

/-! ## The buffer switch callback -/

theorem AsioCalback_bufferSwitch_loop_dbg (h : AsioSharedHost) (x : Nat) (dbi : Int) :
    ∀ (remaining i : Nat) (mem : Memory),
      AsioCalback_bufferSwitch_loop { h with m_dbgNumBufferSwitches := x } dbi remaining i mem =
        AsioCalback_bufferSwitch_loop h dbi remaining i mem := by
  intro remaining
  induction remaining with
  | zero => intro i mem; rfl
  | succ n ih =>
    intro i mem
    rw [AsioCalback_bufferSwitch_loop, AsioCalback_bufferSwitch_loop]
    have hg : GetOutputBuffer { h with m_dbgNumBufferSwitches := x } (i % DWORD_MOD)
        = GetOutputBuffer h (i % DWORD_MOD) := rfl
    rw [hg]
    cases GetOutputBuffer h (i % DWORD_MOD) with
    | fault f => rfl
    | done o =>
      cases o with
      | none => exact ih (i + 1) mem
      | some index =>
        simp only
        cases h.m_AsioBuffers[index]? with
        | none => rfl
        | some slot =>
          simp only
          cases bufferPointer slot dbi with
          | fault f => rfl
          | done p => exact ih (i + 1) _

/-- The loop that zeroes the outputs, on a host with a session: it returns, the
bytes in the zeroed ranges of the outputs from `i` on are 0 and every other
byte is as it was. -/
theorem AsioCalback_bufferSwitch_loop_spec (h : AsioSharedHost) (dbi : Int)
    (hact : activeSession h) (hidx : dbi = 0 ∨ dbi = 1) :
    ∀ (remaining i : Nat) (mem : Memory), i + remaining = h.m_AsioOutChannelInfo.length →
      ∃ mem', AsioCalback_bufferSwitch_loop h dbi remaining i mem = Run.done mem' ∧
        ∀ a, (inZeroedRange h dbi i a → mem' a = 0) ∧
          (¬ inZeroedRange h dbi i a → mem' a = mem a) := by
  obtain ⟨h0, hlen, hsmall, _⟩ := hact
  intro remaining
  induction remaining with
  | zero =>
    intro i mem hi
    refine ⟨mem, rfl, fun a => ⟨?_, fun _ => rfl⟩⟩
    rintro ⟨c, _, _, hc1, hc2, _⟩
    omega
  | succ n ih =>
    intro i mem hi
    have hi1 : i < h.m_AsioOutChannelInfo.length := by omega
    have hmod : i % DWORD_MOD = i := Nat.mod_eq_of_lt (by unfold DWORD_MOD; omega)
    have hget : GetOutputBuffer h (i % DWORD_MOD) = Run.done (some i) := by
      unfold GetOutputBuffer
      rw [hmod, if_neg h0, if_neg (by omega), if_pos (by omega)]
    obtain ⟨slot, hslot⟩ : ∃ slot, h.m_AsioBuffers[i]? = some slot :=
      ⟨_, List.getElem?_eq_getElem (by omega)⟩
    obtain ⟨p, hp⟩ : ∃ p, bufferPointer slot dbi = Run.done p := by
      unfold bufferPointer
      rcases hidx with hz | ho
      · exact ⟨_, by rw [if_pos hz]⟩
      · exact ⟨_, by rw [if_neg (by omega), if_pos ho]⟩
    rw [AsioCalback_bufferSwitch_loop, hget]
    simp only [hslot, hp]
    obtain ⟨mem', hrun, hmem⟩ := ih (i + 1) (memset mem p (numBufferBytes h)) (by omega)
    refine ⟨mem', hrun, fun a => ⟨?_, ?_⟩⟩
    · rintro ⟨c, slot2, q, hc1, hc2, hc3, hc4, hc5, hc6⟩
      by_cases hrest : inZeroedRange h dbi (i + 1) a
      · exact (hmem a).1 hrest
      · rw [(hmem a).2 hrest]
        have hci : c = i := by
          by_contra hne
          exact hrest ⟨c, slot2, q, by omega, hc2, hc3, hc4, hc5, hc6⟩
        subst hci
        rw [hslot] at hc3
        simp only [Option.some.injEq] at hc3
        subst hc3
        rw [hp] at hc4
        simp only [Run.done.injEq] at hc4
        subst hc4
        unfold memset
        rw [if_pos ⟨hc5, hc6⟩]
    · intro hnot
      have hrest : ¬ inZeroedRange h dbi (i + 1) a := by
        rintro ⟨c, slot2, q, hc1, hc2, hc3, hc4, hc5, hc6⟩
        exact hnot ⟨c, slot2, q, by omega, hc2, hc3, hc4, hc5, hc6⟩
      rw [(hmem a).2 hrest]
      unfold memset
      rw [if_neg]
      intro hin
      exact hnot ⟨i, _, p, le_refl i, hi1, hslot, hp, hin.1, hin.2⟩

theorem countP_eq_one_of_nodup (l : List Nat) (x : Nat) (hn : l.Nodup) (hx : x ∈ l) :
    l.countP (fun y => decide (y = x)) = 1 := by
  induction l with
  | nil => exact absurd hx (by simp)
  | cons y ys ih =>
    rw [List.nodup_cons] at hn
    by_cases hy : y = x
    · subst hy
      rw [List.countP_cons_of_pos _ _ (by simp)]
      have hzero : ys.countP (fun z => decide (z = y)) = 0 := by
        rw [List.countP_eq_zero]
        intro z hz
        simp only [decide_eq_true_eq]
        intro hzy
        exact hn.1 (hzy ▸ hz)
      omega
    · rw [List.countP_cons_of_neg _ _ (by simpa using hy)]
      rcases List.mem_cons.mp hx with hxy | hxys
      · exact absurd hxy.symm hy
      · exact ih hn.2 hxys

/-- C15, as amended: on a host with a session, for a half index 0 or 1, one
invocation of the callback returns; when the listeners are notified, the
`numBufferBytes` bytes from the pointer of that half of every output slot are 0,
where `numBufferBytes` is frame count times block alignment reduced modulo
`2 ^ 32` (the exact product when that is below `2 ^ 32`), and every byte outside
those ranges is as it was, so that the other half of an output slot and the
halves of the input slots are unchanged wherever they lie outside the zeroed
ranges; and each registered listener is notified exactly once, with that half
index, and nothing else is notified. -/
theorem AsioCalback_bufferSwitch_zero_fill (h : AsioSharedHost) (mem : Memory) (dbi : Int)
    (hact : activeSession h) (hidx : dbi = 0 ∨ dbi = 1) :
    ∃ o, AsioCalback_bufferSwitch h mem dbi = Run.done o ∧
      numBufferBytes h =
        (h.m_NumBufferFrames * h.m_CurrentWaveFormat.Format.nBlockAlign) % 4294967296 ∧
      (h.m_NumBufferFrames * h.m_CurrentWaveFormat.Format.nBlockAlign < 4294967296 →
        numBufferBytes h = h.m_NumBufferFrames * h.m_CurrentWaveFormat.Format.nBlockAlign) ∧
      (∀ a, inZeroedRange h dbi 0 a → o.mem a = 0) ∧
      (∀ a, ¬ inZeroedRange h dbi 0 a → o.mem a = mem a) ∧
      o.notified = h.m_AsioBufferListeners.map (fun listener => (listener, dbi.toNat)) ∧
      (∀ listener ∈ h.m_AsioBufferListeners,
        o.notified.countP (fun e => decide (e.1 = listener)) = 1) ∧
      (∀ e ∈ o.notified, e.1 ∈ h.m_AsioBufferListeners ∧ e.2 = dbi.toNat) := by
  obtain ⟨mem1, hrun, hmem⟩ := AsioCalback_bufferSwitch_loop_spec h dbi hact hidx
    h.m_AsioOutChannelInfo.length 0 mem (by omega)
  have hcast : toDWORD dbi = dbi.toNat := by
    unfold toDWORD
    rcases hidx with hz | ho
    · rw [hz]; rfl
    · rw [ho]; rfl
  have hnodup := hact.2.2.2
  have hloop : ∀ x, AsioCalback_bufferSwitch_loop { h with m_dbgNumBufferSwitches := x } dbi
      h.m_AsioOutChannelInfo.length 0 mem = Run.done mem1 := by
    intro x
    rw [AsioCalback_bufferSwitch_loop_dbg, hrun]
  have hres : ∃ x, AsioCalback_bufferSwitch h mem dbi =
      Run.done
        { host := { h with m_dbgNumBufferSwitches := x }
          mem := mem1
          notified := h.m_AsioBufferListeners.map (fun listener => (listener, toDWORD dbi)) } := by
    unfold AsioCalback_bufferSwitch
    simp only
    split_ifs
    · exact ⟨_, by simp only; rw [hloop]⟩
    · exact ⟨_, by simp only; rw [hloop]⟩
    · exact ⟨h.m_dbgNumBufferSwitches, by rw [hrun]⟩
  obtain ⟨x, hx⟩ := hres
  refine ⟨_, hx, rfl, fun hlt => Nat.mod_eq_of_lt hlt, fun a => (hmem a).1, fun a => (hmem a).2,
    by simp only [hcast], ?_, ?_⟩
  · intro listener hl
    simp only [hcast]
    rw [List.countP_map]
    exact countP_eq_one_of_nodup _ listener hnodup hl
  · intro e he
    simp only [List.mem_map] at he
    obtain ⟨l, hl, rfl⟩ := he
    exact ⟨hl, hcast⟩

/-- Witness for C15: on the host after the example `Start`, with two listeners
and each half 4096 bytes apart, the callback for half 0 zeroes the first byte of
half 0 of output slot 0, leaves the first byte of its half 1 at 255 and notifies
the listeners 7 and 9 once each with half index 0. -/
theorem AsioCalback_bufferSwitch_zero_fill_witness :
    activeSession exampleListeningHost ∧
    inZeroedRange exampleListeningHost 0 0 65536 ∧
    byteAfterBufferSwitch exampleListeningHost exampleMemory 0 69632 = some 255 ∧
    ∃ o, AsioCalback_bufferSwitch exampleListeningHost exampleMemory 0 = Run.done o ∧
      o.mem 65536 = 0 ∧ o.notified = [(7, 0), (9, 0)] := by
  have hact : activeSession exampleListeningHost :=
    ⟨by decide, by decide, by decide, by decide⟩
  have hin : inZeroedRange exampleListeningHost 0 0 65536 :=
    ⟨0, { isInput := 0, channelNum := 0, buffers0 := 65536, buffers1 := 69632 }, 65536,
      by decide, by decide, by decide, by decide, by decide, by decide⟩
  obtain ⟨o, ho, _, _, hzero, _, hnot, _⟩ :=
    AsioCalback_bufferSwitch_zero_fill exampleListeningHost exampleMemory 0 hact (Or.inl rfl)
  exact ⟨hact, hin, by decide, o, ho, hzero 65536 hin, by rw [hnot]; decide⟩

/-- C15 as stated fails.  On the host after the example `Start` on a driver that
lays the halves out back to back (512 samples of 4 bytes each), the callback for
half 0 zeroes 512 * 8 = 4096 bytes from the pointer of half 0 of output slot 0
and so overwrites the first byte of the other half of that slot.  And on a host
whose frame count times block alignment is `2 ^ 32` the 32-bit product is 0 and
the first byte of half 0 of output slot 0 is not zeroed. -/
theorem AsioCalback_bufferSwitch_zero_fill_counterexample :
    (∃ r, Start exampleDurationToAudioFrames exampleAttachedHost exampleFormat 100000
        BufferSizeMode.BufferSizeMode_Default false exampleTightReplies = Run.done r ∧
      r.ret = ASE_OK ∧ r.host = exampleTightHost) ∧
    exampleTightHost.m_StartCount = 1 ∧
    exampleTightHost.m_AsioBuffers[0]? =
      some { isInput := 0, channelNum := 0, buffers0 := 65536, buffers1 := 67584 } ∧
    exampleTightHost.m_NumBufferFrames *
      exampleTightHost.m_CurrentWaveFormat.Format.nBlockAlign = 4096 ∧
    exampleMemory 67584 = 255 ∧
    byteAfterBufferSwitch exampleTightHost exampleMemory 0 67584 = some 0 ∧
    exampleHugeSessionHost.m_StartCount = 1 ∧
    exampleHugeSessionHost.m_AsioBuffers[0]? =
      some { isInput := 0, channelNum := 0, buffers0 := 65536, buffers1 := 69632 } ∧
    exampleHugeSessionHost.m_NumBufferFrames *
      exampleHugeSessionHost.m_CurrentWaveFormat.Format.nBlockAlign = 4294967296 ∧
    byteAfterBufferSwitch exampleHugeSessionHost exampleMemory 0 65536 = some 255 := by
  have hstart : Start exampleDurationToAudioFrames exampleAttachedHost exampleFormat 100000
      BufferSizeMode.BufferSizeMode_Default false exampleTightReplies
      = Run.done (Start_session exampleAttachedHost exampleFormat 512 exampleTightReplies
          [DriverCall.getChannels, DriverCall.canSampleRate 48000, DriverCall.getChannels,
           DriverCall.canSampleRate 48000, DriverCall.getSampleRate, DriverCall.getBufferSize]) := by
    decide
  exact ⟨⟨_, hstart, by decide, rfl⟩, by decide, by decide, by decide, by decide, by decide,
    by decide, by decide, by decide, by decide⟩

/-! ## Termination of the power-of-two loop -/

/-- The power-of-two loop entered with the counter at `2 ^ k`, when the frame
count or the maximum is at most `2 ^ 31`: `32 - k` tests of its condition are
enough, and the counter takes the values `2 ^ k`, ..., `2 ^ j`, where `j`, at
most 31, is the first exponent from `k` on at which the condition fails. -/
theorem Start_pow2Loop_values_spec (b m : Nat) (hbm : b ≤ 2147483648 ∨ m ≤ 2147483648) :
    ∀ (fuel k : Nat), k ≤ 31 → 31 - k < fuel →
      ∃ j, k ≤ j ∧ j ≤ 31 ∧
        Start_pow2Loop_values fuel (2 ^ k) b m
          = some ((List.range' k (j - k + 1)).map (fun i => 2 ^ i)) ∧
        Start_pow2Loop fuel (2 ^ k) b m = some (2 ^ j) ∧
        ¬(2 ^ j < b ∧ 2 ^ j < m) ∧
        ∀ i, k ≤ i → i < j → 2 ^ i < b ∧ 2 ^ i < m := by
  intro fuel
  induction fuel with
  | zero => intro k _ hf; omega
  | succ fuel ih =>
    intro k hk hf
    rw [Start_pow2Loop_values, Start_pow2Loop]
    by_cases hc : 2 ^ k < b ∧ 2 ^ k < m
    · rw [if_pos hc, if_pos hc]
      have hk31 : k < 31 := by
        by_contra hge
        have hk2 : k = 31 := by omega
        subst hk2
        have : (2 : Nat) ^ 31 = 2147483648 := by norm_num
        omega
      have hle := two_pow_le_of_le_31 (k + 1) (by omega)
      have hstep : (2 ^ k * 2) % DWORD_MOD = 2 ^ (k + 1) := by
        rw [← Nat.pow_succ]
        exact Nat.mod_eq_of_lt (by unfold DWORD_MOD; omega)
      rw [hstep]
      obtain ⟨j, hj1, hj2, hj3, hj4, hj5, hj6⟩ := ih (k + 1) (by omega) (by omega)
      refine ⟨j, by omega, hj2, ?_, hj4, hj5, ?_⟩
      · rw [hj3, Option.map_some']
        have hlen : j - k + 1 = (j - (k + 1) + 1) + 1 := by omega
        have hrange : List.range' k (j - k + 1) =
            k :: List.range' (k + 1) (j - (k + 1) + 1) := by
          rw [hlen]
          exact List.range'_succ k (j - (k + 1) + 1) 1
        rw [hrange, List.map_cons]
      · intro i hi1 hi2
        by_cases hik : i = k
        · subst hik; exact hc
        · exact hj6 i (by omega) hi2
    · rw [if_neg hc, if_neg hc]
      refine ⟨k, le_refl k, hk, ?_, rfl, hc, fun i hi1 hi2 => absurd hi2 (by omega)⟩
      rw [Nat.sub_self]
      rfl

/-- C21: for every requested frame count and every driver envelope with a
minimum and a maximum that are not negative (as 32-bit signed values), the
power-of-two loop of `Start` terminates: for some `j` that is at most 31, 32
tests of the condition are enough, the counter takes the values 1, 2, ...,
`2 ^ j`, that is `j` doublings, none of its values is 0, no doubling reaches
`2 ^ 32`, and with the granularity -1 the size decision returns `2 ^ j`. -/
theorem Start_pow2Loop_terminates (r : Nat) (drv : StartReplies)
    (hmin : 0 ≤ drv.minAsioBufferFrames ∧ drv.minAsioBufferFrames < 2147483648)
    (hmax : 0 ≤ drv.maxAsioBufferFrames ∧ drv.maxAsioBufferFrames < 2147483648) :
    ∃ j, j ≤ 31 ∧
      (∀ fuel, 32 ≤ fuel →
        Start_pow2Loop_values fuel 1
          (Start_clamp r drv.minAsioBufferFrames drv.maxAsioBufferFrames)
          (toDWORD drv.maxAsioBufferFrames)
          = some ((List.range (j + 1)).map (fun i => 2 ^ i)) ∧
        Start_pow2Loop fuel 1
          (Start_clamp r drv.minAsioBufferFrames drv.maxAsioBufferFrames)
          (toDWORD drv.maxAsioBufferFrames) = some (2 ^ j)) ∧
      (∀ i, i ≤ j → 2 ^ i ≠ 0 ∧ 2 ^ i < 4294967296) ∧
      (drv.asioBufferGranularity = -1 →
        Start_decideBufferSize BufferSizeMode.BufferSizeMode_Default r drv
          = Run.done (2 ^ j)) := by
  have hclamp := Start_clamp_lt r drv.minAsioBufferFrames drv.maxAsioBufferFrames hmin hmax
  have hfit : Start_clamp r drv.minAsioBufferFrames drv.maxAsioBufferFrames ≤ 2147483648 ∨
      toDWORD drv.maxAsioBufferFrames ≤ 2147483648 := Or.inl (by omega)
  obtain ⟨j, _, hj31, _, hj, hstop, hlow⟩ :=
    Start_pow2Loop_values_spec _ _ hfit 33 0 (by omega) (by omega)
  rw [pow_zero] at hj
  refine ⟨j, hj31, ?_, ?_, ?_⟩
  · intro fuel hfuel
    obtain ⟨j2, _, _, hv2, hl2, hstop2, hlow2⟩ :=
      Start_pow2Loop_values_spec _ _ hfit fuel 0 (by omega) (by omega)
    rw [pow_zero] at hv2 hl2
    have hjj : j2 = j := by
      rcases Nat.lt_trichotomy j2 j with hlt | heq | hgt
      · exact absurd (hlow j2 (Nat.zero_le _) hlt) hstop2
      · exact heq
      · exact absurd (hlow2 j (Nat.zero_le _) hgt) hstop
    subst hjj
    refine ⟨?_, hl2⟩
    rw [hv2, Nat.sub_zero, List.range_eq_range']
  · intro i hi
    have hle := two_pow_le_of_le_31 i (by omega)
    have hpos : 0 < 2 ^ i := Nat.pos_pow_of_pos i (by decide)
    omega
  · intro hg
    rw [Start_decideBufferSize_default]
    unfold Start_granularity
    rw [hg, if_neg (by decide), if_pos rfl, hj]

/-- Witness for C21: with minimum 0 and maximum 2147483647 a request of
1073741825 frames takes the loop through all 31 doublings, from 1 to
2147483648; a request of 100 frames with maximum 10000 stops at 128 after 7. -/
theorem Start_pow2Loop_terminates_witness :
    (0 ≤ exampleLargestEnvelopeReplies.minAsioBufferFrames ∧
      exampleLargestEnvelopeReplies.minAsioBufferFrames < 2147483648) ∧
    (0 ≤ exampleLargestEnvelopeReplies.maxAsioBufferFrames ∧
      exampleLargestEnvelopeReplies.maxAsioBufferFrames < 2147483648) ∧
    Start_pow2Loop 32 1
      (Start_clamp 1073741825 exampleLargestEnvelopeReplies.minAsioBufferFrames
        exampleLargestEnvelopeReplies.maxAsioBufferFrames)
      (toDWORD exampleLargestEnvelopeReplies.maxAsioBufferFrames) = some 2147483648 ∧
    (Start_pow2Loop_values 32 1
      (Start_clamp 1073741825 exampleLargestEnvelopeReplies.minAsioBufferFrames
        exampleLargestEnvelopeReplies.maxAsioBufferFrames)
      (toDWORD exampleLargestEnvelopeReplies.maxAsioBufferFrames)).map List.length = some 32 ∧
    Start_pow2Loop_values 33 1
      (Start_clamp 100 examplePow2Replies.minAsioBufferFrames
        examplePow2Replies.maxAsioBufferFrames)
      (toDWORD examplePow2Replies.maxAsioBufferFrames) = some [1, 2, 4, 8, 16, 32, 64, 128] ∧
    ∃ j, j ≤ 31 ∧
      (∀ fuel, 32 ≤ fuel →
        Start_pow2Loop_values fuel 1
          (Start_clamp 1073741825 exampleLargestEnvelopeReplies.minAsioBufferFrames
            exampleLargestEnvelopeReplies.maxAsioBufferFrames)
          (toDWORD exampleLargestEnvelopeReplies.maxAsioBufferFrames)
          = some ((List.range (j + 1)).map (fun i => 2 ^ i)) ∧
        Start_pow2Loop fuel 1
          (Start_clamp 1073741825 exampleLargestEnvelopeReplies.minAsioBufferFrames
            exampleLargestEnvelopeReplies.maxAsioBufferFrames)
          (toDWORD exampleLargestEnvelopeReplies.maxAsioBufferFrames) = some (2 ^ j)) ∧
      (∀ i, i ≤ j → 2 ^ i ≠ 0 ∧ 2 ^ i < 4294967296) ∧
      (exampleLargestEnvelopeReplies.asioBufferGranularity = -1 →
        Start_decideBufferSize BufferSizeMode.BufferSizeMode_Default 1073741825
          exampleLargestEnvelopeReplies = Run.done (2 ^ j)) :=
  ⟨by decide, by decide, by decide, by decide, by decide,
   Start_pow2Loop_terminates 1073741825 exampleLargestEnvelopeReplies (by decide) (by decide)⟩

end AsioSharedHost

end RS_ASIO
